import Mathlib

/-!
# RGBP hardware API (is-hw-api-rgbp-v3_0.c): register-level model

The functions of the driver are embedded as state-passing functions over an
access trace: every `RGBP_SET_R` / `RGBP_SET_F` / `RGBP_GET_R` / `RGBP_GET_F`
macro call appends one `Access` to the trace, in program order.  Values read
from the hardware are supplied by an oracle that may depend on the whole
access history.  DMA functions log their `CALL_DMA_OPS` calls in the same way.

C `u32` values are natural numbers; where the source computes in `u32` the
model reduces modulo `2 ^ 32`.  C `int` return codes are represented by their
32-bit two's-complement word, so that `ret |= x` is the bitwise or of words.

The last part of the development embeds the MIPI settle lookup
`is_hw_find_settle` of is-hw-chain.c.
-/

namespace Rgbp

/-! ## Registers, fields and accesses -/

/-- Registers of the RGBP block used by the modelled functions (source names). -/
inductive Reg
  | RGBP_R_CMDQ_ENABLE
  | RGBP_R_CMDQ_QUE_CMD_H
  | RGBP_R_CMDQ_QUE_CMD_M
  | RGBP_R_CMDQ_QUE_CMD_L
  | RGBP_R_CMDQ_ADD_TO_QUEUE_0
  | RGBP_R_COREX_ENABLE
  | RGBP_R_COREX_RESET
  | RGBP_R_COREX_TYPE_WRITE_TRIGGER
  | RGBP_R_COREX_TYPE_WRITE
  | RGBP_R_COREX_UPDATE_TYPE_0
  | RGBP_R_COREX_UPDATE_TYPE_1
  | RGBP_R_COREX_UPDATE_MODE_0
  | RGBP_R_COREX_UPDATE_MODE_1
  | RGBP_R_COREX_COPY_FROM_IP_0
  | RGBP_R_COREX_COPY_FROM_IP_1
  | RGBP_R_COREX_STATUS_0
  | RGBP_R_COREX_START_0
  | RGBP_R_INT_REQ_INT0
  | RGBP_R_INT_REQ_INT0_CLEAR
  | RGBP_R_INT_REQ_INT1
  | RGBP_R_INT_REQ_INT1_CLEAR
  | RGBP_R_SW_RESET
  | RGBP_R_IDLENESS_STATUS
  | RGBP_R_INT_REQ_INT0_STATUS
  | RGBP_R_INT_REQ_INT1_STATUS
  | RGBP_R_YUV_SC_DST_SIZE
  | RGBP_R_YUV_SC_H_INIT_PHASE_OFFSET
  | RGBP_R_YUV_SC_V_INIT_PHASE_OFFSET
  deriving DecidableEq, Repr

/-- Fields of the RGBP block used by the modelled functions (source names). -/
inductive Field
  | RGBP_F_CMDQ_QUE_CMD_BASE_ADDR
  | RGBP_F_CMDQ_QUE_CMD_HEADER_NUM
  | RGBP_F_CMDQ_QUE_CMD_SETTING_MODE
  | RGBP_F_CMDQ_QUE_CMD_INT_GROUP_ENABLE
  | RGBP_F_CMDQ_QUE_CMD_FRO_INDEX
  | RGBP_F_COREX_ENABLE
  | RGBP_F_COREX_RESET
  | RGBP_F_COREX_TYPE_WRITE_TRIGGER
  | RGBP_F_COREX_TYPE_WRITE
  | RGBP_F_COREX_UPDATE_TYPE_0
  | RGBP_F_COREX_UPDATE_TYPE_1
  | RGBP_F_COREX_UPDATE_MODE_0
  | RGBP_F_COREX_UPDATE_MODE_1
  | RGBP_F_COREX_BUSY_0
  | RGBP_F_COREX_START_0
  | RGBP_F_IDLENESS_STATUS
  | RGBP_F_YUV_SC_DST_HSIZE
  | RGBP_F_YUV_SC_DST_VSIZE
  | RGBP_F_YUV_SC_H_INIT_PHASE_OFFSET
  | RGBP_F_YUV_SC_V_INIT_PHASE_OFFSET
  deriving DecidableEq, Repr

open Reg Field

/-- One register access, as issued by the `RGBP_SET_*` / `RGBP_GET_*` macros.
For a read, `v` is the value the hardware returned. -/
inductive Access
  | setR (r : Reg) (v : Nat)
  | setF (r : Reg) (f : Field) (v : Nat)
  | getR (r : Reg) (v : Nat)
  | getF (r : Reg) (f : Field) (v : Nat)
  deriving DecidableEq, Repr

/-- Hardware read behaviour: the value returned by a read, given every access
issued before it. -/
structure Hw where
  getR : List Access → Reg → Nat
  getF : List Access → Reg → Field → Nat

/-- Constants and macros that the source takes from headers outside the
translated files.  They are parameters of the model. -/
structure Consts where
  RGBP_INT_GRP_EN_MASK : Nat
  RGBP_INT_GRP_EN_MASK_FRO_FIRST : Nat
  RGBP_INT_GRP_EN_MASK_FRO_MIDDLE : Nat
  RGBP_INT_GRP_EN_MASK_FRO_LAST : Nat
  RGBP_INT0_ERR_MASK : Nat
  RGBP_INT1_ERR_MASK : Nat
  RGBP_TRY_COUNT : Nat
  COREX_IGNORE : Nat
  COREX_COPY : Nat
  SW_TRIGGER : Nat
  HW_TRIGGER : Nat
  /-- The word of `-EINVAL`. -/
  NEG_EINVAL : Nat
  /-- The word of `-ETIME`. -/
  NEG_ETIME : Nat
  SET_SUCCESS : Nat
  DVA_36BIT_HIGH : Nat → Nat
  SET_ERROR : Nat
  DMA_OPS_ERROR : Nat
  DMA_FMT_BAYER : Nat
  RGBP_COMP_BLOCK_WIDTH : Nat
  RGBP_COMP_BLOCK_HEIGHT : Nat
  MCSC_HF_COMP_BLOCK_WIDTH : Nat
  MCSC_HF_COMP_BLOCK_HEIGHT : Nat
  IS_32B_WRITE_ALLOC_SHIFT : Nat
  IS_MAX_FRO : Nat

/-- Width of a `u32`. -/
def U32 : Nat := 2 ^ 32

/-- Subtraction of two `u32` values, wrapping as in C. -/
def u32_sub (a b : Nat) : Nat := (a + U32 - b % U32) % U32

/-- `RGBP_SET_R(base, r, v)`. -/
def RGBP_SET_R (r : Reg) (v : Nat) (tr : List Access) : List Access :=
  tr ++ [Access.setR r v]

/-- `RGBP_SET_F(base, r, f, v)`. -/
def RGBP_SET_F (r : Reg) (f : Field) (v : Nat) (tr : List Access) : List Access :=
  tr ++ [Access.setF r f v]

/-- `RGBP_GET_R(base, r)`: the value read and the extended trace. -/
def RGBP_GET_R (hw : Hw) (r : Reg) (tr : List Access) : Nat × List Access :=
  (hw.getR tr r, tr ++ [Access.getR r (hw.getR tr r)])

/-- `RGBP_GET_F(base, r, f)`: the value read and the extended trace. -/
def RGBP_GET_F (hw : Hw) (r : Reg) (f : Field) (tr : List Access) : Nat × List Access :=
  (hw.getF tr r f, tr ++ [Access.getF r f (hw.getF tr r f)])

/-! ## Trace observations -/

/-- Values written to field `f` of register `r` by `RGBP_SET_F`, in order. -/
def writesToField (r : Reg) (f : Field) (tr : List Access) : List Nat :=
  tr.filterMap fun a =>
    match a with
    | Access.setF r1 f1 v => if r1 = r ∧ f1 = f then some v else none
    | _ => none

/-- Values written to register `r` by `RGBP_SET_R`, in order. -/
def writesToReg (r : Reg) (tr : List Access) : List Nat :=
  tr.filterMap fun a =>
    match a with
    | Access.setR r1 v => if r1 = r then some v else none
    | _ => none

/-- The write accesses of a trace (reads dropped), in order. -/
def writesOf (tr : List Access) : List Access :=
  tr.filter fun a =>
    match a with
    | Access.setR _ _ => true
    | Access.setF _ _ _ => true
    | _ => false

/-! ## Command queue: `rgbp_hw_s_cmdq` -/

/-- Body of the `for` loop of `rgbp_hw_s_cmdq` for index `i`. -/
def rgbp_hw_s_cmdq_body (K : Consts) (num_buffers clh noh : Nat) (i : Nat)
    (tr : List Access) : List Access :=
  let fro_en := if num_buffers > 1 then 1 else 0
  let tr :=
    if i = 0 then
      RGBP_SET_F RGBP_R_CMDQ_QUE_CMD_L RGBP_F_CMDQ_QUE_CMD_INT_GROUP_ENABLE
        (if fro_en ≠ 0 then K.RGBP_INT_GRP_EN_MASK_FRO_FIRST else K.RGBP_INT_GRP_EN_MASK) tr
    else if i < u32_sub num_buffers 1 then
      RGBP_SET_F RGBP_R_CMDQ_QUE_CMD_L RGBP_F_CMDQ_QUE_CMD_INT_GROUP_ENABLE
        K.RGBP_INT_GRP_EN_MASK_FRO_MIDDLE tr
    else
      RGBP_SET_F RGBP_R_CMDQ_QUE_CMD_L RGBP_F_CMDQ_QUE_CMD_INT_GROUP_ENABLE
        K.RGBP_INT_GRP_EN_MASK_FRO_LAST tr
  let tr :=
    if clh ≠ 0 ∧ noh ≠ 0 then
      let tr := RGBP_SET_F RGBP_R_CMDQ_QUE_CMD_H RGBP_F_CMDQ_QUE_CMD_BASE_ADDR
        (K.DVA_36BIT_HIGH clh) tr
      let tr := RGBP_SET_F RGBP_R_CMDQ_QUE_CMD_M RGBP_F_CMDQ_QUE_CMD_HEADER_NUM noh tr
      RGBP_SET_F RGBP_R_CMDQ_QUE_CMD_M RGBP_F_CMDQ_QUE_CMD_SETTING_MODE 1 tr
    else
      RGBP_SET_F RGBP_R_CMDQ_QUE_CMD_M RGBP_F_CMDQ_QUE_CMD_SETTING_MODE 3 tr
  let tr := RGBP_SET_F RGBP_R_CMDQ_QUE_CMD_L RGBP_F_CMDQ_QUE_CMD_FRO_INDEX i tr
  RGBP_SET_R RGBP_R_CMDQ_ADD_TO_QUEUE_0 1 tr

/-- `rgbp_hw_s_cmdq(base, set_id, num_buffers, clh, noh)`.  The loop
`for (i = 0; i < num_buffers; ++i)` runs its body for `i = 0 .. num_buffers-1`;
the counter is compared with, and written as, a `u32`. -/
def rgbp_hw_s_cmdq (K : Consts) (set_id num_buffers clh noh : Nat)
    (tr : List Access) : List Access :=
  let _ := set_id
  let fro_en := if num_buffers > 1 then 1 else 0
  let tr := if fro_en ≠ 0 then RGBP_SET_R RGBP_R_CMDQ_ENABLE 0 tr else tr
  let tr := (List.range num_buffers).foldl
    (fun tr i => rgbp_hw_s_cmdq_body K num_buffers clh noh i tr) tr
  RGBP_SET_R RGBP_R_CMDQ_ENABLE 1 tr

/-! ## Interrupt state: `rgbp_hw_g_int0_state`, `rgbp_hw_g_int1_state` -/

/-- Result of `rgbp_hw_g_int0_state` and `rgbp_hw_g_int1_state`: the return value, the value stored
in `*irq_state`, and the trace. -/
structure IntState where
  ret : Nat
  irq_state : Nat
  trace : List Access

/-- `rgbp_hw_g_int0_state(base, clear, num_buffers, irq_state)`. -/
def rgbp_hw_g_int0_state (K : Consts) (hw : Hw) (clear : Bool) (num_buffers : Nat)
    (tr : List Access) : IntState :=
  let _ := num_buffers
  let (src_all, tr) := RGBP_GET_R hw RGBP_R_INT_REQ_INT0 tr
  let tr := if clear then RGBP_SET_R RGBP_R_INT_REQ_INT0_CLEAR src_all tr else tr
  let src_err := src_all &&& K.RGBP_INT0_ERR_MASK
  let irq_state := src_all
  let src := src_all
  ⟨src ||| src_err, irq_state, tr⟩

/-- `rgbp_hw_g_int1_state(base, clear, num_buffers, irq_state)`. -/
def rgbp_hw_g_int1_state (K : Consts) (hw : Hw) (clear : Bool) (num_buffers : Nat)
    (tr : List Access) : IntState :=
  let _ := num_buffers
  let (src_all, tr) := RGBP_GET_R hw RGBP_R_INT_REQ_INT1 tr
  let tr := if clear then RGBP_SET_R RGBP_R_INT_REQ_INT1_CLEAR src_all tr else tr
  let src_err := src_all &&& K.RGBP_INT1_ERR_MASK
  let irq_state := src_all
  let src := src_all
  ⟨src ||| src_err, irq_state, tr⟩

/-! ## COREX: `rgbp_hw_wait_corex_idle`, `rgbp_hw_s_corex_init`,
`rgbp_hw_s_corex_update_type` -/

/-- The `set_id` argument of the COREX functions: the three enumerators the
source switches on, or any other `u32` value. -/
inductive CorexSet
  | COREX_SET_A
  | COREX_SET_B
  | COREX_DIRECT
  | other (raw : Nat)
  deriving DecidableEq, Repr

/-- The `do { ... } while (busy)` loop of `rgbp_hw_wait_corex_idle`, entered
with the current value of `try_cnt`. -/
def rgbp_hw_wait_corex_idle_loop (K : Consts) (hw : Hw) (try_cnt : Nat)
    (tr : List Access) : List Access :=
  let try_cnt1 := try_cnt + 1
  if K.RGBP_TRY_COUNT ≤ try_cnt1 then
    tr
  else
    let busy := RGBP_GET_F hw RGBP_R_COREX_STATUS_0 RGBP_F_COREX_BUSY_0 tr
    if busy.1 ≠ 0 then rgbp_hw_wait_corex_idle_loop K hw try_cnt1 busy.2 else busy.2
termination_by K.RGBP_TRY_COUNT - try_cnt
decreasing_by omega

/-- `rgbp_hw_wait_corex_idle(base)`. -/
def rgbp_hw_wait_corex_idle (K : Consts) (hw : Hw) (tr : List Access) : List Access :=
  rgbp_hw_wait_corex_idle_loop K hw 0 tr

/-- The `while (RGBP_GET_R(base, RGBP_R_COREX_RESET))` loop of
`rgbp_hw_s_corex_init`, entered with the current value of `reset_count`. -/
def rgbp_hw_s_corex_init_reset_loop (K : Consts) (hw : Hw) (reset_count : Nat)
    (tr : List Access) : List Access :=
  let v := RGBP_GET_R hw RGBP_R_COREX_RESET tr
  if v.1 ≠ 0 then
    if K.RGBP_TRY_COUNT < reset_count then
      v.2
    else
      rgbp_hw_s_corex_init_reset_loop K hw (reset_count + 1) v.2
  else
    v.2
termination_by K.RGBP_TRY_COUNT + 1 - reset_count
decreasing_by omega

/-- `rgbp_hw_s_corex_init(base, enable)`. -/
def rgbp_hw_s_corex_init (K : Consts) (hw : Hw) (enable : Bool)
    (tr : List Access) : List Access :=
  if !enable then
    let tr := RGBP_SET_F RGBP_R_COREX_UPDATE_MODE_0 RGBP_F_COREX_UPDATE_MODE_0 K.SW_TRIGGER tr
    let tr := rgbp_hw_wait_corex_idle K hw tr
    RGBP_SET_F RGBP_R_COREX_ENABLE RGBP_F_COREX_ENABLE 0 tr
  else
    let tr := RGBP_SET_F RGBP_R_COREX_ENABLE RGBP_F_COREX_ENABLE 1 tr
    let tr := RGBP_SET_F RGBP_R_COREX_RESET RGBP_F_COREX_RESET 1 tr
    let tr := rgbp_hw_s_corex_init_reset_loop K hw 0 tr
    let tr := RGBP_SET_F RGBP_R_COREX_TYPE_WRITE_TRIGGER RGBP_F_COREX_TYPE_WRITE_TRIGGER 1 tr
    let tr := RGBP_SET_F RGBP_R_COREX_TYPE_WRITE RGBP_F_COREX_TYPE_WRITE 0 tr
    let tr := RGBP_SET_F RGBP_R_COREX_UPDATE_TYPE_0 RGBP_F_COREX_UPDATE_TYPE_0 K.COREX_COPY tr
    let tr := RGBP_SET_F RGBP_R_COREX_UPDATE_TYPE_1 RGBP_F_COREX_UPDATE_TYPE_1 K.COREX_IGNORE tr
    let tr := RGBP_SET_F RGBP_R_COREX_UPDATE_MODE_0 RGBP_F_COREX_UPDATE_MODE_0 K.SW_TRIGGER tr
    let tr := RGBP_SET_F RGBP_R_COREX_UPDATE_MODE_1 RGBP_F_COREX_UPDATE_MODE_1 K.SW_TRIGGER tr
    let tr := RGBP_SET_R RGBP_R_COREX_COPY_FROM_IP_0 1 tr
    let tr := RGBP_SET_R RGBP_R_COREX_COPY_FROM_IP_1 1 tr
    rgbp_hw_wait_corex_idle K hw tr

/-- `rgbp_hw_s_corex_update_type(base, set_id, type)`: return word and trace. -/
def rgbp_hw_s_corex_update_type (K : Consts) (set_id : CorexSet) (type : Nat)
    (tr : List Access) : Nat × List Access :=
  match set_id with
  | CorexSet.COREX_SET_A | CorexSet.COREX_SET_B =>
    let tr := RGBP_SET_F RGBP_R_COREX_UPDATE_TYPE_0 RGBP_F_COREX_UPDATE_TYPE_0 type tr
    let tr := RGBP_SET_F RGBP_R_COREX_UPDATE_TYPE_1 RGBP_F_COREX_UPDATE_TYPE_1 type tr
    (0, tr)
  | CorexSet.COREX_DIRECT =>
    let tr := RGBP_SET_F RGBP_R_COREX_UPDATE_TYPE_0 RGBP_F_COREX_UPDATE_TYPE_0 K.COREX_IGNORE tr
    let tr := RGBP_SET_F RGBP_R_COREX_UPDATE_TYPE_1 RGBP_F_COREX_UPDATE_TYPE_1 K.COREX_IGNORE tr
    (0, tr)
  | CorexSet.other _ => (K.NEG_EINVAL, tr)

/-- Value held by field `f` of register `r` after the accesses of `tr`: the
value of the last `RGBP_SET_F` to it, `none` when the trace never wrote it. -/
def fieldValue (r : Reg) (f : Field) (tr : List Access) : Option Nat :=
  (writesToField r f tr).getLast?

/-- One call to a COREX operation, for sequences of calls. -/
inductive CorexCall
  | init (enable : Bool)
  | update_type (set_id : CorexSet) (type : Nat)

/-- Run one COREX call on the trace. -/
def CorexCall.run (K : Consts) (hw : Hw) (c : CorexCall) (tr : List Access) : List Access :=
  match c with
  | CorexCall.init enable => rgbp_hw_s_corex_init K hw enable tr
  | CorexCall.update_type set_id type => (rgbp_hw_s_corex_update_type K set_id type tr).2

/-- Run a sequence of COREX calls, first call first. -/
def runCorexCalls (K : Consts) (hw : Hw) (cs : List CorexCall) (tr : List Access) :
    List Access :=
  cs.foldl (fun tr c => c.run K hw tr) tr

/-! ## DMA channels: descriptor builders and address binders -/

/-- The `id` of a `struct is_common_dma`: the channel roles the source switches
on, or any other `u32` value. -/
inductive DmaId
  | RGBP_RDMA_BYR
  | RGBP_RDMA_REP_G
  | RGBP_RDMA_REP_B
  | RGBP_WDMA_HF
  | RGBP_WDMA_SF
  | RGBP_WDMA_Y
  | RGBP_WDMA_UV
  | RGBP_WDMA_REPB
  | other (raw : Nat)
  deriving DecidableEq, Repr

/-- The members of `struct param_dma_input` read by the modelled functions. -/
structure param_dma_input where
  cmd : Nat
  format : Nat
  bitwidth : Nat
  msb : Nat
  width : Nat
  height : Nat
  sbwc_type : Nat
  v_otf_enable : Nat
  deriving DecidableEq, Repr

/-- The members of `struct param_dma_output` read by the modelled functions. -/
structure param_dma_output where
  cmd : Nat
  format : Nat
  bitwidth : Nat
  msb : Nat
  width : Nat
  height : Nat
  sbwc_type : Nat
  v_otf_enable : Nat
  deriving DecidableEq, Repr

/-- The contents of a `struct param_otf_input`.  Its members are declared
outside the translated files; the modelled functions copy it as a whole. -/
structure param_otf_input where
  raw : List Nat
  deriving DecidableEq, Repr

/-- The contents of a `struct param_otf_output`, copied as a whole. -/
structure param_otf_output where
  raw : List Nat
  deriving DecidableEq, Repr

/-- The contents of a `struct param_stripe_input`, copied as a whole. -/
structure param_stripe_input where
  raw : List Nat
  deriving DecidableEq, Repr

/-- The members of `struct rgbp_param_set` named in the translated files: the
parameter blocks and the address arrays. -/
structure rgbp_param_set where
  dma_input : param_dma_input
  dma_input_rgb : param_dma_input
  dma_output_yuv : param_dma_output
  dma_output_hf : param_dma_output
  dma_output_sf : param_dma_output
  dma_output_rgb : param_dma_output
  otf_input : param_otf_input
  otf_output : param_otf_output
  stripe_input : param_stripe_input
  input_dva : List Nat
  input_dva_rgb : List Nat
  output_dva_yuv : List Nat
  output_dva_hf : List Nat
  output_dva_sf : List Nat
  output_dva_rgb : List Nat
  deriving DecidableEq, Repr

/-- The members of `struct rgbp_param` read by `rgbp_hw_update_param`. -/
structure rgbp_param where
  otf_input : param_otf_input
  otf_output : param_otf_output
  yuv : param_dma_output
  hf : param_dma_output
  sf : param_dma_output
  stripe_input : param_stripe_input
  dma_input : param_dma_input
  rgb : param_dma_output
  deriving DecidableEq, Repr

/-- One call through `CALL_DMA_OPS`, with its arguments.  A `format` that was
never assigned, and an address-array slot that was never assigned, hold an
indeterminate value, written `none`.  Address arrays are the whole local array
of `IS_MAX_FRO` slots. -/
inductive DmaOp
  | dma_enable (enable : Nat)
  | dma_set_format (format : Option Nat) (dma_format : Nat)
  | dma_set_comp_sbwc_en (comp_sbwc_en : Nat)
  | dma_set_size (width height : Nat)
  | dma_set_img_stride (stride_1p stride_2p stride_3p : Nat)
  | dma_votf_enable (en_votf : Nat) (arg : Nat)
  | dma_set_bus_info (bus_info : Nat)
  | dma_set_cache_32b_pa (en_32b_pa : Nat)
  | dma_set_comp_64b_align (comp_64b_align : Nat)
  | dma_set_header_stride (header_stride_1p : Nat) (arg : Nat)
  | dma_set_img_addr (address : List (Option Nat)) (plane : Nat) (buf_idx : Int)
      (num_buffers : Nat)
  | dma_set_header_addr (hdr_addr : List (Option Nat)) (plane : Nat) (buf_idx : Int)
      (num_buffers : Nat)
  deriving DecidableEq, Repr

/-- Functions of the common DMA layer (is-hw-common-dma), which is outside the
translated files; they are parameters of the model.
* `is_hw_dma_get_comp_sbwc_en sbwc_type a` is the pair of the returned
  compression mode and the final value of `*comp_64b_align` when it held `a`.
* `is_hw_dma_get_bayer_format` gives the returned word (non-zero on failure)
  and the value it stored in `*format`, `none` when it stored nothing.
* `call_ret done op` is the word returned by `CALL_DMA_OPS` for `op` when the
  operations `done` were issued before. -/
structure DmaEnv where
  is_hw_dma_get_comp_sbwc_en : Nat → Nat → Nat × Nat
  is_hw_dma_get_bayer_format : Nat → Nat → Nat → Nat → Bool → Nat × Option Nat
  is_hw_dma_get_img_stride : Nat → Nat → Nat → Nat → Nat → Bool → Nat
  is_hw_dma_get_payload_stride : Nat → Nat → Nat → Nat → Nat → Nat → Nat → Nat
  is_hw_dma_get_header_stride : Nat → Nat → Nat → Nat
  call_ret : List DmaOp → DmaOp → Nat

/-- `CALL_DMA_OPS(dma, op, args...)`: the returned word and the extended log. -/
def CALL_DMA_OPS (E : DmaEnv) (op : DmaOp) (ops : List DmaOp) : Nat × List DmaOp :=
  (E.call_ret ops op, ops ++ [op])

/-- Result of a descriptor builder: the returned word, the values stored
through the `sbwc_en` and `payload_size` pointers (`none`: nothing stored, the
caller's variable is unchanged), and the log of DMA operations. -/
structure InitResult where
  ret : Nat
  sbwc_en : Option Nat
  payload_size : Option Nat
  ops : List DmaOp
  deriving DecidableEq, Repr

/-- The first `switch (dma->id)` of `rgbp_hw_s_rdma_init`: the selected
`dma_input`, `none` for the `default` case. -/
def rdma_init_select (id : DmaId) (param_set : rgbp_param_set) (in_rgb : Nat) :
    Option param_dma_input :=
  match id with
  | DmaId.RGBP_RDMA_BYR =>
    if in_rgb ≠ 0 then some param_set.dma_input_rgb else some param_set.dma_input
  | DmaId.RGBP_RDMA_REP_G | DmaId.RGBP_RDMA_REP_B => some param_set.dma_input_rgb
  | _ => none

/-- `rgbp_hw_s_rdma_init(hw_ip, dma, param_set, enable, in_crop_size_x,
cache_hint, sbwc_en, payload_size, in_rgb)` for a `dma` with the given `id`. -/
def rgbp_hw_s_rdma_init (K : Consts) (E : DmaEnv) (id : DmaId) (param_set : rgbp_param_set)
    (enable in_crop_size_x cache_hint in_rgb : Nat) (ops : List DmaOp) : InitResult :=
  let _ := in_crop_size_x
  let c := CALL_DMA_OPS E (DmaOp.dma_enable enable) ops
  let ret := c.1
  let ops := c.2
  if enable = 0 then
    ⟨0, none, none, ops⟩
  else
    match rdma_init_select id param_set in_rgb with
    | none => ⟨K.SET_ERROR, none, none, ops⟩
    | some dma_input =>
      let width := dma_input.width
      let height := dma_input.height
      let en_votf := dma_input.v_otf_enable
      let hwformat := dma_input.format
      let memory_bitwidth := dma_input.bitwidth
      let pixelsize := (dma_input.msb + 1) % U32
      let _bus_info := if en_votf ≠ 0 then (cache_hint <<< 4) % U32 else 0
      let comp_sbwc_en := 0
      let stride_1p := E.is_hw_dma_get_img_stride memory_bitwidth pixelsize hwformat width 16 true
      let b := E.is_hw_dma_get_bayer_format memory_bitwidth pixelsize hwformat comp_sbwc_en true
      let format : Option Nat := b.2
      let ret := if b.1 ≠ 0 then ret ||| K.DMA_OPS_ERROR else ret
      let c := CALL_DMA_OPS E (DmaOp.dma_set_format format K.DMA_FMT_BAYER) ops
      let ret := ret ||| c.1
      let c := CALL_DMA_OPS E (DmaOp.dma_set_size width height) c.2
      let ret := ret ||| c.1
      let c := CALL_DMA_OPS E (DmaOp.dma_set_img_stride stride_1p 0 0) c.2
      let ret := ret ||| c.1
      let c := CALL_DMA_OPS E (DmaOp.dma_votf_enable en_votf 0) c.2
      let ret := ret ||| c.1
      ⟨ret, some comp_sbwc_en, some 0, c.2⟩

/-- The first `switch (dma->id)` of `rgbp_hw_s_wdma_init`: the selected
`dma_output` with the block width and height, `none` for the `default` case. -/
def wdma_init_select (K : Consts) (id : DmaId) (param_set : rgbp_param_set) (out_yuv : Nat) :
    Option (param_dma_output × Nat × Nat) :=
  match id with
  | DmaId.RGBP_WDMA_HF =>
    some (param_set.dma_output_hf, K.MCSC_HF_COMP_BLOCK_WIDTH, K.MCSC_HF_COMP_BLOCK_HEIGHT)
  | DmaId.RGBP_WDMA_SF =>
    some (param_set.dma_output_sf, K.RGBP_COMP_BLOCK_WIDTH, K.RGBP_COMP_BLOCK_HEIGHT)
  | DmaId.RGBP_WDMA_Y | DmaId.RGBP_WDMA_UV =>
    if out_yuv ≠ 0 then
      some (param_set.dma_output_yuv, K.RGBP_COMP_BLOCK_WIDTH, K.RGBP_COMP_BLOCK_HEIGHT)
    else
      some (param_set.dma_output_rgb, K.RGBP_COMP_BLOCK_WIDTH, K.RGBP_COMP_BLOCK_HEIGHT)
  | DmaId.RGBP_WDMA_REPB =>
    some (param_set.dma_output_rgb, K.RGBP_COMP_BLOCK_WIDTH, K.RGBP_COMP_BLOCK_HEIGHT)
  | _ => none

/-- The payload size computed in `u32` by `rgbp_hw_s_wdma_init`:
`((height + comp_block_height - 1) / comp_block_height) * stride_1p`. -/
def wdma_payload_size (height comp_block_height stride_1p : Nat) : Nat :=
  (((u32_sub ((height + comp_block_height) % U32) 1) / comp_block_height) * stride_1p) % U32

/-- Value of a variable after a callee was given a pointer to it: the value
the callee stored, or the previous value when it stored nothing. -/
def stored (new old : Option Nat) : Option Nat :=
  match new with
  | some v => some v
  | none => old

/-- The second `switch (dma->id)` of `rgbp_hw_s_wdma_init`: the final
`bus_info` and `en_32b_pa`, `none` for the `default` case. -/
def wdma_init_bus (K : Consts) (id : DmaId) (en_votf comp_sbwc_en bus_info : Nat) :
    Option (Nat × Nat) :=
  match id with
  | DmaId.RGBP_WDMA_HF =>
    if en_votf ≠ 0 ∧ comp_sbwc_en ≠ 0 then
      some (bus_info ||| ((1 <<< K.IS_32B_WRITE_ALLOC_SHIFT) % U32), 1)
    else
      some (bus_info, 0)
  | DmaId.RGBP_WDMA_SF | DmaId.RGBP_WDMA_Y | DmaId.RGBP_WDMA_UV | DmaId.RGBP_WDMA_REPB =>
    some (bus_info, 0)
  | _ => none

/-- `rgbp_hw_s_wdma_init(hw_ip, dma, param_set, instance, enable,
in_crop_size_x, cache_hint, sbwc_en, payload_size, out_yuv)` for a `dma` with
the given `id`. -/
def rgbp_hw_s_wdma_init (K : Consts) (E : DmaEnv) (id : DmaId) (param_set : rgbp_param_set)
    (instance_id enable in_crop_size_x cache_hint out_yuv : Nat) (ops : List DmaOp) :
    InitResult :=
  let _ := instance_id
  let _ := in_crop_size_x
  let lossy_byte32num := 0
  let c := CALL_DMA_OPS E (DmaOp.dma_enable enable) ops
  let ret := c.1
  let ops := c.2
  if enable = 0 then
    ⟨0, none, none, ops⟩
  else
    match wdma_init_select K id param_set out_yuv with
    | none => ⟨K.SET_ERROR, none, none, ops⟩
    | some (dma_output, comp_block_width, comp_block_height) =>
      let width := dma_output.width
      let height := dma_output.height
      let en_votf := dma_output.v_otf_enable
      let hwformat := dma_output.format
      let sbwc_type := dma_output.sbwc_type
      let memory_bitwidth := dma_output.bitwidth
      let pixelsize := (dma_output.msb + 1) % U32
      let bus_info := if en_votf ≠ 0 then (cache_hint <<< 4) % U32 else 0
      let s := E.is_hw_dma_get_comp_sbwc_en sbwc_type 1
      let comp_sbwc_en := s.1
      let comp_64b_align := s.2
      let b := E.is_hw_dma_get_bayer_format memory_bitwidth pixelsize hwformat comp_sbwc_en true
      let format : Option Nat := b.2
      let ret := if b.1 ≠ 0 then ret ||| K.DMA_OPS_ERROR else ret
      let strides : Option (Nat × Nat) :=
        if comp_sbwc_en = 0 then
          some (E.is_hw_dma_get_img_stride memory_bitwidth pixelsize hwformat width 16 true, 0)
        else if comp_sbwc_en = 1 ∨ comp_sbwc_en = 2 then
          some (E.is_hw_dma_get_payload_stride comp_sbwc_en pixelsize width comp_64b_align
                  lossy_byte32num comp_block_width comp_block_height,
                E.is_hw_dma_get_header_stride width comp_block_width 16)
        else
          none
      match strides with
      | none => ⟨K.SET_ERROR, some comp_sbwc_en, none, ops⟩
      | some (stride_1p, header_stride_1p) =>
        match wdma_init_bus K id en_votf comp_sbwc_en bus_info with
        | none => ⟨K.SET_ERROR, some comp_sbwc_en, none, ops⟩
        | some (bus_info, en_32b_pa) =>
          let dma_format := K.DMA_FMT_BAYER
          let b := E.is_hw_dma_get_bayer_format memory_bitwidth pixelsize hwformat
            comp_sbwc_en true
          let format := stored b.2 format
          let ret := if b.1 ≠ 0 then ret ||| K.DMA_OPS_ERROR else ret
          let c := CALL_DMA_OPS E (DmaOp.dma_set_format format dma_format) ops
          let ret := ret ||| c.1
          let c := CALL_DMA_OPS E (DmaOp.dma_set_comp_sbwc_en comp_sbwc_en) c.2
          let ret := ret ||| c.1
          let c := CALL_DMA_OPS E (DmaOp.dma_set_size width height) c.2
          let ret := ret ||| c.1
          let c := CALL_DMA_OPS E (DmaOp.dma_set_img_stride stride_1p 0 0) c.2
          let ret := ret ||| c.1
          let c := CALL_DMA_OPS E (DmaOp.dma_votf_enable en_votf 0) c.2
          let ret := ret ||| c.1
          let c := CALL_DMA_OPS E (DmaOp.dma_set_bus_info bus_info) c.2
          let ret := ret ||| c.1
          let c := CALL_DMA_OPS E (DmaOp.dma_set_cache_32b_pa en_32b_pa) c.2
          let ret := ret ||| c.1
          if comp_sbwc_en = 1 ∨ comp_sbwc_en = 2 then
            let c := CALL_DMA_OPS E (DmaOp.dma_set_comp_64b_align comp_64b_align) c.2
            let ret := ret ||| c.1
            let c := CALL_DMA_OPS E (DmaOp.dma_set_header_stride header_stride_1p 0) c.2
            let ret := ret ||| c.1
            ⟨ret, some comp_sbwc_en,
              some (wdma_payload_size height comp_block_height stride_1p), c.2⟩
          else
            ⟨ret, some comp_sbwc_en, some 0, c.2⟩

/-- Number of values of a `dma_addr_t`: 64 bits on this platform (the driver
keeps 36-bit device addresses in it, see `DVA_36BIT_HIGH`). -/
def DMA_ADDR : Nat := 2 ^ 64

/-- A local array `dma_addr_t a[IS_MAX_FRO]` before any assignment. -/
def local_array (K : Consts) : List (Option Nat) := List.replicate K.IS_MAX_FRO none

/-- The loop `for (i = 0; i < num_buffers; i++) address[i] = *(addr + (t_plane * i + k))`
on the local array `address`. -/
def fill_address (addr : Nat → Nat) (t_plane k num_buffers : Nat)
    (address : List (Option Nat)) : List (Option Nat) :=
  (List.range num_buffers).foldl (fun a i => a.set i (some (addr (t_plane * i + k)))) address

/-- The loop `for (i = 0; i < num_buffers; i++) hdr_addr[i] = address[i] + payload_size`. -/
def fill_hdr_addr (address : List (Option Nat)) (payload_size num_buffers : Nat)
    (hdr_addr : List (Option Nat)) : List (Option Nat) :=
  (List.range num_buffers).foldl
    (fun h i => h.set i ((address.getD i none).map fun a => (a + payload_size) % DMA_ADDR))
    hdr_addr

/-- `rgbp_hw_s_rdma_addr(dma, addr, plane, num_buffers, buf_idx, comp_sbwc_en,
payload_size, in_rgb)` for a `dma` with the given `id`; `addr` is the caller's
array.  The result is `none` when a loop stores past the end of the local array
(`num_buffers > IS_MAX_FRO`), which C leaves undefined. -/
def rgbp_hw_s_rdma_addr (K : Consts) (E : DmaEnv) (id : DmaId) (addr : Nat → Nat)
    (plane num_buffers : Nat) (buf_idx : Int) (comp_sbwc_en payload_size in_rgb : Nat)
    (ops : List DmaOp) : Option (Nat × List DmaOp) :=
  let _ := comp_sbwc_en
  let _ := payload_size
  let t_plane := if in_rgb ≠ 0 then 3 else 1
  let address := local_array K
  let k : Option Nat :=
    match id with
    | DmaId.RGBP_RDMA_BYR => some 0
    | DmaId.RGBP_RDMA_REP_G => some 1
    | DmaId.RGBP_RDMA_REP_B => some 2
    | _ => none
  match k with
  | none => some (K.SET_ERROR, ops)
  | some k =>
    if K.IS_MAX_FRO < num_buffers then
      none
    else
      let address := fill_address addr t_plane k num_buffers address
      some (CALL_DMA_OPS E (DmaOp.dma_set_img_addr address plane buf_idx num_buffers) ops)

/-- The first `switch (dma->id)` of `rgbp_hw_s_wdma_addr`: stride and offset
of the index into the caller's array, `none` for the `default` case. -/
def wdma_addr_index (id : DmaId) (t_plane : Nat) : Option (Nat × Nat) :=
  match id with
  | DmaId.RGBP_WDMA_HF | DmaId.RGBP_WDMA_SF => some (1, 0)
  | DmaId.RGBP_WDMA_Y => some (t_plane, 0)
  | DmaId.RGBP_WDMA_UV => some (t_plane, 1)
  | DmaId.RGBP_WDMA_REPB => some (t_plane, 2)
  | _ => none

/-- `rgbp_hw_s_wdma_addr(dma, addr, plane, num_buffers, buf_idx, comp_sbwc_en,
payload_size, out_yuv)` for a `dma` with the given `id`; `addr` is the caller's
array.  The result is `none` when a loop stores past the end of a local array
(`num_buffers > IS_MAX_FRO`), which C leaves undefined. -/
def rgbp_hw_s_wdma_addr (K : Consts) (E : DmaEnv) (id : DmaId) (addr : Nat → Nat)
    (plane num_buffers : Nat) (buf_idx : Int) (comp_sbwc_en payload_size out_yuv : Nat)
    (ops : List DmaOp) : Option (Nat × List DmaOp) :=
  let t_plane := if out_yuv ≠ 0 then 2 else 3
  let address := local_array K
  let hdr_addr := local_array K
  match wdma_addr_index id t_plane with
  | none => some (K.SET_ERROR, ops)
  | some (t, k) =>
    if K.IS_MAX_FRO < num_buffers then
      none
    else
      let address := fill_address addr t k num_buffers address
      let c := CALL_DMA_OPS E (DmaOp.dma_set_img_addr address plane buf_idx num_buffers) ops
      if comp_sbwc_en ≠ 0 then
        let hdr_addr :=
          match id with
          | DmaId.RGBP_WDMA_HF | DmaId.RGBP_WDMA_Y | DmaId.RGBP_WDMA_UV =>
            fill_hdr_addr address payload_size num_buffers hdr_addr
          | _ => hdr_addr
        some (CALL_DMA_OPS E (DmaOp.dma_set_header_addr hdr_addr plane buf_idx num_buffers) c.2)
      else
        some c

/-- The address arrays handed to `dma_set_img_addr`, in order of the calls. -/
def imgAddrArrays (ops : List DmaOp) : List (List (Option Nat)) :=
  ops.filterMap fun o =>
    match o with
    | DmaOp.dma_set_img_addr a _ _ _ => some a
    | _ => none

/-- The address arrays handed to `dma_set_header_addr`, in order of the calls. -/
def hdrAddrArrays (ops : List DmaOp) : List (List (Option Nat)) :=
  ops.filterMap fun o =>
    match o with
    | DmaOp.dma_set_header_addr a _ _ _ => some a
    | _ => none

/-- The channel roles recognised by the read-channel functions. -/
def is_rdma_role (id : DmaId) : Bool :=
  match id with
  | DmaId.RGBP_RDMA_BYR | DmaId.RGBP_RDMA_REP_G | DmaId.RGBP_RDMA_REP_B => true
  | _ => false

/-- The channel roles recognised by the write-channel functions. -/
def is_wdma_role (id : DmaId) : Bool :=
  match id with
  | DmaId.RGBP_WDMA_HF | DmaId.RGBP_WDMA_SF | DmaId.RGBP_WDMA_Y | DmaId.RGBP_WDMA_UV
  | DmaId.RGBP_WDMA_REPB => true
  | _ => false

/-- The invariant as the specification words it: one of the two update-type
fields holds `COREX_COPY` and the other holds `COREX_IGNORE`. -/
def corex_one_copy_one_ignore (K : Consts) (tr : List Access) : Prop :=
  (fieldValue RGBP_R_COREX_UPDATE_TYPE_0 RGBP_F_COREX_UPDATE_TYPE_0 tr = some K.COREX_COPY ∧
    fieldValue RGBP_R_COREX_UPDATE_TYPE_1 RGBP_F_COREX_UPDATE_TYPE_1 tr = some K.COREX_IGNORE) ∨
  (fieldValue RGBP_R_COREX_UPDATE_TYPE_0 RGBP_F_COREX_UPDATE_TYPE_0 tr = some K.COREX_IGNORE ∧
    fieldValue RGBP_R_COREX_UPDATE_TYPE_1 RGBP_F_COREX_UPDATE_TYPE_1 tr = some K.COREX_COPY)

instance (K : Consts) (tr : List Access) : Decidable (corex_one_copy_one_ignore K tr) := by
  unfold corex_one_copy_one_ignore
  infer_instance

/-! ## Interrupt events: `rgbp_hw_is_occurred0`, `rgbp_hw_is_occurred1` -/

/-- Bit positions of the interrupt sources (`INTR0_RGBP_*`, `INTR1_RGBP_*`
enumerators), which the source takes from a header outside the translated
files.  They are parameters of the model. -/
structure IntrBits where
  INTR0_RGBP_FRAME_START_INT : Nat
  INTR0_RGBP_FRAME_END_INT : Nat
  INTR0_RGBP_CMDQ_HOLD_INT : Nat
  INTR0_RGBP_SETTING_DONE_INT : Nat
  INTR0_RGBP_C_LOADER_END_INT : Nat
  INTR0_RGBP_COREX_END_INT_0 : Nat
  INTR0_RGBP_COREX_END_INT_1 : Nat
  INTR0_RGBP_ROW_COL_INT : Nat
  INTR0_RGBP_TRANS_STOP_DONE_INT : Nat
  INTR1_RGBP_VOTFLOSTFLUSH : Nat
  INTR1_RGBP_VOTF0RDMALOSTCONNECTION : Nat
  INTR1_RGBP_VOTF0RDMALOSTFLUSH : Nat
  INTR1_RGBP_VOTF1WDMALOSTFLUSH : Nat

/-- The `enum rgbp_event_type` argument of `rgbp_hw_is_occurred0`: the
enumerators the source switches on, or any other value. -/
inductive rgbp_event_type
  | INTR0_FRAME_START_INT
  | INTR0_FRAME_END_INT
  | INTR0_CMDQ_HOLD_INT
  | INTR0_SETTING_DONE_INT
  | INTR0_C_LOADER_END_INT
  | INTR0_COREX_END_INT_0
  | INTR0_COREX_END_INT_1
  | INTR0_ROW_COL_INT
  | INTR0_TRANS_STOP_DONE_INT
  | INTR0_ERR0
  | other (raw : Nat)
  deriving DecidableEq, Repr

/-- The `enum rgbp_event_type1` argument of `rgbp_hw_is_occurred1`: the
enumerators the source switches on, or any other value. -/
inductive rgbp_event_type1
  | INTR1_VOTFLOSTFLUSH_INT
  | INTR1_VOTF0RDMALOSTCONNECTION_INT
  | INTR1_VOTF0RDMALOSTFLUSH_INT
  | INTR1_VOTF1WDMALOSTFLUSH_INT
  | INTR1_ERR1
  | other (raw : Nat)
  deriving DecidableEq, Repr

/-- The C expression `1 << n` stored in a `u32`. -/
def bit_mask (n : Nat) : Nat := (1 <<< n) % U32

/-- `rgbp_hw_is_occurred0(status, type)`. -/
def rgbp_hw_is_occurred0 (K : Consts) (B : IntrBits) (status : Nat) (type : rgbp_event_type) :
    Nat :=
  let mask : Option Nat :=
    match type with
    | rgbp_event_type.INTR0_FRAME_START_INT => some (bit_mask B.INTR0_RGBP_FRAME_START_INT)
    | rgbp_event_type.INTR0_FRAME_END_INT => some (bit_mask B.INTR0_RGBP_FRAME_END_INT)
    | rgbp_event_type.INTR0_CMDQ_HOLD_INT => some (bit_mask B.INTR0_RGBP_CMDQ_HOLD_INT)
    | rgbp_event_type.INTR0_SETTING_DONE_INT => some (bit_mask B.INTR0_RGBP_SETTING_DONE_INT)
    | rgbp_event_type.INTR0_C_LOADER_END_INT => some (bit_mask B.INTR0_RGBP_C_LOADER_END_INT)
    | rgbp_event_type.INTR0_COREX_END_INT_0 => some (bit_mask B.INTR0_RGBP_COREX_END_INT_0)
    | rgbp_event_type.INTR0_COREX_END_INT_1 => some (bit_mask B.INTR0_RGBP_COREX_END_INT_1)
    | rgbp_event_type.INTR0_ROW_COL_INT => some (bit_mask B.INTR0_RGBP_ROW_COL_INT)
    | rgbp_event_type.INTR0_TRANS_STOP_DONE_INT =>
      some (bit_mask B.INTR0_RGBP_TRANS_STOP_DONE_INT)
    | rgbp_event_type.INTR0_ERR0 => some K.RGBP_INT0_ERR_MASK
    | rgbp_event_type.other _ => none
  match mask with
  | none => 0
  | some mask => status &&& mask

/-- `rgbp_hw_is_occurred1(status, type)`. -/
def rgbp_hw_is_occurred1 (K : Consts) (B : IntrBits) (status : Nat) (type : rgbp_event_type1) :
    Nat :=
  let mask : Option Nat :=
    match type with
    | rgbp_event_type1.INTR1_VOTFLOSTFLUSH_INT => some (bit_mask B.INTR1_RGBP_VOTFLOSTFLUSH)
    | rgbp_event_type1.INTR1_VOTF0RDMALOSTCONNECTION_INT =>
      some (bit_mask B.INTR1_RGBP_VOTF0RDMALOSTCONNECTION)
    | rgbp_event_type1.INTR1_VOTF0RDMALOSTFLUSH_INT =>
      some (bit_mask B.INTR1_RGBP_VOTF0RDMALOSTFLUSH)
    | rgbp_event_type1.INTR1_VOTF1WDMALOSTFLUSH_INT =>
      some (bit_mask B.INTR1_RGBP_VOTF1WDMALOSTFLUSH)
    | rgbp_event_type1.INTR1_ERR1 => some K.RGBP_INT1_ERR_MASK
    | rgbp_event_type1.other _ => none
  match mask with
  | none => 0
  | some mask => status &&& mask

/-- Bit position the switch of `rgbp_hw_is_occurred0` uses for a single-event
type; `none` for the aggregate error type and for unrecognised types. -/
def intr0_bit (B : IntrBits) (type : rgbp_event_type) : Option Nat :=
  match type with
  | rgbp_event_type.INTR0_FRAME_START_INT => some B.INTR0_RGBP_FRAME_START_INT
  | rgbp_event_type.INTR0_FRAME_END_INT => some B.INTR0_RGBP_FRAME_END_INT
  | rgbp_event_type.INTR0_CMDQ_HOLD_INT => some B.INTR0_RGBP_CMDQ_HOLD_INT
  | rgbp_event_type.INTR0_SETTING_DONE_INT => some B.INTR0_RGBP_SETTING_DONE_INT
  | rgbp_event_type.INTR0_C_LOADER_END_INT => some B.INTR0_RGBP_C_LOADER_END_INT
  | rgbp_event_type.INTR0_COREX_END_INT_0 => some B.INTR0_RGBP_COREX_END_INT_0
  | rgbp_event_type.INTR0_COREX_END_INT_1 => some B.INTR0_RGBP_COREX_END_INT_1
  | rgbp_event_type.INTR0_ROW_COL_INT => some B.INTR0_RGBP_ROW_COL_INT
  | rgbp_event_type.INTR0_TRANS_STOP_DONE_INT => some B.INTR0_RGBP_TRANS_STOP_DONE_INT
  | _ => none

/-- Bit position the switch of `rgbp_hw_is_occurred1` uses for a single-event
type; `none` for the aggregate error type and for unrecognised types. -/
def intr1_bit (B : IntrBits) (type : rgbp_event_type1) : Option Nat :=
  match type with
  | rgbp_event_type1.INTR1_VOTFLOSTFLUSH_INT => some B.INTR1_RGBP_VOTFLOSTFLUSH
  | rgbp_event_type1.INTR1_VOTF0RDMALOSTCONNECTION_INT =>
    some B.INTR1_RGBP_VOTF0RDMALOSTCONNECTION
  | rgbp_event_type1.INTR1_VOTF0RDMALOSTFLUSH_INT => some B.INTR1_RGBP_VOTF0RDMALOSTFLUSH
  | rgbp_event_type1.INTR1_VOTF1WDMALOSTFLUSH_INT => some B.INTR1_RGBP_VOTF1WDMALOSTFLUSH
  | _ => none

/-- The bit positions are usable: each is below 32 and the positions of one
register are pairwise distinct. -/
def IntrBits.wellFormed (B : IntrBits) : Prop :=
  (∀ p ∈ [B.INTR0_RGBP_FRAME_START_INT, B.INTR0_RGBP_FRAME_END_INT,
      B.INTR0_RGBP_CMDQ_HOLD_INT, B.INTR0_RGBP_SETTING_DONE_INT,
      B.INTR0_RGBP_C_LOADER_END_INT, B.INTR0_RGBP_COREX_END_INT_0,
      B.INTR0_RGBP_COREX_END_INT_1, B.INTR0_RGBP_ROW_COL_INT,
      B.INTR0_RGBP_TRANS_STOP_DONE_INT], p < 32) ∧
  [B.INTR0_RGBP_FRAME_START_INT, B.INTR0_RGBP_FRAME_END_INT,
      B.INTR0_RGBP_CMDQ_HOLD_INT, B.INTR0_RGBP_SETTING_DONE_INT,
      B.INTR0_RGBP_C_LOADER_END_INT, B.INTR0_RGBP_COREX_END_INT_0,
      B.INTR0_RGBP_COREX_END_INT_1, B.INTR0_RGBP_ROW_COL_INT,
      B.INTR0_RGBP_TRANS_STOP_DONE_INT].Nodup ∧
  (∀ p ∈ [B.INTR1_RGBP_VOTFLOSTFLUSH, B.INTR1_RGBP_VOTF0RDMALOSTCONNECTION,
      B.INTR1_RGBP_VOTF0RDMALOSTFLUSH, B.INTR1_RGBP_VOTF1WDMALOSTFLUSH], p < 32) ∧
  [B.INTR1_RGBP_VOTFLOSTFLUSH, B.INTR1_RGBP_VOTF0RDMALOSTCONNECTION,
      B.INTR1_RGBP_VOTF0RDMALOSTFLUSH, B.INTR1_RGBP_VOTF1WDMALOSTFLUSH].Nodup

instance (B : IntrBits) : Decidable B.wellFormed := by
  unfold IntrBits.wellFormed
  infer_instance

/-! ## COREX: `rgbp_hw_s_corex_start` -/

/-- `rgbp_hw_s_corex_start(base, enable)`. -/
def rgbp_hw_s_corex_start (K : Consts) (hw : Hw) (enable : Bool)
    (tr : List Access) : List Access :=
  if !enable then
    tr
  else
    let tr := RGBP_SET_F RGBP_R_COREX_UPDATE_MODE_0 RGBP_F_COREX_UPDATE_MODE_0 K.SW_TRIGGER tr
    let tr := RGBP_SET_F RGBP_R_COREX_START_0 RGBP_F_COREX_START_0 1 tr
    let tr := rgbp_hw_wait_corex_idle K hw tr
    RGBP_SET_F RGBP_R_COREX_UPDATE_MODE_0 RGBP_F_COREX_UPDATE_MODE_0 K.HW_TRIGGER tr

/-- The value of a read access, `none` for a write. -/
def Access.readValue (a : Access) : Option Nat :=
  match a with
  | Access.getR _ v => some v
  | Access.getF _ _ v => some v
  | _ => none

/-! ## Reset and idle polls: `rgbp_hw_s_reset`, `rgbp_hw_wait_idle` -/

/-- The `while (RGBP_GET_R(base, RGBP_R_SW_RESET))` loop of `rgbp_hw_s_reset`,
entered with the current value of `reset_count`: the returned word and the
extended trace.  `reset_count` is a `u32`; it stays below `2 ^ 32` as long as
`RGBP_TRY_COUNT + 1` does. -/
def rgbp_hw_s_reset_loop (K : Consts) (hw : Hw) (reset_count : Nat)
    (tr : List Access) : Nat × List Access :=
  let v := RGBP_GET_R hw RGBP_R_SW_RESET tr
  if v.1 ≠ 0 then
    if K.RGBP_TRY_COUNT < reset_count then
      (reset_count % U32, v.2)
    else
      rgbp_hw_s_reset_loop K hw (reset_count + 1) v.2
  else
    (0, v.2)
termination_by K.RGBP_TRY_COUNT + 1 - reset_count
decreasing_by omega

/-- `rgbp_hw_s_reset(base)`: the returned word and the extended trace. -/
def rgbp_hw_s_reset (K : Consts) (hw : Hw) (tr : List Access) : Nat × List Access :=
  let reset_count := 0
  let tr := RGBP_SET_R RGBP_R_SW_RESET 1 tr
  rgbp_hw_s_reset_loop K hw reset_count tr

/-- The `while (!idle)` loop of `rgbp_hw_wait_idle`, entered with the current
values of `idle`, `try_cnt` and `ret`: the final `ret` and the extended trace.
The register dump `rgbp_hw_dump` on the timeout path only prints to the log
(through functions outside the translated files) and is not part of the trace. -/
def rgbp_hw_wait_idle_loop (K : Consts) (hw : Hw) (idle try_cnt ret : Nat)
    (tr : List Access) : Nat × List Access :=
  if idle = 0 then
    let i := RGBP_GET_F hw RGBP_R_IDLENESS_STATUS RGBP_F_IDLENESS_STATUS tr
    let try_cnt1 := try_cnt + 1
    if K.RGBP_TRY_COUNT ≤ try_cnt1 then
      (K.NEG_ETIME, i.2)
    else
      rgbp_hw_wait_idle_loop K hw i.1 try_cnt1 ret i.2
  else
    (ret, tr)
termination_by K.RGBP_TRY_COUNT - try_cnt
decreasing_by omega

/-- `rgbp_hw_wait_idle(base)`: the returned word and the extended trace. -/
def rgbp_hw_wait_idle (K : Consts) (hw : Hw) (tr : List Access) : Nat × List Access :=
  let ret := K.SET_SUCCESS
  let try_cnt := 0
  let idle := RGBP_GET_F hw RGBP_R_IDLENESS_STATUS RGBP_F_IDLENESS_STATUS tr
  let int0_all := RGBP_GET_R hw RGBP_R_INT_REQ_INT0_STATUS idle.2
  let int1_all := RGBP_GET_R hw RGBP_R_INT_REQ_INT1_STATUS int0_all.2
  let l := rgbp_hw_wait_idle_loop K hw idle.1 try_cnt ret int1_all.2
  let int0_all := RGBP_GET_R hw RGBP_R_INT_REQ_INT0_STATUS l.2
  let int1_all := RGBP_GET_R hw RGBP_R_INT_REQ_INT1_STATUS int0_all.2
  (l.1, int1_all.2)

/-- Values returned by the reads of register `r` through `RGBP_GET_R`, in order. -/
def readsOfReg (r : Reg) (tr : List Access) : List Nat :=
  tr.filterMap fun a =>
    match a with
    | Access.getR r1 v => if r1 = r then some v else none
    | _ => none

/-- Values returned by the reads of field `f` of register `r` through
`RGBP_GET_F`, in order. -/
def readsOfField (r : Reg) (f : Field) (tr : List Access) : List Nat :=
  tr.filterMap fun a =>
    match a with
    | Access.getF r1 f1 v => if r1 = r ∧ f1 = f then some v else none
    | _ => none

/-! ## Sequences of COREX operations -/

/-- One call to a COREX operation of the driver, for sequences of calls. -/
inductive CorexOp
  | init (enable : Bool)
  | update_type (set_id : CorexSet) (type : Nat)
  | start (enable : Bool)
  | wait_idle
  deriving DecidableEq, Repr

/-- Run one COREX operation on the trace. -/
def CorexOp.run (K : Consts) (hw : Hw) (c : CorexOp) (tr : List Access) : List Access :=
  match c with
  | CorexOp.init enable => rgbp_hw_s_corex_init K hw enable tr
  | CorexOp.update_type set_id type => (rgbp_hw_s_corex_update_type K set_id type tr).2
  | CorexOp.start enable => rgbp_hw_s_corex_start K hw enable tr
  | CorexOp.wait_idle => rgbp_hw_wait_corex_idle K hw tr

/-- Run a sequence of COREX operations, first call first. -/
def runCorexOps (K : Consts) (hw : Hw) (cs : List CorexOp) (tr : List Access) :
    List Access :=
  cs.foldl (fun tr c => c.run K hw tr) tr

/-- Whether the calls `cs` leave COREX initialised: the last
`rgbp_hw_s_corex_init` among them, if any, was an enabling one. -/
def corex_armed (cs : List CorexOp) : Bool :=
  cs.foldl (fun st c =>
    match c with
    | CorexOp.init enable => enable
    | _ => st) false

/-- The start pulses written by a trace: the values written to
`RGBP_F_COREX_START_0`. -/
def startPulses (tr : List Access) : List Nat :=
  writesToField RGBP_R_COREX_START_0 RGBP_F_COREX_START_0 tr

/-- The property "no start pulse before an enabling init" for a sequence of
calls: every call that writes a start pulse comes after calls that leave
COREX initialised. -/
def start_only_when_armed (K : Consts) (hw : Hw) (cs : List CorexOp) : Prop :=
  ∀ n, n < cs.length →
    startPulses (runCorexOps K hw (cs.take (n + 1)) []) ≠
        startPulses (runCorexOps K hw (cs.take n) []) →
      corex_armed (cs.take n) = true

/-! ## Scaler: `rgbp_hw_get_scaler_coef`, `rgbp_hw_s_yuvsc_coef`,
`rgbp_hw_s_upsc_coef` -/

/-- The ratio thresholds and coefficient-set identifiers of the scaler, which
the source takes from a header outside the translated files. -/
structure ScalerConsts where
  RGBP_RATIO_X8_8 : Nat
  RGBP_RATIO_X7_8 : Nat
  RGBP_RATIO_X6_8 : Nat
  RGBP_RATIO_X5_8 : Nat
  RGBP_RATIO_X4_8 : Nat
  RGBP_RATIO_X3_8 : Nat
  RGBP_RATIO_X2_8 : Nat
  RGBP_COEFF_X8_8 : Nat
  RGBP_COEFF_X7_8 : Nat
  RGBP_COEFF_X6_8 : Nat
  RGBP_COEFF_X5_8 : Nat
  RGBP_COEFF_X4_8 : Nat
  RGBP_COEFF_X3_8 : Nat
  RGBP_COEFF_X2_8 : Nat

/-- `rgbp_hw_get_scaler_coef(ratio)`. -/
def rgbp_hw_get_scaler_coef (S : ScalerConsts) (ratio : Nat) : Nat :=
  if ratio ≤ S.RGBP_RATIO_X8_8 then S.RGBP_COEFF_X8_8
  else if ratio > S.RGBP_RATIO_X8_8 ∧ ratio ≤ S.RGBP_RATIO_X7_8 then S.RGBP_COEFF_X7_8
  else if ratio > S.RGBP_RATIO_X7_8 ∧ ratio ≤ S.RGBP_RATIO_X6_8 then S.RGBP_COEFF_X6_8
  else if ratio > S.RGBP_RATIO_X6_8 ∧ ratio ≤ S.RGBP_RATIO_X5_8 then S.RGBP_COEFF_X5_8
  else if ratio > S.RGBP_RATIO_X5_8 ∧ ratio ≤ S.RGBP_RATIO_X4_8 then S.RGBP_COEFF_X4_8
  else if ratio > S.RGBP_RATIO_X4_8 ∧ ratio ≤ S.RGBP_RATIO_X3_8 then S.RGBP_COEFF_X3_8
  else if ratio > S.RGBP_RATIO_X3_8 ∧ ratio ≤ S.RGBP_RATIO_X2_8 then S.RGBP_COEFF_X2_8
  else S.RGBP_COEFF_X2_8

/-- The branch of the `if` chain of `rgbp_hw_get_scaler_coef` taken for `ratio`:
0 for the first `if`, 1 to 6 for the `else if` branches in order, 7 for the
final `else`. -/
def scaler_coef_branch (S : ScalerConsts) (ratio : Nat) : Nat :=
  if ratio ≤ S.RGBP_RATIO_X8_8 then 0
  else if ratio > S.RGBP_RATIO_X8_8 ∧ ratio ≤ S.RGBP_RATIO_X7_8 then 1
  else if ratio > S.RGBP_RATIO_X7_8 ∧ ratio ≤ S.RGBP_RATIO_X6_8 then 2
  else if ratio > S.RGBP_RATIO_X6_8 ∧ ratio ≤ S.RGBP_RATIO_X5_8 then 3
  else if ratio > S.RGBP_RATIO_X5_8 ∧ ratio ≤ S.RGBP_RATIO_X4_8 then 4
  else if ratio > S.RGBP_RATIO_X4_8 ∧ ratio ≤ S.RGBP_RATIO_X3_8 then 5
  else if ratio > S.RGBP_RATIO_X3_8 ∧ ratio ≤ S.RGBP_RATIO_X2_8 then 6
  else 7

/-- The value assigned to `coef` in each branch of `rgbp_hw_get_scaler_coef`. -/
def scaler_branch_coef (S : ScalerConsts) (branch : Nat) : Nat :=
  match branch with
  | 0 => S.RGBP_COEFF_X8_8
  | 1 => S.RGBP_COEFF_X7_8
  | 2 => S.RGBP_COEFF_X6_8
  | 3 => S.RGBP_COEFF_X5_8
  | 4 => S.RGBP_COEFF_X4_8
  | 5 => S.RGBP_COEFF_X3_8
  | 6 => S.RGBP_COEFF_X2_8
  | _ => S.RGBP_COEFF_X2_8

/-- The buckets of the scaler: upper ratio threshold and coefficient set, from
the highest scale factor to the lowest. -/
def scaler_buckets (S : ScalerConsts) : List (Nat × Nat) :=
  [(S.RGBP_RATIO_X8_8, S.RGBP_COEFF_X8_8), (S.RGBP_RATIO_X7_8, S.RGBP_COEFF_X7_8),
   (S.RGBP_RATIO_X6_8, S.RGBP_COEFF_X6_8), (S.RGBP_RATIO_X5_8, S.RGBP_COEFF_X5_8),
   (S.RGBP_RATIO_X4_8, S.RGBP_COEFF_X4_8), (S.RGBP_RATIO_X3_8, S.RGBP_COEFF_X3_8),
   (S.RGBP_RATIO_X2_8, S.RGBP_COEFF_X2_8)]

/-- The thresholds are strictly increasing from `RGBP_RATIO_X8_8` to
`RGBP_RATIO_X2_8`. -/
def ScalerConsts.increasing (S : ScalerConsts) : Prop :=
  S.RGBP_RATIO_X8_8 < S.RGBP_RATIO_X7_8 ∧ S.RGBP_RATIO_X7_8 < S.RGBP_RATIO_X6_8 ∧
  S.RGBP_RATIO_X6_8 < S.RGBP_RATIO_X5_8 ∧ S.RGBP_RATIO_X5_8 < S.RGBP_RATIO_X4_8 ∧
  S.RGBP_RATIO_X4_8 < S.RGBP_RATIO_X3_8 ∧ S.RGBP_RATIO_X3_8 < S.RGBP_RATIO_X2_8

instance (S : ScalerConsts) : Decidable S.increasing := by
  unfold ScalerConsts.increasing
  infer_instance

/-- The final `else` of `rgbp_hw_get_scaler_coef` is unreachable: no `u32`
ratio takes it. -/
def scaler_else_unreachable (S : ScalerConsts) : Prop :=
  ∀ ratio, ratio < U32 → scaler_coef_branch S ratio ≠ 7

/-- `rgbp_hw_s_h_init_phase_offset(base, set_id, h_offset)`. -/
def rgbp_hw_s_h_init_phase_offset (set_id h_offset : Nat) (tr : List Access) : List Access :=
  let _ := set_id
  RGBP_SET_F RGBP_R_YUV_SC_H_INIT_PHASE_OFFSET RGBP_F_YUV_SC_H_INIT_PHASE_OFFSET h_offset tr

/-- `rgbp_hw_s_v_init_phase_offset(base, set_id, v_offset)`. -/
def rgbp_hw_s_v_init_phase_offset (set_id v_offset : Nat) (tr : List Access) : List Access :=
  let _ := set_id
  RGBP_SET_F RGBP_R_YUV_SC_V_INIT_PHASE_OFFSET RGBP_F_YUV_SC_V_INIT_PHASE_OFFSET v_offset tr

/-- `rgbp_hw_s_yuvsc_coef(base, set_id, hratio, vratio)`. -/
def rgbp_hw_s_yuvsc_coef (S : ScalerConsts) (set_id hratio vratio : Nat)
    (tr : List Access) : List Access :=
  let h_phase_offset := 0
  let v_phase_offset := 0
  let _h_coef := rgbp_hw_get_scaler_coef S hratio
  let _v_coef := rgbp_hw_get_scaler_coef S vratio
  let v_phase_offset := if vratio < S.RGBP_RATIO_X8_8 then vratio >>> 1 else v_phase_offset
  let tr := rgbp_hw_s_h_init_phase_offset set_id h_phase_offset tr
  rgbp_hw_s_v_init_phase_offset set_id v_phase_offset tr

/-- `rgbp_hw_s_upsc_coef(base, set_id, hratio, vratio)`. -/
def rgbp_hw_s_upsc_coef (S : ScalerConsts) (set_id hratio vratio : Nat)
    (tr : List Access) : List Access :=
  let h_phase_offset := 0
  let v_phase_offset := 0
  let _h_coef := rgbp_hw_get_scaler_coef S hratio
  let _v_coef := rgbp_hw_get_scaler_coef S vratio
  let tr := rgbp_hw_s_h_init_phase_offset set_id h_phase_offset tr
  rgbp_hw_s_v_init_phase_offset set_id v_phase_offset tr

/-- A concrete choice of the scaler constants, for evaluating the model on
examples: ratios in 1/2^20 units, coefficient sets numbered 0 to 6. -/
def sampleScaler : ScalerConsts where
  RGBP_RATIO_X8_8 := 1048576
  RGBP_RATIO_X7_8 := 1198373
  RGBP_RATIO_X6_8 := 1398101
  RGBP_RATIO_X5_8 := 1677722
  RGBP_RATIO_X4_8 := 2097152
  RGBP_RATIO_X3_8 := 2796203
  RGBP_RATIO_X2_8 := 4194304
  RGBP_COEFF_X8_8 := 0
  RGBP_COEFF_X7_8 := 1
  RGBP_COEFF_X6_8 := 2
  RGBP_COEFF_X5_8 := 3
  RGBP_COEFF_X4_8 := 4
  RGBP_COEFF_X3_8 := 5
  RGBP_COEFF_X2_8 := 6

/-! ## Parameter update: `rgbp_hw_update_param` -/

/-- The parameter indices tested by `rgbp_hw_update_param`, enumerators of a
header outside the translated files. -/
structure ParamIds where
  PARAM_RGBP_OTF_INPUT : Nat
  PARAM_RGBP_OTF_OUTPUT : Nat
  PARAM_RGBP_YUV : Nat
  PARAM_RGBP_HF : Nat
  PARAM_RGBP_SF : Nat
  PARAM_RGBP_STRIPE_INPUT : Nat
  PARAM_RGBP_DMA_INPUT : Nat
  PARAM_RGBP_RGB : Nat

/-- `test_bit(nr, pmap)` on a parameter bitmap, the bitmap being the natural
number whose binary digits are its bits. -/
def test_bit (nr : Nat) (pmap : Nat) : Bool := pmap.testBit nr

/-- `rgbp_hw_update_param(src, pmap, dst)`: the final contents of `*dst`.  Each
`if (test_bit(...)) memcpy(&dst->block, &src->block, sizeof(block))` assigns the
whole block of `dst` when the bit is set and leaves it as it was otherwise. -/
def rgbp_hw_update_param (P : ParamIds) (src : rgbp_param) (pmap : Nat)
    (dst : rgbp_param_set) : rgbp_param_set :=
  let dst := { dst with
    otf_input := if test_bit P.PARAM_RGBP_OTF_INPUT pmap then src.otf_input else dst.otf_input }
  let dst := { dst with
    otf_output := if test_bit P.PARAM_RGBP_OTF_OUTPUT pmap then src.otf_output else dst.otf_output }
  let dst := { dst with
    dma_output_yuv := if test_bit P.PARAM_RGBP_YUV pmap then src.yuv else dst.dma_output_yuv }
  let dst := { dst with
    dma_output_hf := if test_bit P.PARAM_RGBP_HF pmap then src.hf else dst.dma_output_hf }
  let dst := { dst with
    dma_output_sf := if test_bit P.PARAM_RGBP_SF pmap then src.sf else dst.dma_output_sf }
  let dst := { dst with
    stripe_input := if test_bit P.PARAM_RGBP_STRIPE_INPUT pmap then src.stripe_input else dst.stripe_input }
  let dst := { dst with
    dma_input := if test_bit P.PARAM_RGBP_DMA_INPUT pmap then src.dma_input else dst.dma_input }
  let dst := { dst with
    dma_output_rgb := if test_bit P.PARAM_RGBP_RGB pmap then src.rgb else dst.dma_output_rgb }
  dst

/-- The parameter set `param_set` with the `sbwc_type` of both read-channel
blocks replaced by `t`. -/
def rdma_with_sbwc_type (param_set : rgbp_param_set) (t : Nat) : rgbp_param_set :=
  { param_set with
    dma_input := { param_set.dma_input with sbwc_type := t }
    dma_input_rgb := { param_set.dma_input_rgb with sbwc_type := t } }

/-! ## Register fields: set and get of the scaler output size

The field layer behind `RGBP_SET_F` / `RGBP_GET_F` (`is_hw_set_field`,
`is_hw_get_field` and the register and field tables) is outside the translated
files; it is modelled from the specification of the register field abstraction. -/

/-- Modelled from the spec: a `RegisterField`, reduced to the bit offset and the
bit width of the field inside its 32-bit register (the field tables of the
header are missing). -/
structure FieldDesc where
  bit_start : Nat
  bit_width : Nat
  deriving DecidableEq, Repr

/-- Modelled from the spec: the bits of a register that belong to a field,
`((1 << width) - 1) << start` (missing: the mask computation of the field
layer). -/
def field_mask (f : FieldDesc) : Nat := ((1 <<< f.bit_width) - 1) <<< f.bit_start

/-- Modelled from the spec: the read-modify-write of `set_field` on a register
value (missing: `is_hw_set_field_value`): the bits of the field are cleared in
`reg_value`, `val` is shifted into the bit range of the field and masked, and
the 32-bit result is the new register value. -/
def is_hw_set_field_value (reg_value : Nat) (f : FieldDesc) (val : Nat) : Nat :=
  ((reg_value ^^^ (reg_value &&& field_mask f)) |||
    ((val <<< f.bit_start) &&& field_mask f)) % U32

/-- Modelled from the spec: the mask and right-shift extraction of `get_field`
from a register value (missing: `is_hw_get_field_value`). -/
def is_hw_get_field_value (reg_value : Nat) (f : FieldDesc) : Nat :=
  (reg_value &&& field_mask f) >>> f.bit_start

/-- Modelled from the spec: the effect of one access on the register state
(missing: `is_hw_set_reg`, `is_hw_set_field`): a register write stores the
32-bit value, a field write is a read-modify-write of its register, a read
changes nothing.  `L` is the field table. -/
def regWrite (L : Field → FieldDesc) (m : Reg → Nat) (a : Access) : Reg → Nat :=
  match a with
  | Access.setR r v => Function.update m r (v % U32)
  | Access.setF r f v => Function.update m r (is_hw_set_field_value (m r) (L f) v)
  | _ => m

/-- Modelled from the spec: the register state after the accesses of `tr`,
starting from the state `init` (writes are applied in order). -/
def regFile (L : Field → FieldDesc) (init : Reg → Nat) (tr : List Access) : Reg → Nat :=
  tr.foldl (regWrite L) init

/-- Modelled from the spec: hardware whose registers hold what was last written
to them (missing: `is_hw_get_reg`, `is_hw_get_field`): a read returns the
register value after the accesses issued so far, a field read extracts the
field from it. -/
def memHw (L : Field → FieldDesc) (init : Reg → Nat) : Hw where
  getR := fun tr r => regFile L init tr r
  getF := fun tr r f => is_hw_get_field_value (regFile L init tr r) (L f)

/-- `rgbp_hw_s_yuvsc_dst_size(base, set_id, h_size, v_size)`. -/
def rgbp_hw_s_yuvsc_dst_size (set_id h_size v_size : Nat) (tr : List Access) : List Access :=
  let _ := set_id
  let tr := RGBP_SET_F RGBP_R_YUV_SC_DST_SIZE RGBP_F_YUV_SC_DST_HSIZE h_size tr
  RGBP_SET_F RGBP_R_YUV_SC_DST_SIZE RGBP_F_YUV_SC_DST_VSIZE v_size tr

/-- `rgbp_hw_g_yuvsc_dst_size(base, set_id, h_size, v_size)`: the values stored
through `h_size` and `v_size`, and the extended trace. -/
def rgbp_hw_g_yuvsc_dst_size (hw : Hw) (set_id : Nat) (tr : List Access) :
    (Nat × Nat) × List Access :=
  let _ := set_id
  let h := RGBP_GET_F hw RGBP_R_YUV_SC_DST_SIZE RGBP_F_YUV_SC_DST_HSIZE tr
  let v := RGBP_GET_F hw RGBP_R_YUV_SC_DST_SIZE RGBP_F_YUV_SC_DST_VSIZE h.2
  ((h.1, v.1), v.2)

/-- A concrete field table, for evaluating the model on examples: the
horizontal size in bits 0..13 and the vertical size in bits 16..29 of the
destination-size register. -/
def sampleLayout (f : Field) : FieldDesc :=
  match f with
  | RGBP_F_YUV_SC_DST_HSIZE => ⟨0, 14⟩
  | RGBP_F_YUV_SC_DST_VSIZE => ⟨16, 14⟩
  | _ => ⟨0, 32⟩

/-! ## MIPI settle lookup: `is_hw_find_settle` (is-hw-chain.c) -/

/-- Result of running a function that reads a table and loops: the fuel ran out
before the loop ended, a table index outside the table was read, an
uninitialised variable was used, or the function returned a value. -/
inductive Outcome (α : Type)
  | out_of_fuel
  | bad_index (i : Int)
  | uninitialised
  | ok (a : α)
  deriving DecidableEq, Repr

/-- What `is_hw_find_settle` takes from outside the translated files: the kernel
macro `ALIGN(x, a)` on non-negative values, and the two settle tables, arrays of
`u32` laid out as (speed, settle) pairs. -/
structure ChainEnv where
  ALIGN : Nat → Nat → Nat
  is_csi_settle_table : List Nat
  is_csi_settle_table_cphy : List Nat

/-- The `while (s <= e)` loop of `is_hw_find_settle`, run for at most `fuel`
iterations from the current values of `s`, `e` and `m` (`m` is `none` before
its first assignment): the value of `m` on leaving the loop.  `s` and `m` are
never negative and are natural numbers; `e` can reach `-2` and is an integer.
The `int` arithmetic is exact for tables of fewer than `2 ^ 30` entries. -/
def is_hw_find_settle_loop (ALIGN : Nat → Nat → Nat) (settle_table : List Nat)
    (align_mipi_speed : Nat) : Nat → Nat → Int → Option Nat → Outcome (Option Nat)
  | 0, _, _, _ => Outcome.out_of_fuel
  | fuel + 1, s, e, m =>
    if (s : Int) ≤ e then
      let m1 := ALIGN ((s + e.toNat) / 2) 2
      match settle_table[m1]? with
      | none => Outcome.bad_index m1
      | some find_mipi_speed =>
        if find_mipi_speed = align_mipi_speed then Outcome.ok (some m1)
        else if find_mipi_speed > align_mipi_speed then
          is_hw_find_settle_loop ALIGN settle_table align_mipi_speed fuel (m1 + 2) e (some m1)
        else
          is_hw_find_settle_loop ALIGN settle_table align_mipi_speed fuel s ((m1 : Int) - 2)
            (some m1)
    else Outcome.ok m

/-- A read `settle_table[i]` with an `int` index. -/
def table_read (settle_table : List Nat) (i : Int) : Outcome Nat :=
  if 0 ≤ i then
    match settle_table[i.toNat]? with
    | some v => Outcome.ok v
    | none => Outcome.bad_index i
  else Outcome.bad_index i

/-- `is_hw_find_settle(mipi_speed, use_cphy)`, its loop run with `fuel`. -/
def is_hw_find_settle (E : ChainEnv) (fuel : Nat) (mipi_speed use_cphy : Nat) : Outcome Nat :=
  let settle_table := if use_cphy ≠ 0 then E.is_csi_settle_table_cphy else E.is_csi_settle_table
  let max := settle_table.length
  let align_mipi_speed := E.ALIGN mipi_speed 10
  let s : Nat := 0
  let e : Int := (max : Int) - 2
  match table_read settle_table s with
  | Outcome.ok t0 =>
    if t0 < align_mipi_speed then table_read settle_table (s + 1)
    else
      match table_read settle_table e with
      | Outcome.ok te =>
        if te > align_mipi_speed then table_read settle_table (e + 1)
        else
          match is_hw_find_settle_loop E.ALIGN settle_table align_mipi_speed fuel s e none with
          | Outcome.ok (some m) => table_read settle_table ((m : Int) + 1)
          | Outcome.ok none => Outcome.uninitialised
          | Outcome.out_of_fuel => Outcome.out_of_fuel
          | Outcome.bad_index i => Outcome.bad_index i
          | Outcome.uninitialised => Outcome.uninitialised
      | Outcome.out_of_fuel => Outcome.out_of_fuel
      | Outcome.bad_index i => Outcome.bad_index i
      | Outcome.uninitialised => Outcome.uninitialised
  | Outcome.out_of_fuel => Outcome.out_of_fuel
  | Outcome.bad_index i => Outcome.bad_index i
  | Outcome.uninitialised => Outcome.uninitialised

/-- The table `is_hw_find_settle` searches for the given `use_cphy`. -/
def settle_table_of (E : ChainEnv) (use_cphy : Nat) : List Nat :=
  if use_cphy ≠ 0 then E.is_csi_settle_table_cphy else E.is_csi_settle_table

/-- The speeds of the pairs of a settle table are strictly decreasing. -/
def speeds_decreasing (T : List Nat) : Prop :=
  ∀ i j, i < j → 2 * j < T.length → T.getD (2 * j) 0 < T.getD (2 * i) 0

/-- The kernel definition of `ALIGN(x, a)`, `(x + (a - 1)) & ~(a - 1)`: the bits
of `a - 1` are cleared in `x + (a - 1)`.  Used for evaluating the model on
examples. -/
def kernelAlign (x a : Nat) : Nat := (x + (a - 1)) - ((x + (a - 1)) &&& (a - 1))

/-- A concrete environment for `is_hw_find_settle`, for evaluating the model on
examples: three (speed, settle) pairs in each table. -/
def sampleChain : ChainEnv where
  ALIGN := kernelAlign
  is_csi_settle_table := [2000, 11, 1460, 22, 900, 33]
  is_csi_settle_table_cphy := [2000, 12, 1460, 24, 900, 36]

/-! ## Sample values -/

/-- Hardware whose every read returns zero. -/
def zeroHw : Hw where
  getR := fun _ _ => 0
  getF := fun _ _ _ => 0


/-- Hardware whose reset register never clears: every read of
`RGBP_R_COREX_RESET` returns 1, every other read returns 0. -/
def stuckResetHw : Hw where
  getR := fun _ r => if r = RGBP_R_COREX_RESET then 1 else 0
  getF := fun _ _ _ => 0

/-- A concrete choice of the interrupt bit positions, for evaluating the model
on examples. -/
def sampleBits : IntrBits where
  INTR0_RGBP_FRAME_START_INT := 0
  INTR0_RGBP_FRAME_END_INT := 1
  INTR0_RGBP_CMDQ_HOLD_INT := 3
  INTR0_RGBP_SETTING_DONE_INT := 4
  INTR0_RGBP_C_LOADER_END_INT := 5
  INTR0_RGBP_COREX_END_INT_0 := 6
  INTR0_RGBP_COREX_END_INT_1 := 7
  INTR0_RGBP_ROW_COL_INT := 8
  INTR0_RGBP_TRANS_STOP_DONE_INT := 9
  INTR1_RGBP_VOTFLOSTFLUSH := 0
  INTR1_RGBP_VOTF0RDMALOSTCONNECTION := 1
  INTR1_RGBP_VOTF0RDMALOSTFLUSH := 3
  INTR1_RGBP_VOTF1WDMALOSTFLUSH := 4

/-- A concrete choice of the header constants, for evaluating the model on
examples; the general theorems hold for every choice.  `DVA_36BIT_HIGH` drops
the low four bits of a 36-bit address. -/
def sampleConsts : Consts where
  RGBP_INT_GRP_EN_MASK := 0xFF
  RGBP_INT_GRP_EN_MASK_FRO_FIRST := 0xF1
  RGBP_INT_GRP_EN_MASK_FRO_MIDDLE := 0xF0
  RGBP_INT_GRP_EN_MASK_FRO_LAST := 0xF2
  RGBP_INT0_ERR_MASK := 0x4
  RGBP_INT1_ERR_MASK := 0x4
  RGBP_TRY_COUNT := 3
  COREX_IGNORE := 0
  COREX_COPY := 1
  SW_TRIGGER := 1
  HW_TRIGGER := 0
  NEG_EINVAL := 4294967274
  NEG_ETIME := 4294967234
  SET_SUCCESS := 0
  DVA_36BIT_HIGH := fun a => a >>> 4
  SET_ERROR := 1
  DMA_OPS_ERROR := 4294967295
  DMA_FMT_BAYER := 1
  RGBP_COMP_BLOCK_WIDTH := 32
  RGBP_COMP_BLOCK_HEIGHT := 64
  MCSC_HF_COMP_BLOCK_WIDTH := 256
  MCSC_HF_COMP_BLOCK_HEIGHT := 1
  IS_32B_WRITE_ALLOC_SHIFT := 27
  IS_MAX_FRO := 8

/-- A concrete common DMA layer, for evaluating the model on examples: the
compression mode is the `sbwc_type`, format resolution fails for the hardware
format 99 and stores the format otherwise, the image stride is twice the width,
the payload stride is the width, every operation returns 0. -/
def sampleEnv : DmaEnv where
  is_hw_dma_get_comp_sbwc_en := fun sbwc_type a => (sbwc_type, a)
  is_hw_dma_get_bayer_format := fun _ _ hwformat _ _ =>
    if hwformat = 99 then (1, none) else (0, some hwformat)
  is_hw_dma_get_img_stride := fun _ _ _ width _ _ => 2 * width
  is_hw_dma_get_payload_stride := fun _ _ width _ _ _ _ => width
  is_hw_dma_get_header_stride := fun _ _ _ => 16
  call_ret := fun _ _ => 0

/-- A `param_dma_input` with the given format, width and height. -/
def sampleInput (format width height : Nat) : param_dma_input :=
  ⟨1, format, 16, 9, width, height, 0, 0⟩

/-- A `param_dma_output` with the given format, width, height and `sbwc_type`. -/
def sampleOutput (format width height sbwc_type : Nat) : param_dma_output :=
  ⟨1, format, 16, 9, width, height, sbwc_type, 0⟩

/-- A parameter set whose every DMA block has the given format, width, height
and `sbwc_type`. -/
def sampleParams (format width height sbwc_type : Nat) : rgbp_param_set :=
  ⟨sampleInput format width height, sampleInput format width height,
   sampleOutput format width height sbwc_type, sampleOutput format width height sbwc_type,
   sampleOutput format width height sbwc_type, sampleOutput format width height sbwc_type,
   ⟨[]⟩, ⟨[]⟩, ⟨[]⟩, [], [], [], [], [], []⟩

/-! ## Closed forms used in the proofs -/

/-- Interrupt-group mask chosen by iteration `i` of the loop of `rgbp_hw_s_cmdq`. -/
def cmdq_mask (K : Consts) (num_buffers i : Nat) : Nat :=
  if i = 0 then
    if 1 < num_buffers then K.RGBP_INT_GRP_EN_MASK_FRO_FIRST else K.RGBP_INT_GRP_EN_MASK
  else if i < u32_sub num_buffers 1 then K.RGBP_INT_GRP_EN_MASK_FRO_MIDDLE
  else K.RGBP_INT_GRP_EN_MASK_FRO_LAST

/-- Setting-mode accesses of one iteration of the loop of `rgbp_hw_s_cmdq`. -/
def cmdq_mode (K : Consts) (clh noh : Nat) : List Access :=
  if clh ≠ 0 ∧ noh ≠ 0 then
    [Access.setF RGBP_R_CMDQ_QUE_CMD_H RGBP_F_CMDQ_QUE_CMD_BASE_ADDR (K.DVA_36BIT_HIGH clh),
     Access.setF RGBP_R_CMDQ_QUE_CMD_M RGBP_F_CMDQ_QUE_CMD_HEADER_NUM noh,
     Access.setF RGBP_R_CMDQ_QUE_CMD_M RGBP_F_CMDQ_QUE_CMD_SETTING_MODE 1]
  else
    [Access.setF RGBP_R_CMDQ_QUE_CMD_M RGBP_F_CMDQ_QUE_CMD_SETTING_MODE 3]

/-- Value of `stride_1p` in the compressed branch of `rgbp_hw_s_wdma_init`, for
the selected `dma_output` and block size. -/
def wdma_payload_stride_1p (E : DmaEnv) (dout : param_dma_output) (bw bh : Nat) : Nat :=
  E.is_hw_dma_get_payload_stride (E.is_hw_dma_get_comp_sbwc_en dout.sbwc_type 1).1
    ((dout.msb + 1) % U32) dout.width (E.is_hw_dma_get_comp_sbwc_en dout.sbwc_type 1).2 0 bw bh

/-- Value of `stride_1p` in `rgbp_hw_s_wdma_init` for the selected `dma_output`
and block size: the image stride when uncompressed, the payload stride otherwise. -/
def wdma_stride_1p (E : DmaEnv) (dout : param_dma_output) (bw bh : Nat) : Nat :=
  if (E.is_hw_dma_get_comp_sbwc_en dout.sbwc_type 1).1 = 0 then
    E.is_hw_dma_get_img_stride dout.bitwidth ((dout.msb + 1) % U32) dout.format dout.width 16
      true
  else
    wdma_payload_stride_1p E dout bw bh

/-- The condition under which `rgbp_hw_s_wdma_init` sets the 32-bit
write-allocate bit: role `RGBP_WDMA_HF` with tunnel-enable and compression. -/
def wdma_hf_alloc (E : DmaEnv) (id : DmaId) (dout : param_dma_output) : Prop :=
  id = DmaId.RGBP_WDMA_HF ∧ dout.v_otf_enable ≠ 0 ∧
    (E.is_hw_dma_get_comp_sbwc_en dout.sbwc_type 1).1 ≠ 0

instance (E : DmaEnv) (id : DmaId) (dout : param_dma_output) :
    Decidable (wdma_hf_alloc E id dout) := by
  unfold wdma_hf_alloc
  infer_instance

/-- Value of `bus_info` handed to `dma_set_bus_info` by `rgbp_hw_s_wdma_init`. -/
def wdma_bus_info (K : Consts) (E : DmaEnv) (id : DmaId) (dout : param_dma_output)
    (cache_hint : Nat) : Nat :=
  if wdma_hf_alloc E id dout then
    (if dout.v_otf_enable ≠ 0 then (cache_hint <<< 4) % U32 else 0) |||
      ((1 <<< K.IS_32B_WRITE_ALLOC_SHIFT) % U32)
  else
    if dout.v_otf_enable ≠ 0 then (cache_hint <<< 4) % U32 else 0

/-- Value of `en_32b_pa` handed to `dma_set_cache_32b_pa` by `rgbp_hw_s_wdma_init`. -/
def wdma_en_32b_pa (E : DmaEnv) (id : DmaId) (dout : param_dma_output) : Nat :=
  if wdma_hf_alloc E id dout then 1 else 0

/-- The operations `rgbp_hw_s_wdma_init` issues for an enabled channel with a
valid role and a compression mode in 0..2, for the selected `dma_output` and
block size. -/
def wdma_init_ops (K : Consts) (E : DmaEnv) (id : DmaId) (dout : param_dma_output)
    (bw bh enable cache_hint : Nat) : List DmaOp :=
  [DmaOp.dma_enable enable,
   DmaOp.dma_set_format
     (E.is_hw_dma_get_bayer_format dout.bitwidth ((dout.msb + 1) % U32) dout.format
       (E.is_hw_dma_get_comp_sbwc_en dout.sbwc_type 1).1 true).2 K.DMA_FMT_BAYER,
   DmaOp.dma_set_comp_sbwc_en (E.is_hw_dma_get_comp_sbwc_en dout.sbwc_type 1).1,
   DmaOp.dma_set_size dout.width dout.height,
   DmaOp.dma_set_img_stride (wdma_stride_1p E dout bw bh) 0 0,
   DmaOp.dma_votf_enable dout.v_otf_enable 0,
   DmaOp.dma_set_bus_info (wdma_bus_info K E id dout cache_hint),
   DmaOp.dma_set_cache_32b_pa (wdma_en_32b_pa E id dout)] ++
  (if (E.is_hw_dma_get_comp_sbwc_en dout.sbwc_type 1).1 = 0 then []
   else
    [DmaOp.dma_set_comp_64b_align (E.is_hw_dma_get_comp_sbwc_en dout.sbwc_type 1).2,
     DmaOp.dma_set_header_stride (E.is_hw_dma_get_header_stride dout.width bw 16) 0])

/-- Accesses of iteration `i` of the loop of `rgbp_hw_s_cmdq`. -/
def cmdq_entry (K : Consts) (num_buffers clh noh i : Nat) : List Access :=
  Access.setF RGBP_R_CMDQ_QUE_CMD_L RGBP_F_CMDQ_QUE_CMD_INT_GROUP_ENABLE
      (cmdq_mask K num_buffers i) ::
    (cmdq_mode K clh noh ++
      [Access.setF RGBP_R_CMDQ_QUE_CMD_L RGBP_F_CMDQ_QUE_CMD_FRO_INDEX i,
       Access.setR RGBP_R_CMDQ_ADD_TO_QUEUE_0 1])

/-! # Theorems -/

/-! ## Command queue -/

theorem cmdq_body_eq (K : Consts) (N clh noh i : Nat) (tr : List Access) :
    rgbp_hw_s_cmdq_body K N clh noh i tr = tr ++ cmdq_entry K N clh noh i := by
  simp only [rgbp_hw_s_cmdq_body, cmdq_entry, cmdq_mask, cmdq_mode, RGBP_SET_F, RGBP_SET_R]
  split_ifs <;> simp_all

theorem cmdq_loop_eq (K : Consts) (N clh noh : Nat) (n : Nat) (tr : List Access) :
    (List.range n).foldl (fun tr i => rgbp_hw_s_cmdq_body K N clh noh i tr) tr =
      tr ++ (List.range n).flatMap (cmdq_entry K N clh noh) := by
  induction n with
  | zero => simp
  | succ n ih =>
    rw [List.range_succ, List.foldl_append, ih]
    simp [cmdq_body_eq, List.flatMap_append]

theorem cmdq_eq (K : Consts) (set_id N clh noh : Nat) (tr : List Access) :
    rgbp_hw_s_cmdq K set_id N clh noh tr =
      tr ++ ((if 1 < N then [Access.setR RGBP_R_CMDQ_ENABLE 0] else []) ++
        (List.range N).flatMap (cmdq_entry K N clh noh) ++
        [Access.setR RGBP_R_CMDQ_ENABLE 1]) := by
  simp only [rgbp_hw_s_cmdq, cmdq_loop_eq, RGBP_SET_R]
  split_ifs <;> simp_all

theorem u32_sub_one (N : Nat) (h1 : 1 ≤ N) (h32 : N < U32) : u32_sub N 1 = N - 1 := by
  unfold u32_sub U32 at *
  omega

theorem cmdq_masks_flatMap (K : Consts) (N clh noh n : Nat) :
    writesToField RGBP_R_CMDQ_QUE_CMD_L RGBP_F_CMDQ_QUE_CMD_INT_GROUP_ENABLE
        ((List.range n).flatMap (cmdq_entry K N clh noh)) =
      (List.range n).map (cmdq_mask K N) := by
  induction n with
  | zero => simp [writesToField]
  | succ n ih =>
    rw [List.range_succ, List.flatMap_append, List.map_append]
    unfold writesToField at ih ⊢
    rw [List.filterMap_append, ih, List.flatMap_singleton]
    simp only [cmdq_entry, cmdq_mode]
    split_ifs <;> simp

theorem cmdq_mask_list (K : Consts) (N : Nat) (h2 : 2 ≤ N) (h32 : N < U32) :
    (List.range N).map (cmdq_mask K N) =
      K.RGBP_INT_GRP_EN_MASK_FRO_FIRST ::
        (List.replicate (N - 2) K.RGBP_INT_GRP_EN_MASK_FRO_MIDDLE ++
          [K.RGBP_INT_GRP_EN_MASK_FRO_LAST]) := by
  apply List.ext_getElem
  · simp only [List.length_map, List.length_range, List.length_cons, List.length_append,
      List.length_replicate, List.length_nil]
    omega
  · intro i h1 h2
    simp only [List.getElem_map, List.getElem_range, cmdq_mask, u32_sub_one N (by omega) h32]
    simp only [List.length_map, List.length_range] at h1
    rcases Nat.eq_zero_or_pos i with h0 | h0
    · subst h0
      simp; omega
    · obtain ⟨j, rfl⟩ : ∃ j, i = j + 1 := ⟨i - 1, by omega⟩
      simp only [List.getElem_cons_succ]
      by_cases hj : j < N - 2
      · rw [List.getElem_append_left (by simpa using hj)]
        simp; omega
      · have hj2 : j = N - 2 := by omega
        subst hj2
        rw [List.getElem_append_right (by simp)]
        simp; omega

/-- The trace of a two-buffer burst with a command list, evaluated. -/
theorem cmdq_trace_example :
    rgbp_hw_s_cmdq sampleConsts 0 2 0x10000000 3 [] =
      [Access.setR RGBP_R_CMDQ_ENABLE 0,
       Access.setF RGBP_R_CMDQ_QUE_CMD_L RGBP_F_CMDQ_QUE_CMD_INT_GROUP_ENABLE 0xF1,
       Access.setF RGBP_R_CMDQ_QUE_CMD_H RGBP_F_CMDQ_QUE_CMD_BASE_ADDR 0x1000000,
       Access.setF RGBP_R_CMDQ_QUE_CMD_M RGBP_F_CMDQ_QUE_CMD_HEADER_NUM 3,
       Access.setF RGBP_R_CMDQ_QUE_CMD_M RGBP_F_CMDQ_QUE_CMD_SETTING_MODE 1,
       Access.setF RGBP_R_CMDQ_QUE_CMD_L RGBP_F_CMDQ_QUE_CMD_FRO_INDEX 0,
       Access.setR RGBP_R_CMDQ_ADD_TO_QUEUE_0 1,
       Access.setF RGBP_R_CMDQ_QUE_CMD_L RGBP_F_CMDQ_QUE_CMD_INT_GROUP_ENABLE 0xF2,
       Access.setF RGBP_R_CMDQ_QUE_CMD_H RGBP_F_CMDQ_QUE_CMD_BASE_ADDR 0x1000000,
       Access.setF RGBP_R_CMDQ_QUE_CMD_M RGBP_F_CMDQ_QUE_CMD_HEADER_NUM 3,
       Access.setF RGBP_R_CMDQ_QUE_CMD_M RGBP_F_CMDQ_QUE_CMD_SETTING_MODE 1,
       Access.setF RGBP_R_CMDQ_QUE_CMD_L RGBP_F_CMDQ_QUE_CMD_FRO_INDEX 1,
       Access.setR RGBP_R_CMDQ_ADD_TO_QUEUE_0 1,
       Access.setR RGBP_R_CMDQ_ENABLE 1] := by
  decide

/-- The trace of a single buffer without a command list, evaluated. -/
theorem cmdq_trace_example_single :
    rgbp_hw_s_cmdq sampleConsts 0 1 0 0 [] =
      [Access.setF RGBP_R_CMDQ_QUE_CMD_L RGBP_F_CMDQ_QUE_CMD_INT_GROUP_ENABLE 0xFF,
       Access.setF RGBP_R_CMDQ_QUE_CMD_M RGBP_F_CMDQ_QUE_CMD_SETTING_MODE 3,
       Access.setF RGBP_R_CMDQ_QUE_CMD_L RGBP_F_CMDQ_QUE_CMD_FRO_INDEX 0,
       Access.setR RGBP_R_CMDQ_ADD_TO_QUEUE_0 1,
       Access.setR RGBP_R_CMDQ_ENABLE 1] := by
  decide

/-- C1: for every `num_buffers = N >= 1` (a `u32`), the interrupt-group-enable
masks written by `rgbp_hw_s_cmdq`, in order, are `[RGBP_INT_GRP_EN_MASK]` when
`N = 1` and `[FRO_FIRST, FRO_MIDDLE x (N-2), FRO_LAST]` when `N > 1`. -/
theorem cmdq_int_group_masks (K : Consts) (set_id N clh noh : Nat) (tr : List Access)
    (h1 : 1 ≤ N) (h32 : N < U32) :
    ∃ new, rgbp_hw_s_cmdq K set_id N clh noh tr = tr ++ new ∧
      writesToField RGBP_R_CMDQ_QUE_CMD_L RGBP_F_CMDQ_QUE_CMD_INT_GROUP_ENABLE new =
        if N = 1 then [K.RGBP_INT_GRP_EN_MASK]
        else K.RGBP_INT_GRP_EN_MASK_FRO_FIRST ::
          (List.replicate (N - 2) K.RGBP_INT_GRP_EN_MASK_FRO_MIDDLE ++
            [K.RGBP_INT_GRP_EN_MASK_FRO_LAST]) := by
  refine ⟨_, cmdq_eq K set_id N clh noh tr, ?_⟩
  have hm := cmdq_masks_flatMap K N clh noh N
  unfold writesToField at hm ⊢
  rw [List.filterMap_append, List.filterMap_append, hm]
  by_cases hN : N = 1
  · subst hN
    simp [cmdq_mask, List.range_succ]
  · rw [cmdq_mask_list K N (by omega) h32]
    have : 1 < N := by omega
    simp [hN, this]

/-- C1 at `num_buffers = 3`: the masks are first, middle, last. -/
theorem cmdq_int_group_masks_witness :
    1 ≤ 3 ∧ 3 < U32 ∧
      writesToField RGBP_R_CMDQ_QUE_CMD_L RGBP_F_CMDQ_QUE_CMD_INT_GROUP_ENABLE
        (rgbp_hw_s_cmdq sampleConsts 0 3 0 0 []) = [0xF1, 0xF0, 0xF2] := by
  refine ⟨by decide, by decide, ?_⟩
  obtain ⟨new, h, hm⟩ := cmdq_int_group_masks sampleConsts 0 3 0 0 [] (by decide) (by decide)
  rw [h, List.nil_append, hm]
  decide

theorem writesToReg_append (r : Reg) (a b : List Access) :
    writesToReg r (a ++ b) = writesToReg r a ++ writesToReg r b := by
  simp [writesToReg]

theorem writesToField_append (r : Reg) (f : Field) (a b : List Access) :
    writesToField r f (a ++ b) = writesToField r f a ++ writesToField r f b := by
  simp [writesToField]

theorem cmdq_entry_pulses (K : Consts) (N clh noh i : Nat) :
    writesToReg RGBP_R_CMDQ_ADD_TO_QUEUE_0 (cmdq_entry K N clh noh i) = [1] := by
  simp only [cmdq_entry, cmdq_mode, writesToReg]
  split_ifs <;> simp

theorem cmdq_entry_enables (K : Consts) (N clh noh i : Nat) :
    writesToReg RGBP_R_CMDQ_ENABLE (cmdq_entry K N clh noh i) = [] := by
  simp only [cmdq_entry, cmdq_mode, writesToReg]
  split_ifs <;> simp

theorem cmdq_entry_fro (K : Consts) (N clh noh i : Nat) :
    writesToField RGBP_R_CMDQ_QUE_CMD_L RGBP_F_CMDQ_QUE_CMD_FRO_INDEX
      (cmdq_entry K N clh noh i) = [i] := by
  simp only [cmdq_entry, cmdq_mode, writesToField]
  split_ifs <;> simp

theorem cmdq_entries_pulses (K : Consts) (N clh noh n : Nat) :
    writesToReg RGBP_R_CMDQ_ADD_TO_QUEUE_0 ((List.range n).flatMap (cmdq_entry K N clh noh)) =
      List.replicate n 1 := by
  induction n with
  | zero => simp [writesToReg]
  | succ n ih =>
    rw [List.range_succ, List.flatMap_append, writesToReg_append, ih, List.flatMap_singleton,
      cmdq_entry_pulses, List.replicate_succ']

theorem cmdq_entries_enables (K : Consts) (N clh noh n : Nat) :
    writesToReg RGBP_R_CMDQ_ENABLE ((List.range n).flatMap (cmdq_entry K N clh noh)) = [] := by
  induction n with
  | zero => simp [writesToReg]
  | succ n ih =>
    rw [List.range_succ, List.flatMap_append, writesToReg_append, ih, List.flatMap_singleton,
      cmdq_entry_enables, List.append_nil]

theorem cmdq_entries_fro (K : Consts) (N clh noh n : Nat) :
    writesToField RGBP_R_CMDQ_QUE_CMD_L RGBP_F_CMDQ_QUE_CMD_FRO_INDEX
      ((List.range n).flatMap (cmdq_entry K N clh noh)) = List.range n := by
  induction n with
  | zero => simp [writesToField]
  | succ n ih =>
    rw [List.range_succ, List.flatMap_append, writesToField_append, ih, List.flatMap_singleton,
      cmdq_entry_fro]

/-- Every entry `i < n` ends with the write of `FRO_INDEX = i` followed at once
by the add-to-queue pulse, and exactly `i` pulses come before it. -/
theorem cmdq_entries_split (K : Consts) (N clh noh n i : Nat) (hi : i < n) :
    ∃ pre post, (List.range n).flatMap (cmdq_entry K N clh noh) =
        pre ++ [Access.setF RGBP_R_CMDQ_QUE_CMD_L RGBP_F_CMDQ_QUE_CMD_FRO_INDEX i,
                Access.setR RGBP_R_CMDQ_ADD_TO_QUEUE_0 1] ++ post ∧
      (writesToReg RGBP_R_CMDQ_ADD_TO_QUEUE_0 pre).length = i := by
  induction n with
  | zero => omega
  | succ n ih =>
    rw [List.range_succ, List.flatMap_append, List.flatMap_singleton]
    by_cases h : i < n
    · obtain ⟨pre, post, he, hp⟩ := ih h
      exact ⟨pre, post ++ cmdq_entry K N clh noh n, by rw [he]; simp, hp⟩
    · have hin : i = n := by omega
      subst hin
      refine ⟨(List.range i).flatMap (cmdq_entry K N clh noh) ++
          (Access.setF RGBP_R_CMDQ_QUE_CMD_L RGBP_F_CMDQ_QUE_CMD_INT_GROUP_ENABLE
            (cmdq_mask K N i) :: cmdq_mode K clh noh), [], ?_, ?_⟩
      · simp [cmdq_entry]
      · rw [writesToReg_append, cmdq_entries_pulses]
        simp only [cmdq_mode, writesToReg]
        split_ifs <;> simp

/-- C9: the register-write trace of `rgbp_hw_s_cmdq`, for every `num_buffers = N`,
command-list address and header count.  `CMDQ_ENABLE = 0` is the very first write
iff `N > 1`, and the writes to `CMDQ_ENABLE` are `0, 1` when `N > 1` and `1` alone
otherwise; the last write is `CMDQ_ENABLE = 1`; there are exactly `N` add-to-queue
pulses; the `FRO_INDEX` writes are `0 .. N-1`; and the pulse that has `i` pulses
before it is immediately preceded by the write of `FRO_INDEX = i`. -/
theorem cmdq_trace_shape (K : Consts) (set_id N clh noh : Nat) (tr : List Access) :
    ∃ new, rgbp_hw_s_cmdq K set_id N clh noh tr = tr ++ new ∧
      (new.head? = some (Access.setR RGBP_R_CMDQ_ENABLE 0) ↔ 1 < N) ∧
      writesToReg RGBP_R_CMDQ_ENABLE new = (if 1 < N then [0, 1] else [1]) ∧
      new.getLast? = some (Access.setR RGBP_R_CMDQ_ENABLE 1) ∧
      writesToReg RGBP_R_CMDQ_ADD_TO_QUEUE_0 new = List.replicate N 1 ∧
      writesToField RGBP_R_CMDQ_QUE_CMD_L RGBP_F_CMDQ_QUE_CMD_FRO_INDEX new = List.range N ∧
      ∀ i, i < N → ∃ pre post,
        new = pre ++ [Access.setF RGBP_R_CMDQ_QUE_CMD_L RGBP_F_CMDQ_QUE_CMD_FRO_INDEX i,
                      Access.setR RGBP_R_CMDQ_ADD_TO_QUEUE_0 1] ++ post ∧
        (writesToReg RGBP_R_CMDQ_ADD_TO_QUEUE_0 pre).length = i := by
  refine ⟨_, cmdq_eq K set_id N clh noh tr, ?_, ?_, ?_, ?_, ?_, ?_⟩
  · by_cases h : 1 < N
    · simp [h]
    · have h01 : N = 0 ∨ N = 1 := by omega
      rcases h01 with h0 | h0 <;> subst h0 <;> simp [cmdq_entry, List.range_succ]
  · rw [writesToReg_append, writesToReg_append, cmdq_entries_enables]
    by_cases h : 1 < N <;> simp [h, writesToReg]
  · rw [List.getLast?_concat]
  · rw [writesToReg_append, writesToReg_append, cmdq_entries_pulses]
    by_cases h : 1 < N <;> simp [h, writesToReg]
  · rw [writesToField_append, writesToField_append, cmdq_entries_fro]
    by_cases h : 1 < N <;> simp [h, writesToField]
  · intro i hi
    obtain ⟨pre, post, he, hp⟩ := cmdq_entries_split K N clh noh N i hi
    refine ⟨(if 1 < N then [Access.setR RGBP_R_CMDQ_ENABLE 0] else []) ++ pre,
      post ++ [Access.setR RGBP_R_CMDQ_ENABLE 1], ?_, ?_⟩
    · rw [he]
      simp
    · rw [writesToReg_append, List.length_append, hp]
      by_cases h : 1 < N <;> simp [h, writesToReg]

theorem cmdq_entries_modes (K : Consts) (N clh noh n : Nat) :
    writesToField RGBP_R_CMDQ_QUE_CMD_M RGBP_F_CMDQ_QUE_CMD_SETTING_MODE
        ((List.range n).flatMap (cmdq_entry K N clh noh)) =
      List.replicate n (if clh ≠ 0 ∧ noh ≠ 0 then 1 else 3) := by
  induction n with
  | zero => simp [writesToField]
  | succ n ih =>
    rw [List.range_succ, List.flatMap_append, writesToField_append, ih, List.flatMap_singleton,
      List.replicate_succ']
    simp only [cmdq_entry, cmdq_mode, writesToField]
    split_ifs <;> simp

theorem cmdq_entries_hdrs (K : Consts) (N clh noh n : Nat) :
    writesToField RGBP_R_CMDQ_QUE_CMD_M RGBP_F_CMDQ_QUE_CMD_HEADER_NUM
        ((List.range n).flatMap (cmdq_entry K N clh noh)) =
      if clh ≠ 0 ∧ noh ≠ 0 then List.replicate n noh else [] := by
  induction n with
  | zero => simp [writesToField]
  | succ n ih =>
    rw [List.range_succ, List.flatMap_append, writesToField_append, ih, List.flatMap_singleton]
    simp only [cmdq_entry, cmdq_mode, writesToField]
    split_ifs <;> simp [List.replicate_succ']

theorem cmdq_entries_bases (K : Consts) (N clh noh n : Nat) :
    writesToField RGBP_R_CMDQ_QUE_CMD_H RGBP_F_CMDQ_QUE_CMD_BASE_ADDR
        ((List.range n).flatMap (cmdq_entry K N clh noh)) =
      if clh ≠ 0 ∧ noh ≠ 0 then List.replicate n (K.DVA_36BIT_HIGH clh) else [] := by
  induction n with
  | zero => simp [writesToField]
  | succ n ih =>
    rw [List.range_succ, List.flatMap_append, writesToField_append, ih, List.flatMap_singleton]
    simp only [cmdq_entry, cmdq_mode, writesToField]
    split_ifs <;> simp [List.replicate_succ']

/-- Every entry `i < n` consists of its mask write, the setting-mode writes, the
`FRO_INDEX` write and the pulse, with exactly `i` pulses before it. -/
theorem cmdq_entries_split_entry (K : Consts) (N clh noh n i : Nat) (hi : i < n) :
    ∃ pre post, (List.range n).flatMap (cmdq_entry K N clh noh) =
        pre ++ cmdq_entry K N clh noh i ++ post ∧
      (writesToReg RGBP_R_CMDQ_ADD_TO_QUEUE_0 pre).length = i := by
  induction n with
  | zero => omega
  | succ n ih =>
    rw [List.range_succ, List.flatMap_append, List.flatMap_singleton]
    by_cases h : i < n
    · obtain ⟨pre, post, he, hp⟩ := ih h
      exact ⟨pre, post ++ cmdq_entry K N clh noh n, by rw [he]; simp, hp⟩
    · have hin : i = n := by omega
      subst hin
      exact ⟨(List.range i).flatMap (cmdq_entry K N clh noh), [], by simp,
        by rw [cmdq_entries_pulses]; simp⟩

/-- C10: setting mode of the entries queued by `rgbp_hw_s_cmdq`.  When `clh` and
`noh` are both non-zero every entry writes the base address `DVA_36BIT_HIGH(clh)`,
the header count `noh` and setting mode 1 (in this order, right before its
`FRO_INDEX` write and pulse); otherwise every entry writes setting mode 3 and the
trace holds no write of the header count or of the base address. -/
theorem cmdq_setting_mode (K : Consts) (set_id N clh noh : Nat) (tr : List Access) :
    ∃ new, rgbp_hw_s_cmdq K set_id N clh noh tr = tr ++ new ∧
      writesToField RGBP_R_CMDQ_QUE_CMD_M RGBP_F_CMDQ_QUE_CMD_SETTING_MODE new =
        List.replicate N (if clh ≠ 0 ∧ noh ≠ 0 then 1 else 3) ∧
      writesToField RGBP_R_CMDQ_QUE_CMD_M RGBP_F_CMDQ_QUE_CMD_HEADER_NUM new =
        (if clh ≠ 0 ∧ noh ≠ 0 then List.replicate N noh else []) ∧
      writesToField RGBP_R_CMDQ_QUE_CMD_H RGBP_F_CMDQ_QUE_CMD_BASE_ADDR new =
        (if clh ≠ 0 ∧ noh ≠ 0 then List.replicate N (K.DVA_36BIT_HIGH clh) else []) ∧
      ∀ i, i < N → ∃ pre mask post,
        new = pre ++
          (Access.setF RGBP_R_CMDQ_QUE_CMD_L RGBP_F_CMDQ_QUE_CMD_INT_GROUP_ENABLE mask ::
            ((if clh ≠ 0 ∧ noh ≠ 0 then
                [Access.setF RGBP_R_CMDQ_QUE_CMD_H RGBP_F_CMDQ_QUE_CMD_BASE_ADDR
                   (K.DVA_36BIT_HIGH clh),
                 Access.setF RGBP_R_CMDQ_QUE_CMD_M RGBP_F_CMDQ_QUE_CMD_HEADER_NUM noh,
                 Access.setF RGBP_R_CMDQ_QUE_CMD_M RGBP_F_CMDQ_QUE_CMD_SETTING_MODE 1]
              else
                [Access.setF RGBP_R_CMDQ_QUE_CMD_M RGBP_F_CMDQ_QUE_CMD_SETTING_MODE 3]) ++
             [Access.setF RGBP_R_CMDQ_QUE_CMD_L RGBP_F_CMDQ_QUE_CMD_FRO_INDEX i,
              Access.setR RGBP_R_CMDQ_ADD_TO_QUEUE_0 1])) ++ post ∧
        (writesToReg RGBP_R_CMDQ_ADD_TO_QUEUE_0 pre).length = i := by
  refine ⟨_, cmdq_eq K set_id N clh noh tr, ?_, ?_, ?_, ?_⟩
  · rw [writesToField_append, writesToField_append, cmdq_entries_modes]
    by_cases h : 1 < N <;> simp [h, writesToField]
  · rw [writesToField_append, writesToField_append, cmdq_entries_hdrs]
    by_cases h : 1 < N <;> simp [h, writesToField]
  · rw [writesToField_append, writesToField_append, cmdq_entries_bases]
    by_cases h : 1 < N <;> simp [h, writesToField]
  · intro i hi
    obtain ⟨pre, post, he, hp⟩ := cmdq_entries_split_entry K N clh noh N i hi
    refine ⟨(if 1 < N then [Access.setR RGBP_R_CMDQ_ENABLE 0] else []) ++ pre,
      cmdq_mask K N i, post ++ [Access.setR RGBP_R_CMDQ_ENABLE 1], ?_, ?_⟩
    · rw [he]
      simp [cmdq_entry, cmdq_mode]
    · rw [writesToReg_append, List.length_append, hp]
      by_cases h : 1 < N <;> simp [h, writesToReg]

/-! ## Interrupt state -/

theorem or_and_self_absorb (r m : Nat) : r ||| (r &&& m) = r := by
  apply Nat.eq_of_testBit_eq
  intro i
  rw [Nat.testBit_or, Nat.testBit_and]
  cases r.testBit i <;> simp

/-- C4: for the raw value `r` read from the INT0 (resp. INT1) request register,
`rgbp_hw_g_int0_state` (resp. `rgbp_hw_g_int1_state`) stores `r` in `*irq_state`,
returns `r | (r & ERR_MASK)`, which is `r`, and after the read issues exactly one
access, the write of `r` to the clear register, when `clear` is true and no
access when it is false. -/
theorem g_int_state_spec (K : Consts) (hw : Hw) (clear : Bool) (num_buffers : Nat)
    (tr : List Access) :
    ((rgbp_hw_g_int0_state K hw clear num_buffers tr).irq_state =
        hw.getR tr RGBP_R_INT_REQ_INT0 ∧
      (rgbp_hw_g_int0_state K hw clear num_buffers tr).ret =
        hw.getR tr RGBP_R_INT_REQ_INT0 |||
          (hw.getR tr RGBP_R_INT_REQ_INT0 &&& K.RGBP_INT0_ERR_MASK) ∧
      (rgbp_hw_g_int0_state K hw clear num_buffers tr).ret = hw.getR tr RGBP_R_INT_REQ_INT0 ∧
      (rgbp_hw_g_int0_state K hw clear num_buffers tr).trace =
        tr ++ Access.getR RGBP_R_INT_REQ_INT0 (hw.getR tr RGBP_R_INT_REQ_INT0) ::
          (if clear then
            [Access.setR RGBP_R_INT_REQ_INT0_CLEAR (hw.getR tr RGBP_R_INT_REQ_INT0)]
           else [])) ∧
    ((rgbp_hw_g_int1_state K hw clear num_buffers tr).irq_state =
        hw.getR tr RGBP_R_INT_REQ_INT1 ∧
      (rgbp_hw_g_int1_state K hw clear num_buffers tr).ret =
        hw.getR tr RGBP_R_INT_REQ_INT1 |||
          (hw.getR tr RGBP_R_INT_REQ_INT1 &&& K.RGBP_INT1_ERR_MASK) ∧
      (rgbp_hw_g_int1_state K hw clear num_buffers tr).ret = hw.getR tr RGBP_R_INT_REQ_INT1 ∧
      (rgbp_hw_g_int1_state K hw clear num_buffers tr).trace =
        tr ++ Access.getR RGBP_R_INT_REQ_INT1 (hw.getR tr RGBP_R_INT_REQ_INT1) ::
          (if clear then
            [Access.setR RGBP_R_INT_REQ_INT1_CLEAR (hw.getR tr RGBP_R_INT_REQ_INT1)]
           else [])) := by
  refine ⟨⟨rfl, rfl, ?_, ?_⟩, ⟨rfl, rfl, ?_, ?_⟩⟩
  · exact or_and_self_absorb _ _
  · cases clear <;> simp [rgbp_hw_g_int0_state, RGBP_GET_R, RGBP_SET_R]
  · exact or_and_self_absorb _ _
  · cases clear <;> simp [rgbp_hw_g_int1_state, RGBP_GET_R, RGBP_SET_R]

/-! ## COREX -/

/-- The busy poll only reads the busy field, at most `RGBP_TRY_COUNT - (try_cnt + 1)`
times. -/
theorem wait_corex_idle_loop_reads (K : Consts) (hw : Hw) (try_cnt : Nat) (tr : List Access) :
    ∃ reads, rgbp_hw_wait_corex_idle_loop K hw try_cnt tr = tr ++ reads ∧
      (∀ a ∈ reads, ∃ v, a = Access.getF RGBP_R_COREX_STATUS_0 RGBP_F_COREX_BUSY_0 v) ∧
      reads.length ≤ K.RGBP_TRY_COUNT - (try_cnt + 1) := by
  induction try_cnt, tr using rgbp_hw_wait_corex_idle_loop.induct K hw with
  | case1 try_cnt tr try_cnt1 h =>
    rw [rgbp_hw_wait_corex_idle_loop]
    exact ⟨[], by simp [try_cnt1] at h; simp [h]⟩
  | case2 try_cnt tr try_cnt1 h busy hb ih =>
    rw [rgbp_hw_wait_corex_idle_loop]
    obtain ⟨reads, he, hr, hl⟩ := ih
    refine ⟨Access.getF RGBP_R_COREX_STATUS_0 RGBP_F_COREX_BUSY_0
      (hw.getF tr RGBP_R_COREX_STATUS_0 RGBP_F_COREX_BUSY_0) :: reads, ?_, ?_, ?_⟩
    · simp only [try_cnt1, busy, RGBP_GET_F] at h hb he ⊢
      simp [h, hb, he]
    · intro a ha
      rcases List.mem_cons.1 ha with rfl | ha
      · exact ⟨_, rfl⟩
      · exact hr a ha
    · simp only [try_cnt1] at h hl ⊢
      simp only [List.length_cons]
      omega
  | case3 try_cnt tr try_cnt1 h busy hb =>
    rw [rgbp_hw_wait_corex_idle_loop]
    refine ⟨[Access.getF RGBP_R_COREX_STATUS_0 RGBP_F_COREX_BUSY_0
      (hw.getF tr RGBP_R_COREX_STATUS_0 RGBP_F_COREX_BUSY_0)], ?_, ?_, ?_⟩
    · simp only [try_cnt1, busy, RGBP_GET_F, ne_eq, not_not] at h hb ⊢
      simp [h, hb]
    · intro a ha
      exact ⟨_, List.mem_singleton.1 ha⟩
    · simp only [try_cnt1] at h ⊢
      simp only [List.length_singleton]
      omega

/-- The reset poll only reads the reset register, at most
`RGBP_TRY_COUNT + 2 - reset_count` times. -/
theorem corex_init_reset_loop_reads (K : Consts) (hw : Hw) (reset_count : Nat)
    (tr : List Access) :
    ∃ reads, rgbp_hw_s_corex_init_reset_loop K hw reset_count tr = tr ++ reads ∧
      (∀ a ∈ reads, ∃ v, a = Access.getR RGBP_R_COREX_RESET v) ∧
      (reset_count ≤ K.RGBP_TRY_COUNT + 1 →
        reads.length ≤ K.RGBP_TRY_COUNT + 2 - reset_count) := by
  induction reset_count, tr using rgbp_hw_s_corex_init_reset_loop.induct K hw with
  | case1 reset_count tr v hv h =>
    rw [rgbp_hw_s_corex_init_reset_loop]
    refine ⟨[Access.getR RGBP_R_COREX_RESET (hw.getR tr RGBP_R_COREX_RESET)], ?_, ?_, ?_⟩
    · simp only [v, RGBP_GET_R] at hv h ⊢
      simp [hv, h]
    · intro a ha
      exact ⟨_, List.mem_singleton.1 ha⟩
    · intro hc
      simp only [List.length_singleton]
      omega
  | case2 reset_count tr v hv h ih =>
    rw [rgbp_hw_s_corex_init_reset_loop]
    obtain ⟨reads, he, hr, hl⟩ := ih
    refine ⟨Access.getR RGBP_R_COREX_RESET (hw.getR tr RGBP_R_COREX_RESET) :: reads, ?_, ?_, ?_⟩
    · simp only [v, RGBP_GET_R] at hv h he ⊢
      simp [hv, h, he]
    · intro a ha
      rcases List.mem_cons.1 ha with rfl | ha
      · exact ⟨_, rfl⟩
      · exact hr a ha
    · intro hc
      have := hl (by omega)
      simp only [List.length_cons]
      omega
  | case3 reset_count tr v hv =>
    rw [rgbp_hw_s_corex_init_reset_loop]
    refine ⟨[Access.getR RGBP_R_COREX_RESET (hw.getR tr RGBP_R_COREX_RESET)], ?_, ?_, ?_⟩
    · simp only [v, RGBP_GET_R, ne_eq, not_not] at hv ⊢
      simp [hv]
    · intro a ha
      exact ⟨_, List.mem_singleton.1 ha⟩
    · intro hc
      simp only [List.length_singleton]
      omega

theorem writesToField_reads_getF (r : Reg) (f : Field) (reads : List Access) (r0 : Reg)
    (f0 : Field) (h : ∀ a ∈ reads, ∃ v, a = Access.getF r0 f0 v) :
    writesToField r f reads = [] := by
  unfold writesToField
  rw [List.filterMap_eq_nil_iff]
  intro a ha
  obtain ⟨v, rfl⟩ := h a ha
  rfl

theorem writesToField_reads_getR (r : Reg) (f : Field) (reads : List Access) (r0 : Reg)
    (h : ∀ a ∈ reads, ∃ v, a = Access.getR r0 v) :
    writesToField r f reads = [] := by
  unfold writesToField
  rw [List.filterMap_eq_nil_iff]
  intro a ha
  obtain ⟨v, rfl⟩ := h a ha
  rfl

/-- Closed form of `rgbp_hw_s_corex_init(enable = true)`: two writes, the reads of
the reset poll, eight writes, the reads of the busy poll. -/
theorem corex_init_enable_eq (K : Consts) (hw : Hw) (tr : List Access) :
    ∃ resetReads busyReads,
      rgbp_hw_s_corex_init K hw true tr =
        tr ++ [Access.setF RGBP_R_COREX_ENABLE RGBP_F_COREX_ENABLE 1,
               Access.setF RGBP_R_COREX_RESET RGBP_F_COREX_RESET 1] ++ resetReads ++
          [Access.setF RGBP_R_COREX_TYPE_WRITE_TRIGGER RGBP_F_COREX_TYPE_WRITE_TRIGGER 1,
           Access.setF RGBP_R_COREX_TYPE_WRITE RGBP_F_COREX_TYPE_WRITE 0,
           Access.setF RGBP_R_COREX_UPDATE_TYPE_0 RGBP_F_COREX_UPDATE_TYPE_0 K.COREX_COPY,
           Access.setF RGBP_R_COREX_UPDATE_TYPE_1 RGBP_F_COREX_UPDATE_TYPE_1 K.COREX_IGNORE,
           Access.setF RGBP_R_COREX_UPDATE_MODE_0 RGBP_F_COREX_UPDATE_MODE_0 K.SW_TRIGGER,
           Access.setF RGBP_R_COREX_UPDATE_MODE_1 RGBP_F_COREX_UPDATE_MODE_1 K.SW_TRIGGER,
           Access.setR RGBP_R_COREX_COPY_FROM_IP_0 1,
           Access.setR RGBP_R_COREX_COPY_FROM_IP_1 1] ++ busyReads ∧
      (∀ a ∈ resetReads, ∃ v, a = Access.getR RGBP_R_COREX_RESET v) ∧
      resetReads.length ≤ K.RGBP_TRY_COUNT + 2 ∧
      (∀ a ∈ busyReads, ∃ v, a = Access.getF RGBP_R_COREX_STATUS_0 RGBP_F_COREX_BUSY_0 v) ∧
      busyReads.length ≤ K.RGBP_TRY_COUNT - 1 := by
  simp only [rgbp_hw_s_corex_init, rgbp_hw_wait_corex_idle, RGBP_SET_F, RGBP_SET_R,
    Bool.not_true, Bool.false_eq_true, if_false]
  obtain ⟨rr, hre, hrr, hrl⟩ := corex_init_reset_loop_reads K hw 0
    (tr ++ [Access.setF RGBP_R_COREX_ENABLE RGBP_F_COREX_ENABLE 1] ++
      [Access.setF RGBP_R_COREX_RESET RGBP_F_COREX_RESET 1])
  rw [hre]
  obtain ⟨br, hbe, hbr, hbl⟩ := wait_corex_idle_loop_reads K hw 0
    (tr ++ [Access.setF RGBP_R_COREX_ENABLE RGBP_F_COREX_ENABLE 1] ++
      [Access.setF RGBP_R_COREX_RESET RGBP_F_COREX_RESET 1] ++ rr ++
      [Access.setF RGBP_R_COREX_TYPE_WRITE_TRIGGER RGBP_F_COREX_TYPE_WRITE_TRIGGER 1] ++
      [Access.setF RGBP_R_COREX_TYPE_WRITE RGBP_F_COREX_TYPE_WRITE 0] ++
      [Access.setF RGBP_R_COREX_UPDATE_TYPE_0 RGBP_F_COREX_UPDATE_TYPE_0 K.COREX_COPY] ++
      [Access.setF RGBP_R_COREX_UPDATE_TYPE_1 RGBP_F_COREX_UPDATE_TYPE_1 K.COREX_IGNORE] ++
      [Access.setF RGBP_R_COREX_UPDATE_MODE_0 RGBP_F_COREX_UPDATE_MODE_0 K.SW_TRIGGER] ++
      [Access.setF RGBP_R_COREX_UPDATE_MODE_1 RGBP_F_COREX_UPDATE_MODE_1 K.SW_TRIGGER] ++
      [Access.setR RGBP_R_COREX_COPY_FROM_IP_0 1] ++
      [Access.setR RGBP_R_COREX_COPY_FROM_IP_1 1])
  rw [hbe]
  exact ⟨rr, br, by simp, hrr, by have := hrl (by omega); omega, hbr, by omega⟩

/-- Closed form of `rgbp_hw_s_corex_init(enable = false)`: the mode write, the
reads of the busy poll, the disable write. -/
theorem corex_init_disable_eq (K : Consts) (hw : Hw) (tr : List Access) :
    ∃ busyReads,
      rgbp_hw_s_corex_init K hw false tr =
        tr ++ [Access.setF RGBP_R_COREX_UPDATE_MODE_0 RGBP_F_COREX_UPDATE_MODE_0 K.SW_TRIGGER]
          ++ busyReads ++ [Access.setF RGBP_R_COREX_ENABLE RGBP_F_COREX_ENABLE 0] ∧
      (∀ a ∈ busyReads, ∃ v, a = Access.getF RGBP_R_COREX_STATUS_0 RGBP_F_COREX_BUSY_0 v) ∧
      busyReads.length ≤ K.RGBP_TRY_COUNT - 1 := by
  simp only [rgbp_hw_s_corex_init, rgbp_hw_wait_corex_idle, RGBP_SET_F,
    Bool.not_false, if_true]
  obtain ⟨br, hbe, hbr, hbl⟩ := wait_corex_idle_loop_reads K hw 0
    (tr ++ [Access.setF RGBP_R_COREX_UPDATE_MODE_0 RGBP_F_COREX_UPDATE_MODE_0 K.SW_TRIGGER])
  rw [hbe]
  exact ⟨br, rfl, hbr, by omega⟩

theorem fieldValue_append (r : Reg) (f : Field) (a b : List Access) :
    fieldValue r f (a ++ b) = (fieldValue r f b).or (fieldValue r f a) := by
  simp [fieldValue, writesToField_append]

theorem corex_init_enable_update_type (K : Consts) (hw : Hw) (tr : List Access) :
    fieldValue RGBP_R_COREX_UPDATE_TYPE_0 RGBP_F_COREX_UPDATE_TYPE_0
        (rgbp_hw_s_corex_init K hw true tr) = some K.COREX_COPY ∧
      fieldValue RGBP_R_COREX_UPDATE_TYPE_1 RGBP_F_COREX_UPDATE_TYPE_1
        (rgbp_hw_s_corex_init K hw true tr) = some K.COREX_IGNORE := by
  obtain ⟨rr, br, he, hrr, _, hbr, _⟩ := corex_init_enable_eq K hw tr
  rw [he]
  constructor
  · rw [fieldValue_append, fieldValue, writesToField_reads_getF _ _ br _ _ hbr, fieldValue_append]
    simp [fieldValue, writesToField]
  · rw [fieldValue_append, fieldValue, writesToField_reads_getF _ _ br _ _ hbr, fieldValue_append]
    simp [fieldValue, writesToField]

theorem corex_init_disable_update_type (K : Consts) (hw : Hw) (tr : List Access) :
    fieldValue RGBP_R_COREX_UPDATE_TYPE_0 RGBP_F_COREX_UPDATE_TYPE_0
        (rgbp_hw_s_corex_init K hw false tr) =
      fieldValue RGBP_R_COREX_UPDATE_TYPE_0 RGBP_F_COREX_UPDATE_TYPE_0 tr ∧
    fieldValue RGBP_R_COREX_UPDATE_TYPE_1 RGBP_F_COREX_UPDATE_TYPE_1
        (rgbp_hw_s_corex_init K hw false tr) =
      fieldValue RGBP_R_COREX_UPDATE_TYPE_1 RGBP_F_COREX_UPDATE_TYPE_1 tr := by
  obtain ⟨br, he, hbr, _⟩ := corex_init_disable_eq K hw tr
  rw [he]
  constructor
  · rw [fieldValue_append, fieldValue_append, fieldValue_append, fieldValue, fieldValue,
      writesToField_reads_getF _ _ br _ _ hbr]
    simp [fieldValue, writesToField]
  · rw [fieldValue_append, fieldValue_append, fieldValue_append, fieldValue, fieldValue,
      writesToField_reads_getF _ _ br _ _ hbr]
    simp [fieldValue, writesToField]

/-- What `rgbp_hw_s_corex_update_type` leaves in the two update-type fields. -/
theorem corex_update_type_values (K : Consts) (set_id : CorexSet) (type : Nat)
    (tr : List Access) :
    (set_id = CorexSet.COREX_SET_A ∨ set_id = CorexSet.COREX_SET_B →
      (rgbp_hw_s_corex_update_type K set_id type tr).1 = 0 ∧
      fieldValue RGBP_R_COREX_UPDATE_TYPE_0 RGBP_F_COREX_UPDATE_TYPE_0
        (rgbp_hw_s_corex_update_type K set_id type tr).2 = some type ∧
      fieldValue RGBP_R_COREX_UPDATE_TYPE_1 RGBP_F_COREX_UPDATE_TYPE_1
        (rgbp_hw_s_corex_update_type K set_id type tr).2 = some type) ∧
    (set_id = CorexSet.COREX_DIRECT →
      (rgbp_hw_s_corex_update_type K set_id type tr).1 = 0 ∧
      fieldValue RGBP_R_COREX_UPDATE_TYPE_0 RGBP_F_COREX_UPDATE_TYPE_0
        (rgbp_hw_s_corex_update_type K set_id type tr).2 = some K.COREX_IGNORE ∧
      fieldValue RGBP_R_COREX_UPDATE_TYPE_1 RGBP_F_COREX_UPDATE_TYPE_1
        (rgbp_hw_s_corex_update_type K set_id type tr).2 = some K.COREX_IGNORE) ∧
    (∀ raw, set_id = CorexSet.other raw →
      rgbp_hw_s_corex_update_type K set_id type tr = (K.NEG_EINVAL, tr)) := by
  refine ⟨?_, ?_, ?_⟩
  · rintro (rfl | rfl) <;>
      simp [rgbp_hw_s_corex_update_type, RGBP_SET_F, fieldValue, writesToField]
  · rintro rfl
    simp [rgbp_hw_s_corex_update_type, RGBP_SET_F, fieldValue, writesToField]
  · rintro raw rfl
    rfl

/-- The two update-type fields hold copy and ignore, in this order. -/
theorem corex_copy_ignore_step (K : Consts) (hw : Hw) (c : CorexCall) (tr : List Access)
    (hc : ∀ s t, c = CorexCall.update_type s t → ∃ raw, s = CorexSet.other raw)
    (h : fieldValue RGBP_R_COREX_UPDATE_TYPE_0 RGBP_F_COREX_UPDATE_TYPE_0 tr =
          some K.COREX_COPY ∧
        fieldValue RGBP_R_COREX_UPDATE_TYPE_1 RGBP_F_COREX_UPDATE_TYPE_1 tr =
          some K.COREX_IGNORE) :
    fieldValue RGBP_R_COREX_UPDATE_TYPE_0 RGBP_F_COREX_UPDATE_TYPE_0 (c.run K hw tr) =
        some K.COREX_COPY ∧
      fieldValue RGBP_R_COREX_UPDATE_TYPE_1 RGBP_F_COREX_UPDATE_TYPE_1 (c.run K hw tr) =
        some K.COREX_IGNORE := by
  cases c with
  | init enable =>
    cases enable with
    | true => exact corex_init_enable_update_type K hw tr
    | false =>
      obtain ⟨h0, h1⟩ := corex_init_disable_update_type K hw tr
      simp only [CorexCall.run]
      rw [h0, h1]
      exact h
  | update_type s t =>
    obtain ⟨raw, rfl⟩ := hc s t rfl
    exact h

theorem corex_copy_ignore_run (K : Consts) (hw : Hw) (cs : List CorexCall) (tr : List Access)
    (hcs : ∀ c ∈ cs, ∀ s t, c = CorexCall.update_type s t → ∃ raw, s = CorexSet.other raw)
    (h : fieldValue RGBP_R_COREX_UPDATE_TYPE_0 RGBP_F_COREX_UPDATE_TYPE_0 tr =
          some K.COREX_COPY ∧
        fieldValue RGBP_R_COREX_UPDATE_TYPE_1 RGBP_F_COREX_UPDATE_TYPE_1 tr =
          some K.COREX_IGNORE) :
    fieldValue RGBP_R_COREX_UPDATE_TYPE_0 RGBP_F_COREX_UPDATE_TYPE_0
        (runCorexCalls K hw cs tr) = some K.COREX_COPY ∧
      fieldValue RGBP_R_COREX_UPDATE_TYPE_1 RGBP_F_COREX_UPDATE_TYPE_1
        (runCorexCalls K hw cs tr) = some K.COREX_IGNORE := by
  induction cs generalizing tr with
  | nil => exact h
  | cons c cs ih =>
    simp only [runCorexCalls, List.foldl_cons]
    exact ih _ (fun c1 h1 => hcs c1 (List.mem_cons_of_mem _ h1))
      (corex_copy_ignore_step K hw c tr (hcs c (List.mem_cons_self _ _)) h)

/-- C5 as stated fails: after an enabling `rgbp_hw_s_corex_init`, a call of
`rgbp_hw_s_corex_update_type` with `COREX_DIRECT` leaves `COREX_IGNORE` in both
update-type fields, and a call with `COREX_SET_A` and type `COREX_COPY` leaves
`COREX_COPY` in both. -/
theorem corex_one_copy_counterexample :
    ¬ corex_one_copy_one_ignore sampleConsts
        (runCorexCalls sampleConsts zeroHw
          [CorexCall.init true, CorexCall.update_type CorexSet.COREX_DIRECT 1] []) ∧
    ¬ corex_one_copy_one_ignore sampleConsts
        (runCorexCalls sampleConsts zeroHw
          [CorexCall.init true,
           CorexCall.update_type CorexSet.COREX_SET_A sampleConsts.COREX_COPY] []) := by
  constructor
  · obtain ⟨_, h0, h1⟩ := (corex_update_type_values sampleConsts CorexSet.COREX_DIRECT 1
      (rgbp_hw_s_corex_init sampleConsts zeroHw true [])).2.1 rfl
    simp only [corex_one_copy_one_ignore, runCorexCalls, List.foldl_cons, List.foldl_nil,
      CorexCall.run, h0, h1]
    decide
  · obtain ⟨_, h0, h1⟩ := (corex_update_type_values sampleConsts CorexSet.COREX_SET_A
      sampleConsts.COREX_COPY (rgbp_hw_s_corex_init sampleConsts zeroHw true [])).1 (Or.inl rfl)
    simp only [corex_one_copy_one_ignore, runCorexCalls, List.foldl_cons, List.foldl_nil,
      CorexCall.run, h0, h1]
    decide

/-- C5 (amended): after `rgbp_hw_s_corex_init(enable = true)`, followed by any
calls of `rgbp_hw_s_corex_init` and calls of `rgbp_hw_s_corex_update_type` with an
unrecognised `set_id`, `COREX_UPDATE_TYPE_0` holds `COREX_COPY` and
`COREX_UPDATE_TYPE_1` holds `COREX_IGNORE`.  A call of
`rgbp_hw_s_corex_update_type` with `COREX_SET_A` or `COREX_SET_B` returns 0 and
leaves `type` in both fields, with `COREX_DIRECT` it returns 0 and leaves
`COREX_IGNORE` in both, and with any other `set_id` it returns `-EINVAL` and
issues no access. -/
theorem corex_update_type_invariant (K : Consts) (hw : Hw) (cs : List CorexCall)
    (tr : List Access)
    (hcs : ∀ c ∈ cs, ∀ s t, c = CorexCall.update_type s t → ∃ raw, s = CorexSet.other raw) :
    (fieldValue RGBP_R_COREX_UPDATE_TYPE_0 RGBP_F_COREX_UPDATE_TYPE_0
        (runCorexCalls K hw (CorexCall.init true :: cs) tr) = some K.COREX_COPY ∧
      fieldValue RGBP_R_COREX_UPDATE_TYPE_1 RGBP_F_COREX_UPDATE_TYPE_1
        (runCorexCalls K hw (CorexCall.init true :: cs) tr) = some K.COREX_IGNORE) ∧
    corex_one_copy_one_ignore K (runCorexCalls K hw (CorexCall.init true :: cs) tr) ∧
    ∀ (set_id : CorexSet) (type : Nat) (tr1 : List Access),
      (set_id = CorexSet.COREX_SET_A ∨ set_id = CorexSet.COREX_SET_B →
        (rgbp_hw_s_corex_update_type K set_id type tr1).1 = 0 ∧
        fieldValue RGBP_R_COREX_UPDATE_TYPE_0 RGBP_F_COREX_UPDATE_TYPE_0
          (rgbp_hw_s_corex_update_type K set_id type tr1).2 = some type ∧
        fieldValue RGBP_R_COREX_UPDATE_TYPE_1 RGBP_F_COREX_UPDATE_TYPE_1
          (rgbp_hw_s_corex_update_type K set_id type tr1).2 = some type) ∧
      (set_id = CorexSet.COREX_DIRECT →
        (rgbp_hw_s_corex_update_type K set_id type tr1).1 = 0 ∧
        fieldValue RGBP_R_COREX_UPDATE_TYPE_0 RGBP_F_COREX_UPDATE_TYPE_0
          (rgbp_hw_s_corex_update_type K set_id type tr1).2 = some K.COREX_IGNORE ∧
        fieldValue RGBP_R_COREX_UPDATE_TYPE_1 RGBP_F_COREX_UPDATE_TYPE_1
          (rgbp_hw_s_corex_update_type K set_id type tr1).2 = some K.COREX_IGNORE) ∧
      (∀ raw, set_id = CorexSet.other raw →
        rgbp_hw_s_corex_update_type K set_id type tr1 = (K.NEG_EINVAL, tr1)) := by
  have hP := corex_copy_ignore_run K hw cs (rgbp_hw_s_corex_init K hw true tr) hcs
    (corex_init_enable_update_type K hw tr)
  have hrun : runCorexCalls K hw (CorexCall.init true :: cs) tr =
      runCorexCalls K hw cs (rgbp_hw_s_corex_init K hw true tr) := rfl
  rw [hrun]
  exact ⟨hP, Or.inl hP, fun set_id type tr1 => corex_update_type_values K set_id type tr1⟩

/-- C5 (amended) at a concrete sequence: enable, disable, an update-type call
with an unrecognised set id. -/
theorem corex_update_type_invariant_witness :
    corex_one_copy_one_ignore sampleConsts
      (runCorexCalls sampleConsts zeroHw
        [CorexCall.init true, CorexCall.init false,
         CorexCall.update_type (CorexSet.other 7) 2] []) :=
  (corex_update_type_invariant sampleConsts zeroHw
    [CorexCall.init false, CorexCall.update_type (CorexSet.other 7) 2] []
    (by
      intro c hc s t hst
      subst hst
      simp only [List.mem_cons, List.mem_singleton, CorexCall.update_type.injEq,
        List.not_mem_nil, or_false, false_or] at hc
      rcases hc with hc | hc
      · cases hc
      · exact ⟨7, hc.1⟩)).2.1

/-! ## DMA: unrecognised channel roles -/

theorem rdma_init_select_none (id : DmaId) (param_set : rgbp_param_set) (in_rgb : Nat)
    (h : is_rdma_role id = false) : rdma_init_select id param_set in_rgb = none := by
  cases id <;> simp_all [is_rdma_role, rdma_init_select]

theorem wdma_init_select_none (K : Consts) (id : DmaId) (param_set : rgbp_param_set)
    (out_yuv : Nat) (h : is_wdma_role id = false) :
    wdma_init_select K id param_set out_yuv = none := by
  cases id <;> simp_all [is_wdma_role, wdma_init_select]

/-- C7: for a `dma` whose id is not a recognised role, the address binders return
`SET_ERROR` and issue no DMA operation, whatever the address array, `num_buffers`,
compression flag and `payload_size`. -/
theorem addr_invalid_id (K : Consts) (E : DmaEnv) (id : DmaId) (addr : Nat → Nat)
    (plane num_buffers : Nat) (buf_idx : Int) (comp_sbwc_en payload_size flag : Nat)
    (ops : List DmaOp) :
    (is_rdma_role id = false →
      rgbp_hw_s_rdma_addr K E id addr plane num_buffers buf_idx comp_sbwc_en payload_size flag
        ops = some (K.SET_ERROR, ops)) ∧
    (is_wdma_role id = false →
      rgbp_hw_s_wdma_addr K E id addr plane num_buffers buf_idx comp_sbwc_en payload_size flag
        ops = some (K.SET_ERROR, ops)) := by
  constructor
  · intro h
    cases id <;> simp_all [is_rdma_role, rgbp_hw_s_rdma_addr]
  · intro h
    cases id <;> simp_all [is_wdma_role, rgbp_hw_s_wdma_addr, wdma_addr_index]

/-- C7 at concrete inputs: a write-channel id given to the read binder and an
unknown id given to the write binder, with more buffers than `IS_MAX_FRO`. -/
theorem addr_invalid_id_witness :
    rgbp_hw_s_rdma_addr sampleConsts sampleEnv DmaId.RGBP_WDMA_HF (fun i => 4096 * i) 0 100 0
        1 8192 1 [] = some (sampleConsts.SET_ERROR, []) ∧
    rgbp_hw_s_wdma_addr sampleConsts sampleEnv (DmaId.other 99) (fun i => 4096 * i) 0 100 0
        1 8192 1 [] = some (sampleConsts.SET_ERROR, []) :=
  ⟨(addr_invalid_id sampleConsts sampleEnv DmaId.RGBP_WDMA_HF (fun i => 4096 * i) 0 100 0
      1 8192 1 []).1 rfl,
   (addr_invalid_id sampleConsts sampleEnv (DmaId.other 99) (fun i => 4096 * i) 0 100 0
      1 8192 1 []).2 rfl⟩

/-- C6 as stated fails: with an unrecognised id the descriptor builders have
already issued `dma_enable` when they reach the role check, and with `enable = 0`
they return 0. -/
theorem init_invalid_id_counterexample :
    (rgbp_hw_s_rdma_init sampleConsts sampleEnv (DmaId.other 99) (sampleParams 0 512 1024 0)
        1 0 0 0 []).ops = [DmaOp.dma_enable 1] ∧
    (rgbp_hw_s_wdma_init sampleConsts sampleEnv (DmaId.other 99) (sampleParams 0 512 1024 0)
        0 1 0 0 0 []).ops = [DmaOp.dma_enable 1] ∧
    (rgbp_hw_s_rdma_init sampleConsts sampleEnv (DmaId.other 99) (sampleParams 0 512 1024 0)
        0 0 0 0 []) = ⟨0, none, none, [DmaOp.dma_enable 0]⟩ ∧
    (rgbp_hw_s_wdma_init sampleConsts sampleEnv (DmaId.other 99) (sampleParams 0 512 1024 0)
        0 0 0 0 0 []) = ⟨0, none, none, [DmaOp.dma_enable 0]⟩ := by
  refine ⟨?_, ?_, ?_, ?_⟩ <;> rfl

/-- C6 (amended): for a `dma` whose id is not a recognised role, the descriptor
builders issue exactly one DMA operation, `dma_enable(enable)`, store nothing
through `sbwc_en` and `payload_size`, and return `SET_ERROR` when `enable` is
non-zero and 0 when it is zero. -/
theorem init_invalid_id (K : Consts) (E : DmaEnv) (id : DmaId) (param_set : rgbp_param_set)
    (instance_id enable in_crop_size_x cache_hint flag : Nat) (ops : List DmaOp) :
    (is_rdma_role id = false →
      rgbp_hw_s_rdma_init K E id param_set enable in_crop_size_x cache_hint flag ops =
        ⟨if enable = 0 then 0 else K.SET_ERROR, none, none,
          ops ++ [DmaOp.dma_enable enable]⟩) ∧
    (is_wdma_role id = false →
      rgbp_hw_s_wdma_init K E id param_set instance_id enable in_crop_size_x cache_hint flag
          ops =
        ⟨if enable = 0 then 0 else K.SET_ERROR, none, none,
          ops ++ [DmaOp.dma_enable enable]⟩) := by
  constructor
  · intro h
    simp only [rgbp_hw_s_rdma_init, CALL_DMA_OPS, rdma_init_select_none id param_set flag h]
    split_ifs <;> rfl
  · intro h
    simp only [rgbp_hw_s_wdma_init, CALL_DMA_OPS,
      wdma_init_select_none K id param_set flag h]
    split_ifs <;> rfl

/-- C6 (amended) at concrete inputs. -/
theorem init_invalid_id_witness :
    rgbp_hw_s_rdma_init sampleConsts sampleEnv DmaId.RGBP_WDMA_Y (sampleParams 0 512 1024 0)
        1 0 0 0 [] = ⟨sampleConsts.SET_ERROR, none, none, [DmaOp.dma_enable 1]⟩ ∧
    rgbp_hw_s_wdma_init sampleConsts sampleEnv (DmaId.other 99) (sampleParams 0 512 1024 0)
        0 1 0 0 0 [] = ⟨sampleConsts.SET_ERROR, none, none, [DmaOp.dma_enable 1]⟩ :=
  ⟨(init_invalid_id sampleConsts sampleEnv DmaId.RGBP_WDMA_Y (sampleParams 0 512 1024 0)
      0 1 0 0 0 []).1 rfl,
   (init_invalid_id sampleConsts sampleEnv (DmaId.other 99) (sampleParams 0 512 1024 0)
      0 1 0 0 0 []).2 rfl⟩

/-! ## DMA: format resolution failure -/

theorem or_ne_zero_of_left (a b : Nat) (h : a ≠ 0) : a ||| b ≠ 0 := by
  intro hab
  apply h
  apply Nat.eq_of_testBit_eq
  intro i
  have hi := congrArg (fun n => Nat.testBit n i) hab
  simp only [Nat.testBit_or, Nat.zero_testBit, Bool.or_eq_false_iff] at hi
  simp [hi.1]

theorem or_ne_zero_of_right (a b : Nat) (h : b ≠ 0) : a ||| b ≠ 0 := by
  rw [Nat.lor_comm]
  exact or_ne_zero_of_left b a h

theorem stored_self (x : Option Nat) : stored x x = x := by
  cases x <;> rfl

/-- C8 as stated fails: when format resolution fails for an enabled channel with
a valid role, the builders go on and issue the format, size, stride and
tunnel-enable operations (and, for a write channel, the compression-enable,
bus-info and cache operations), the format operation with a format that was
never assigned. -/
theorem init_format_failure_counterexample :
    (sampleEnv.is_hw_dma_get_bayer_format 16 10 99 0 true).1 ≠ 0 ∧
    (rgbp_hw_s_rdma_init sampleConsts sampleEnv DmaId.RGBP_RDMA_BYR (sampleParams 99 512 1024 0)
        1 0 0 0 []).ops =
      [DmaOp.dma_enable 1, DmaOp.dma_set_format none 1, DmaOp.dma_set_size 512 1024,
       DmaOp.dma_set_img_stride 1024 0 0, DmaOp.dma_votf_enable 0 0] ∧
    (rgbp_hw_s_wdma_init sampleConsts sampleEnv DmaId.RGBP_WDMA_SF (sampleParams 99 512 1024 0)
        0 1 0 0 0 []).ops =
      [DmaOp.dma_enable 1, DmaOp.dma_set_format none 1, DmaOp.dma_set_comp_sbwc_en 0,
       DmaOp.dma_set_size 512 1024, DmaOp.dma_set_img_stride 1024 0 0,
       DmaOp.dma_votf_enable 0 0, DmaOp.dma_set_bus_info 0, DmaOp.dma_set_cache_32b_pa 0] := by
  refine ⟨by decide, ?_, ?_⟩ <;> rfl

theorem wdma_init_bus_some (K : Consts) (id : DmaId) (param_set : rgbp_param_set)
    (out_yuv : Nat) (sel : param_dma_output × Nat × Nat)
    (h : wdma_init_select K id param_set out_yuv = some sel)
    (en_votf comp_sbwc_en bus_info : Nat) :
    ∃ bus pa, wdma_init_bus K id en_votf comp_sbwc_en bus_info = some (bus, pa) := by
  cases id <;> simp_all [wdma_init_select, wdma_init_bus]
  split_ifs <;> simp

/-- C8 (amended): when format resolution fails for an enabled channel with a
valid role and `DMA_OPS_ERROR` is non-zero, `rgbp_hw_s_rdma_init` returns a
non-zero word and still issues enable, format, size, stride, tunnel-enable;
`rgbp_hw_s_wdma_init` with a compression mode in 0..2 returns a non-zero word and
still issues enable, format, compression-enable, size, stride, tunnel-enable,
bus-info, cache flag (and 64B-align, header-stride when compressed), and with any
other compression mode returns `SET_ERROR` after the enable operation alone. -/
theorem init_format_failure (K : Consts) (E : DmaEnv) (id : DmaId) (param_set : rgbp_param_set)
    (instance_id enable in_crop_size_x cache_hint flag : Nat) (ops : List DmaOp)
    (hen : enable ≠ 0) (herr : K.DMA_OPS_ERROR ≠ 0) :
    (∀ di, rdma_init_select id param_set flag = some di →
      (E.is_hw_dma_get_bayer_format di.bitwidth ((di.msb + 1) % U32) di.format 0 true).1 ≠ 0 →
      (rgbp_hw_s_rdma_init K E id param_set enable in_crop_size_x cache_hint flag ops).ret ≠ 0 ∧
      ∃ format stride_1p,
        (rgbp_hw_s_rdma_init K E id param_set enable in_crop_size_x cache_hint flag ops).ops =
          ops ++ [DmaOp.dma_enable enable, DmaOp.dma_set_format format K.DMA_FMT_BAYER,
            DmaOp.dma_set_size di.width di.height, DmaOp.dma_set_img_stride stride_1p 0 0,
            DmaOp.dma_votf_enable di.v_otf_enable 0]) ∧
    (∀ dout bw bh, wdma_init_select K id param_set flag = some (dout, bw, bh) →
      (E.is_hw_dma_get_bayer_format dout.bitwidth ((dout.msb + 1) % U32) dout.format
        (E.is_hw_dma_get_comp_sbwc_en dout.sbwc_type 1).1 true).1 ≠ 0 →
      ((E.is_hw_dma_get_comp_sbwc_en dout.sbwc_type 1).1 ≤ 2 →
        (rgbp_hw_s_wdma_init K E id param_set instance_id enable in_crop_size_x cache_hint flag
          ops).ret ≠ 0 ∧
        ∃ format stride_1p bus_info en_32b_pa align header_stride_1p,
          (rgbp_hw_s_wdma_init K E id param_set instance_id enable in_crop_size_x cache_hint
            flag ops).ops =
            ops ++ [DmaOp.dma_enable enable, DmaOp.dma_set_format format K.DMA_FMT_BAYER,
              DmaOp.dma_set_comp_sbwc_en (E.is_hw_dma_get_comp_sbwc_en dout.sbwc_type 1).1,
              DmaOp.dma_set_size dout.width dout.height,
              DmaOp.dma_set_img_stride stride_1p 0 0,
              DmaOp.dma_votf_enable dout.v_otf_enable 0,
              DmaOp.dma_set_bus_info bus_info, DmaOp.dma_set_cache_32b_pa en_32b_pa] ++
              (if (E.is_hw_dma_get_comp_sbwc_en dout.sbwc_type 1).1 = 0 then []
               else [DmaOp.dma_set_comp_64b_align align,
                     DmaOp.dma_set_header_stride header_stride_1p 0])) ∧
      (2 < (E.is_hw_dma_get_comp_sbwc_en dout.sbwc_type 1).1 →
        rgbp_hw_s_wdma_init K E id param_set instance_id enable in_crop_size_x cache_hint flag
            ops =
          ⟨K.SET_ERROR, some (E.is_hw_dma_get_comp_sbwc_en dout.sbwc_type 1).1, none,
            ops ++ [DmaOp.dma_enable enable]⟩)) := by
  constructor
  · intro di hsel hfail
    simp only [rgbp_hw_s_rdma_init, CALL_DMA_OPS, hsel, if_neg hen, if_pos hfail]
    refine ⟨?_, ?_⟩
    · iterate 4 apply or_ne_zero_of_left
      exact or_ne_zero_of_right _ _ herr
    · exact ⟨_, _, by simp only [List.append_assoc, List.singleton_append]; rfl⟩
  · intro dout bw bh hsel hfail
    constructor
    · intro hle
      obtain ⟨bus, pa, hbus⟩ := wdma_init_bus_some K id param_set flag _ hsel dout.v_otf_enable
        (E.is_hw_dma_get_comp_sbwc_en dout.sbwc_type 1).1
        (if dout.v_otf_enable ≠ 0 then (cache_hint <<< 4) % U32 else 0)
      by_cases h0 : (E.is_hw_dma_get_comp_sbwc_en dout.sbwc_type 1).1 = 0
      · have h12 : ¬ ((E.is_hw_dma_get_comp_sbwc_en dout.sbwc_type 1).1 = 1 ∨
            (E.is_hw_dma_get_comp_sbwc_en dout.sbwc_type 1).1 = 2) := by omega
        simp only [rgbp_hw_s_wdma_init, CALL_DMA_OPS, hsel, if_neg hen, if_pos hfail, if_pos h0,
          hbus, if_neg h12]
        refine ⟨?_, ?_⟩
        · iterate 7 apply or_ne_zero_of_left
          exact or_ne_zero_of_right _ _ herr
        · exact ⟨_, _, _, _, 0, 0, by
            simp only [List.append_assoc, List.singleton_append, List.append_nil, if_pos h0]
            rfl⟩
      · have h12 : (E.is_hw_dma_get_comp_sbwc_en dout.sbwc_type 1).1 = 1 ∨
            (E.is_hw_dma_get_comp_sbwc_en dout.sbwc_type 1).1 = 2 := by omega
        simp only [rgbp_hw_s_wdma_init, CALL_DMA_OPS, hsel, if_neg hen, if_pos hfail, if_neg h0,
          hbus, if_pos h12]
        refine ⟨?_, ?_⟩
        · iterate 9 apply or_ne_zero_of_left
          exact or_ne_zero_of_right _ _ herr
        · exact ⟨_, _, _, _, _, _, by
            simp only [List.append_assoc, List.singleton_append, if_neg h0]
            rfl⟩
    · intro hgt
      have h0 : ¬ (E.is_hw_dma_get_comp_sbwc_en dout.sbwc_type 1).1 = 0 := by omega
      have h12 : ¬ ((E.is_hw_dma_get_comp_sbwc_en dout.sbwc_type 1).1 = 1 ∨
          (E.is_hw_dma_get_comp_sbwc_en dout.sbwc_type 1).1 = 2) := by omega
      simp only [rgbp_hw_s_wdma_init, CALL_DMA_OPS, hsel, if_neg hen, if_neg h0, if_neg h12]

/-- C8 (amended) at concrete inputs: hardware format 99 does not resolve. -/
theorem init_format_failure_witness :
    (1 : Nat) ≠ 0 ∧ sampleConsts.DMA_OPS_ERROR ≠ 0 ∧
    (rgbp_hw_s_rdma_init sampleConsts sampleEnv DmaId.RGBP_RDMA_BYR (sampleParams 99 512 1024 1)
        1 0 0 0 []).ret ≠ 0 ∧
    (rgbp_hw_s_wdma_init sampleConsts sampleEnv DmaId.RGBP_WDMA_HF (sampleParams 99 512 1024 1)
        0 1 0 0 0 []).ret ≠ 0 :=
  ⟨by decide, by decide,
   ((init_format_failure sampleConsts sampleEnv DmaId.RGBP_RDMA_BYR (sampleParams 99 512 1024 1)
      0 1 0 0 0 [] (by decide) (by decide)).1 _ rfl (by decide)).1,
   (((init_format_failure sampleConsts sampleEnv DmaId.RGBP_WDMA_HF (sampleParams 99 512 1024 1)
      0 1 0 0 0 [] (by decide) (by decide)).2 _ _ _ rfl (by decide)).1 (by decide)).1⟩

/-! ## DMA: payload size -/

theorem ceil_div_eq (h b : Nat) (hb : 0 < b) : (h + b - 1) / b = ⌈(h : ℚ) / (b : ℚ)⌉₊ := by
  have hbq : (0 : ℚ) < (b : ℚ) := by exact_mod_cast hb
  apply le_antisymm
  · have hc := Nat.le_ceil ((h : ℚ) / (b : ℚ))
    rw [div_le_iff₀ hbq] at hc
    have hc2 : h ≤ ⌈(h : ℚ) / (b : ℚ)⌉₊ * b := by exact_mod_cast hc
    apply Nat.le_of_lt_succ
    rw [Nat.div_lt_iff_lt_mul hb, Nat.succ_mul]
    omega
  · rw [Nat.ceil_le, div_le_iff₀ hbq]
    have hq : h ≤ (h + b - 1) / b * b := by
      have h1 := Nat.div_add_mod (h + b - 1) b
      have h2 := Nat.mod_lt (h + b - 1) hb
      rw [Nat.mul_comm] at h1
      omega
    exact_mod_cast hq

theorem wdma_payload_size_exact (h b s : Nat) (hb : 0 < b) (hh : h + b - 1 < U32)
    (hs : (h + b - 1) / b * s < U32) :
    wdma_payload_size h b s = (h + b - 1) / b * s := by
  have hsub : u32_sub ((h + b) % U32) 1 = h + b - 1 := by
    unfold u32_sub U32 at *
    omega
  unfold wdma_payload_size
  rw [hsub, Nat.mod_eq_of_lt hs]

theorem wdma_init_select_height (K : Consts) (id : DmaId) (param_set : rgbp_param_set)
    (out_yuv : Nat) (dout : param_dma_output) (bw bh : Nat)
    (h : wdma_init_select K id param_set out_yuv = some (dout, bw, bh)) :
    bh = if id = DmaId.RGBP_WDMA_HF then K.MCSC_HF_COMP_BLOCK_HEIGHT
         else K.RGBP_COMP_BLOCK_HEIGHT := by
  cases id <;> simp_all [wdma_init_select]
  all_goals split_ifs at h <;> simp_all

/-- C2 as stated fails: the payload size is computed in `u32`.  With height
`2^32 - 1`, block height 64 and stride 16 the sum `height + block_height - 1`
wraps to 62, so the stored value is 0, not `ceil(height / 64) * 16 = 2^30`. -/
theorem wdma_payload_size_counterexample :
    (sampleEnv.is_hw_dma_get_comp_sbwc_en 1 1).1 = 1 ∧
    (rgbp_hw_s_wdma_init sampleConsts sampleEnv DmaId.RGBP_WDMA_SF
        (sampleParams 0 16 4294967295 1) 0 1 0 0 0 []).payload_size = some 0 ∧
    ⌈(((4294967295 : Nat) : ℚ)) / (((64 : Nat) : ℚ))⌉₊ * 16 = 1073741824 := by
  refine ⟨rfl, by decide, ?_⟩
  rw [← ceil_div_eq 4294967295 64 (by decide)]

/-- C2 (amended): for an enabled write channel with a valid role,
`rgbp_hw_s_wdma_init` stores 0 in `*payload_size` when the resolved compression
mode is 0, and when it is 1 or 2 it stores the `u32` value of
`((height + block_height - 1) / block_height) * stride_1p`, where `stride_1p` is
the payload stride also handed to `dma_set_img_stride` and `block_height` is
the high-frequency constant for `RGBP_WDMA_HF` and the default constant
otherwise; this is `ceil(height / block_height) * stride_1p` whenever
`block_height > 0` and neither `height + block_height - 1` nor the product
exceeds the `u32` range. -/
theorem wdma_payload_size_spec (K : Consts) (E : DmaEnv) (id : DmaId)
    (param_set : rgbp_param_set) (instance_id enable in_crop_size_x cache_hint out_yuv : Nat)
    (ops : List DmaOp) (dout : param_dma_output) (bw bh : Nat)
    (hen : enable ≠ 0)
    (hsel : wdma_init_select K id param_set out_yuv = some (dout, bw, bh)) :
    (bh = if id = DmaId.RGBP_WDMA_HF then K.MCSC_HF_COMP_BLOCK_HEIGHT
          else K.RGBP_COMP_BLOCK_HEIGHT) ∧
    ((E.is_hw_dma_get_comp_sbwc_en dout.sbwc_type 1).1 = 0 →
      (rgbp_hw_s_wdma_init K E id param_set instance_id enable in_crop_size_x cache_hint
        out_yuv ops).payload_size = some 0) ∧
    ((E.is_hw_dma_get_comp_sbwc_en dout.sbwc_type 1).1 = 1 ∨
        (E.is_hw_dma_get_comp_sbwc_en dout.sbwc_type 1).1 = 2 →
      DmaOp.dma_set_img_stride (wdma_payload_stride_1p E dout bw bh) 0 0 ∈
        (rgbp_hw_s_wdma_init K E id param_set instance_id enable in_crop_size_x cache_hint
          out_yuv ops).ops ∧
      (rgbp_hw_s_wdma_init K E id param_set instance_id enable in_crop_size_x cache_hint
        out_yuv ops).payload_size =
          some (wdma_payload_size dout.height bh (wdma_payload_stride_1p E dout bw bh)) ∧
      (0 < bh → dout.height + bh - 1 < U32 →
        ⌈(dout.height : ℚ) / (bh : ℚ)⌉₊ * wdma_payload_stride_1p E dout bw bh < U32 →
        (rgbp_hw_s_wdma_init K E id param_set instance_id enable in_crop_size_x cache_hint
          out_yuv ops).payload_size =
            some (⌈(dout.height : ℚ) / (bh : ℚ)⌉₊ * wdma_payload_stride_1p E dout bw bh))) := by
  obtain ⟨bus, pa, hbus⟩ := wdma_init_bus_some K id param_set out_yuv _ hsel dout.v_otf_enable
    (E.is_hw_dma_get_comp_sbwc_en dout.sbwc_type 1).1
    (if dout.v_otf_enable ≠ 0 then (cache_hint <<< 4) % U32 else 0)
  refine ⟨wdma_init_select_height K id param_set out_yuv dout bw bh hsel, ?_, ?_⟩
  · intro h0
    have h12 : ¬ ((E.is_hw_dma_get_comp_sbwc_en dout.sbwc_type 1).1 = 1 ∨
        (E.is_hw_dma_get_comp_sbwc_en dout.sbwc_type 1).1 = 2) := by omega
    simp only [rgbp_hw_s_wdma_init, CALL_DMA_OPS, hsel, if_neg hen, if_pos h0, hbus, if_neg h12]
  · intro h12
    have h0 : ¬ (E.is_hw_dma_get_comp_sbwc_en dout.sbwc_type 1).1 = 0 := by omega
    refine ⟨?_, ?_, ?_⟩
    · simp only [rgbp_hw_s_wdma_init, CALL_DMA_OPS, hsel, if_neg hen, if_neg h0, hbus, if_pos h12,
        wdma_payload_stride_1p]
      simp
    · simp only [rgbp_hw_s_wdma_init, CALL_DMA_OPS, hsel, if_neg hen, if_neg h0, hbus, if_pos h12,
        wdma_payload_stride_1p]
    · intro hb hh hs
      simp only [rgbp_hw_s_wdma_init, CALL_DMA_OPS, hsel, if_neg hen, if_neg h0, hbus, if_pos h12]
      rw [← ceil_div_eq _ _ hb] at hs ⊢
      rw [← wdma_payload_size_exact _ _ _ hb hh hs]
      rfl

/-- C2 (amended) on the examples of the specification: heights 1024 and 1000 with
block height 64 and stride 512 both give 8192. -/
theorem wdma_payload_size_spec_witness :
    (1 : Nat) ≠ 0 ∧
    (rgbp_hw_s_wdma_init sampleConsts sampleEnv DmaId.RGBP_WDMA_SF (sampleParams 0 512 1024 1)
        0 1 0 0 0 []).payload_size = some 8192 ∧
    (rgbp_hw_s_wdma_init sampleConsts sampleEnv DmaId.RGBP_WDMA_SF (sampleParams 0 512 1000 1)
        0 1 0 0 0 []).payload_size = some 8192 ∧
    ⌈(((1000 : Nat) : ℚ)) / (((64 : Nat) : ℚ))⌉₊ * 512 = 8192 := by
  refine ⟨by decide, ?_, ?_, by rw [← ceil_div_eq 1000 64 (by decide)]⟩
  · rw [((wdma_payload_size_spec sampleConsts sampleEnv DmaId.RGBP_WDMA_SF
      (sampleParams 0 512 1024 1) 0 1 0 0 0 [] _ _ _ (by decide) rfl).2.2 (Or.inl rfl)).2.1]
    decide
  · rw [((wdma_payload_size_spec sampleConsts sampleEnv DmaId.RGBP_WDMA_SF
      (sampleParams 0 512 1000 1) 0 1 0 0 0 [] _ _ _ (by decide) rfl).2.2 (Or.inl rfl)).2.1]
    decide

/-! ## DMA: header addresses -/

theorem foldl_set_length (g : Nat → Option Nat) (n : Nat) (arr : List (Option Nat)) :
    ((List.range n).foldl (fun a j => a.set j (g j)) arr).length = arr.length := by
  induction n with
  | zero => rfl
  | succ n ih => rw [List.range_succ, List.foldl_append]; simp [ih]

theorem foldl_set_getElem? (g : Nat → Option Nat) (n : Nat) (arr : List (Option Nat))
    (hn : n ≤ arr.length) (i : Nat) :
    ((List.range n).foldl (fun a j => a.set j (g j)) arr)[i]? =
      if i < n then some (g i) else arr[i]? := by
  induction n with
  | zero => simp
  | succ n ih =>
    rw [List.range_succ, List.foldl_append]
    simp only [List.foldl_cons, List.foldl_nil]
    rw [List.getElem?_set, foldl_set_length, ih (by omega)]
    by_cases hin : n = i
    · subst hin
      have : n < arr.length := by omega
      simp [this]
    · simp only [hin, if_false]
      by_cases h1 : i < n
      · have : i < n + 1 := by omega
        simp [h1, this]
      · have : ¬ i < n + 1 := by omega
        simp [h1, this]

theorem fill_address_getElem? (K : Consts) (addr : Nat → Nat) (t k n i : Nat)
    (hn : n ≤ K.IS_MAX_FRO) (hi : i < n) :
    (fill_address addr t k n (local_array K))[i]? = some (some (addr (t * i + k))) := by
  unfold fill_address
  rw [foldl_set_getElem? (fun j => some (addr (t * j + k))) n (local_array K)
    (by simpa [local_array] using hn) i]
  simp [hi]

theorem fill_hdr_addr_getElem? (K : Consts) (address : List (Option Nat)) (p n i : Nat)
    (hn : n ≤ K.IS_MAX_FRO) (hi : i < n) :
    (fill_hdr_addr address p n (local_array K))[i]? =
      some ((address.getD i none).map fun a => (a + p) % DMA_ADDR) := by
  unfold fill_hdr_addr
  rw [foldl_set_getElem? (fun j => (address.getD j none).map fun a => (a + p) % DMA_ADDR) n
    (local_array K) (by simpa [local_array] using hn) i]
  simp [hi]

/-- C3 as stated fails: `RGBP_WDMA_SF` is a role accepted by
`rgbp_hw_s_wdma_addr`, but with `comp_sbwc_en` non-zero the header array handed to
`dma_set_header_addr` was never assigned for it, so its entry 0 is not the payload
base `0x10000000` plus the payload size 8192. -/
theorem wdma_header_addr_counterexample :
    is_wdma_role DmaId.RGBP_WDMA_SF = true ∧
    rgbp_hw_s_wdma_addr sampleConsts sampleEnv DmaId.RGBP_WDMA_SF (fun _ => 0x10000000)
        0 1 0 1 8192 0 [] =
      some (0, [DmaOp.dma_set_img_addr (some 0x10000000 :: List.replicate 7 none) 0 0 1,
                DmaOp.dma_set_header_addr (List.replicate 8 none) 0 0 1]) ∧
    (List.replicate 8 (none : Option Nat))[0]? ≠ some (some (0x10000000 + 8192)) := by
  refine ⟨rfl, rfl, by decide⟩

/-- C3 (amended): for the roles `RGBP_WDMA_HF`, `RGBP_WDMA_Y` and `RGBP_WDMA_UV`,
every `num_buffers <= IS_MAX_FRO` and non-zero `comp_sbwc_en`,
`rgbp_hw_s_wdma_addr` issues `dma_set_img_addr` and then `dma_set_header_addr`, and
for every `i < num_buffers` the `i`-th header address equals the `i`-th payload
base address plus `payload_size`, in `dma_addr_t` arithmetic (modulo `2^64`). -/
theorem wdma_header_addr (K : Consts) (E : DmaEnv) (id : DmaId) (addr : Nat → Nat)
    (plane num_buffers : Nat) (buf_idx : Int) (comp_sbwc_en payload_size out_yuv : Nat)
    (ops : List DmaOp)
    (hrole : id = DmaId.RGBP_WDMA_HF ∨ id = DmaId.RGBP_WDMA_Y ∨ id = DmaId.RGBP_WDMA_UV)
    (hcomp : comp_sbwc_en ≠ 0) (hnb : num_buffers ≤ K.IS_MAX_FRO) :
    ∃ ret address hdr_addr,
      rgbp_hw_s_wdma_addr K E id addr plane num_buffers buf_idx comp_sbwc_en payload_size
          out_yuv ops =
        some (ret, ops ++ [DmaOp.dma_set_img_addr address plane buf_idx num_buffers,
                           DmaOp.dma_set_header_addr hdr_addr plane buf_idx num_buffers]) ∧
      ∀ i, i < num_buffers → ∃ base,
        address[i]? = some (some base) ∧
        hdr_addr[i]? = some (some ((base + payload_size) % DMA_ADDR)) ∧
        (base + payload_size < DMA_ADDR → hdr_addr[i]? = some (some (base + payload_size))) := by
  have hlt : ¬ K.IS_MAX_FRO < num_buffers := by omega
  have key : ∀ t k : Nat, ∀ i, i < num_buffers → ∃ base,
      (fill_address addr t k num_buffers (local_array K))[i]? = some (some base) ∧
      (fill_hdr_addr (fill_address addr t k num_buffers (local_array K)) payload_size
        num_buffers (local_array K))[i]? = some (some ((base + payload_size) % DMA_ADDR)) ∧
      (base + payload_size < DMA_ADDR →
        (fill_hdr_addr (fill_address addr t k num_buffers (local_array K)) payload_size
          num_buffers (local_array K))[i]? = some (some (base + payload_size))) := by
    intro t k i hi
    have ha := fill_address_getElem? K addr t k num_buffers i hnb hi
    have hh := fill_hdr_addr_getElem? K (fill_address addr t k num_buffers (local_array K))
      payload_size num_buffers i hnb hi
    rw [List.getD_eq_getElem?_getD, ha] at hh
    refine ⟨addr (t * i + k), ha, by simpa using hh, ?_⟩
    intro hsum
    rw [hh]
    simp [Nat.mod_eq_of_lt hsum]
  rcases hrole with rfl | rfl | rfl
  · exact ⟨_, fill_address addr 1 0 num_buffers (local_array K),
      fill_hdr_addr (fill_address addr 1 0 num_buffers (local_array K)) payload_size
        num_buffers (local_array K),
      by simp only [rgbp_hw_s_wdma_addr, wdma_addr_index, CALL_DMA_OPS, if_neg hlt,
           if_pos hcomp, List.append_assoc, List.singleton_append]; rfl,
      key 1 0⟩
  · exact ⟨_, fill_address addr (if out_yuv ≠ 0 then 2 else 3) 0 num_buffers (local_array K),
      fill_hdr_addr (fill_address addr (if out_yuv ≠ 0 then 2 else 3) 0 num_buffers (local_array K)) payload_size
        num_buffers (local_array K),
      by simp only [rgbp_hw_s_wdma_addr, wdma_addr_index, CALL_DMA_OPS, if_neg hlt,
           if_pos hcomp, List.append_assoc, List.singleton_append]; rfl,
      key (if out_yuv ≠ 0 then 2 else 3) 0⟩
  · exact ⟨_, fill_address addr (if out_yuv ≠ 0 then 2 else 3) 1 num_buffers (local_array K),
      fill_hdr_addr (fill_address addr (if out_yuv ≠ 0 then 2 else 3) 1 num_buffers (local_array K)) payload_size
        num_buffers (local_array K),
      by simp only [rgbp_hw_s_wdma_addr, wdma_addr_index, CALL_DMA_OPS, if_neg hlt,
           if_pos hcomp, List.append_assoc, List.singleton_append]; rfl,
      key (if out_yuv ≠ 0 then 2 else 3) 1⟩

/-- C3 (amended) on the example of the specification: base `0x10000000` and
payload size 8192 give the header address `0x10002000`. -/
theorem wdma_header_addr_witness :
    (1 : Nat) ≠ 0 ∧ 1 ≤ sampleConsts.IS_MAX_FRO ∧
    (∃ ret address hdr_addr,
      rgbp_hw_s_wdma_addr sampleConsts sampleEnv DmaId.RGBP_WDMA_HF (fun _ => 0x10000000)
          0 1 0 1 8192 0 [] =
        some (ret, [] ++ [DmaOp.dma_set_img_addr address 0 0 1,
                          DmaOp.dma_set_header_addr hdr_addr 0 0 1]) ∧
      ∀ i, i < 1 → ∃ base,
        address[i]? = some (some base) ∧
        hdr_addr[i]? = some (some ((base + 8192) % DMA_ADDR)) ∧
        (base + 8192 < DMA_ADDR → hdr_addr[i]? = some (some (base + 8192)))) ∧
    hdrAddrArrays
        ((rgbp_hw_s_wdma_addr sampleConsts sampleEnv DmaId.RGBP_WDMA_HF (fun _ => 0x10000000)
          0 1 0 1 8192 0 []).getD (0, [])).2 =
      [some 0x10002000 :: List.replicate 7 none] :=
  ⟨by decide, by decide,
   wdma_header_addr sampleConsts sampleEnv DmaId.RGBP_WDMA_HF (fun _ => 0x10000000) 0 1 0 1
     8192 0 [] (Or.inl rfl) (by decide) (by decide),
   rfl⟩

/-! ## Interrupt events -/

theorem bit_mask_eq (n : Nat) (h : n < 32) : bit_mask n = 2 ^ n := by
  unfold bit_mask U32
  rw [Nat.one_shiftLeft]
  exact Nat.mod_eq_of_lt (Nat.pow_lt_pow_right (by decide) h)

theorem and_two_pow (s p : Nat) : s &&& 2 ^ p = if s.testBit p then 2 ^ p else 0 := by
  apply Nat.eq_of_testBit_eq
  intro i
  rw [Nat.testBit_and, Nat.testBit_two_pow]
  by_cases hp : p = i
  · subst hp
    cases h : s.testBit p <;> simp [Nat.testBit_two_pow_self]
  · cases h : s.testBit p <;> simp [hp, Nat.testBit_two_pow_of_ne hp]

theorem and_two_pow_ne_zero (s p : Nat) : s &&& 2 ^ p ≠ 0 ↔ s.testBit p = true := by
  rw [and_two_pow]
  cases h : s.testBit p <;> simp

theorem all_ones_and_two_pow (p : Nat) (h : p < 32) : (U32 - 1) &&& 2 ^ p = 2 ^ p := by
  rw [and_two_pow]
  have : (U32 - 1).testBit p = true := by
    unfold U32
    rw [Nat.testBit_two_pow_sub_one]
    simpa using h
  simp [this]

theorem is_occurred0_eq (K : Consts) (B : IntrBits) (s : Nat) (t : rgbp_event_type) (p : Nat)
    (h : intr0_bit B t = some p) : rgbp_hw_is_occurred0 K B s t = s &&& bit_mask p := by
  cases t <;> simp only [intr0_bit, Option.some.injEq, reduceCtorEq] at h <;> subst h <;> rfl

theorem is_occurred1_eq (K : Consts) (B : IntrBits) (s : Nat) (t : rgbp_event_type1) (p : Nat)
    (h : intr1_bit B t = some p) : rgbp_hw_is_occurred1 K B s t = s &&& bit_mask p := by
  cases t <;> simp only [intr1_bit, Option.some.injEq, reduceCtorEq] at h <;> subst h <;> rfl

theorem intr0_bit_lt (B : IntrBits) (hB : B.wellFormed) (t : rgbp_event_type) (p : Nat)
    (h : intr0_bit B t = some p) : p < 32 := by
  have h32 := hB.1
  simp only [List.mem_cons, List.mem_singleton, List.not_mem_nil, or_false,
    forall_eq_or_imp, forall_eq] at h32
  cases t <;> simp only [intr0_bit, Option.some.injEq, reduceCtorEq] at h <;> subst h <;>
    simp only [h32]

theorem intr1_bit_lt (B : IntrBits) (hB : B.wellFormed) (t : rgbp_event_type1) (p : Nat)
    (h : intr1_bit B t = some p) : p < 32 := by
  have h32 := hB.2.2.1
  simp only [List.mem_cons, List.mem_singleton, List.not_mem_nil, or_false,
    forall_eq_or_imp, forall_eq] at h32
  cases t <;> simp only [intr1_bit, Option.some.injEq, reduceCtorEq] at h <;> subst h <;>
    simp only [h32]

theorem intr0_bit_inj (B : IntrBits) (hB : B.wellFormed) (t1 t2 : rgbp_event_type)
    (p1 p2 : Nat) (h1 : intr0_bit B t1 = some p1) (h2 : intr0_bit B t2 = some p2)
    (hne : t1 ≠ t2) : p1 ≠ p2 := by
  have hnd := hB.2.1
  simp only [List.nodup_cons, List.mem_cons, List.mem_singleton, List.not_mem_nil, or_false,
    not_or, List.nodup_nil, and_true, not_false_eq_true] at hnd
  cases t1 <;> simp only [intr0_bit, Option.some.injEq, reduceCtorEq] at h1 <;> subst h1 <;>
    cases t2 <;> simp only [intr0_bit, Option.some.injEq, reduceCtorEq] at h2 <;> subst h2 <;>
    first
    | exact absurd rfl hne
    | (intro he; simp [he] at hnd)

theorem intr1_bit_inj (B : IntrBits) (hB : B.wellFormed) (t1 t2 : rgbp_event_type1)
    (p1 p2 : Nat) (h1 : intr1_bit B t1 = some p1) (h2 : intr1_bit B t2 = some p2)
    (hne : t1 ≠ t2) : p1 ≠ p2 := by
  have hnd := hB.2.2.2
  simp only [List.nodup_cons, List.mem_cons, List.mem_singleton, List.not_mem_nil, or_false,
    not_or, List.nodup_nil, and_true, not_false_eq_true] at hnd
  cases t1 <;> simp only [intr1_bit, Option.some.injEq, reduceCtorEq] at h1 <;> subst h1 <;>
    cases t2 <;> simp only [intr1_bit, Option.some.injEq, reduceCtorEq] at h2 <;> subst h2 <;>
    first
    | exact absurd rfl hne
    | (intro he; simp [he] at hnd)

/-- C16: `rgbp_hw_is_occurred0` and `rgbp_hw_is_occurred1` return `status & mask(type)`.
For a recognised single-event type whose bit position is `p`, the mask is `2^p`
(one bit), so the result is non-zero iff bit `p` of the status is set, and two
distinct types of one register select different bits; for the aggregate error
type the mask is the register's error mask; for an unrecognised type the result
is 0.  The bit positions are the header's enumerators, each below 32 and
pairwise distinct within a register. -/
theorem is_occurred_spec (K : Consts) (B : IntrBits) (status : Nat) (hB : B.wellFormed) :
    ((∀ t p, intr0_bit B t = some p →
        rgbp_hw_is_occurred0 K B status t = status &&& 2 ^ p ∧
        (rgbp_hw_is_occurred0 K B status t ≠ 0 ↔ status.testBit p = true)) ∧
      rgbp_hw_is_occurred0 K B status rgbp_event_type.INTR0_ERR0 =
        status &&& K.RGBP_INT0_ERR_MASK ∧
      (∀ raw, rgbp_hw_is_occurred0 K B status (rgbp_event_type.other raw) = 0) ∧
      (∀ t1 t2 p1 p2, intr0_bit B t1 = some p1 → intr0_bit B t2 = some p2 → t1 ≠ t2 →
        rgbp_hw_is_occurred0 K B (U32 - 1) t1 ≠ rgbp_hw_is_occurred0 K B (U32 - 1) t2)) ∧
    ((∀ t p, intr1_bit B t = some p →
        rgbp_hw_is_occurred1 K B status t = status &&& 2 ^ p ∧
        (rgbp_hw_is_occurred1 K B status t ≠ 0 ↔ status.testBit p = true)) ∧
      rgbp_hw_is_occurred1 K B status rgbp_event_type1.INTR1_ERR1 =
        status &&& K.RGBP_INT1_ERR_MASK ∧
      (∀ raw, rgbp_hw_is_occurred1 K B status (rgbp_event_type1.other raw) = 0) ∧
      (∀ t1 t2 p1 p2, intr1_bit B t1 = some p1 → intr1_bit B t2 = some p2 → t1 ≠ t2 →
        rgbp_hw_is_occurred1 K B (U32 - 1) t1 ≠ rgbp_hw_is_occurred1 K B (U32 - 1) t2)) := by
  refine ⟨⟨?_, rfl, fun _ => rfl, ?_⟩, ⟨?_, rfl, fun _ => rfl, ?_⟩⟩
  · intro t p h
    have hp := intr0_bit_lt B hB t p h
    rw [is_occurred0_eq K B status t p h, bit_mask_eq p hp]
    exact ⟨rfl, and_two_pow_ne_zero status p⟩
  · intro t1 t2 p1 p2 h1 h2 hne
    have hp1 := intr0_bit_lt B hB t1 p1 h1
    have hp2 := intr0_bit_lt B hB t2 p2 h2
    rw [is_occurred0_eq K B _ t1 p1 h1, is_occurred0_eq K B _ t2 p2 h2, bit_mask_eq p1 hp1,
      bit_mask_eq p2 hp2, all_ones_and_two_pow p1 hp1, all_ones_and_two_pow p2 hp2]
    intro he
    exact intr0_bit_inj B hB t1 t2 p1 p2 h1 h2 hne (Nat.pow_right_injective (le_refl 2) he)
  · intro t p h
    have hp := intr1_bit_lt B hB t p h
    rw [is_occurred1_eq K B status t p h, bit_mask_eq p hp]
    exact ⟨rfl, and_two_pow_ne_zero status p⟩
  · intro t1 t2 p1 p2 h1 h2 hne
    have hp1 := intr1_bit_lt B hB t1 p1 h1
    have hp2 := intr1_bit_lt B hB t2 p2 h2
    rw [is_occurred1_eq K B _ t1 p1 h1, is_occurred1_eq K B _ t2 p2 h2, bit_mask_eq p1 hp1,
      bit_mask_eq p2 hp2, all_ones_and_two_pow p1 hp1, all_ones_and_two_pow p2 hp2]
    intro he
    exact intr1_bit_inj B hB t1 t2 p1 p2 h1 h2 hne (Nat.pow_right_injective (le_refl 2) he)

/-- C16 on the example of the specification: status `0b101` with error mask
`0b100`.  The aggregate error test is non-zero, the frame-start test (bit 0) is
non-zero and the frame-end test (bit 1) is zero. -/
theorem is_occurred_spec_witness :
    sampleBits.wellFormed ∧
    rgbp_hw_is_occurred0 sampleConsts sampleBits 0b101 rgbp_event_type.INTR0_ERR0 = 0b100 ∧
    rgbp_hw_is_occurred0 sampleConsts sampleBits 0b101
      rgbp_event_type.INTR0_FRAME_START_INT = 0b101 &&& 2 ^ 0 ∧
    (rgbp_hw_is_occurred0 sampleConsts sampleBits 0b101
      rgbp_event_type.INTR0_FRAME_END_INT ≠ 0 ↔ Nat.testBit 0b101 1 = true) ∧
    rgbp_hw_is_occurred0 sampleConsts sampleBits 0b101 rgbp_event_type.INTR0_FRAME_END_INT = 0 :=
  ⟨by decide,
   by rw [(is_occurred_spec sampleConsts sampleBits 0b101 (by decide)).1.2.1]; decide,
   ((is_occurred_spec sampleConsts sampleBits 0b101 (by decide)).1.1
      rgbp_event_type.INTR0_FRAME_START_INT 0 rfl).1,
   ((is_occurred_spec sampleConsts sampleBits 0b101 (by decide)).1.1
      rgbp_event_type.INTR0_FRAME_END_INT 1 rfl).2,
   by decide⟩

/-! ## COREX: traces of init, start and disable -/

theorem writesOf_append (a b : List Access) : writesOf (a ++ b) = writesOf a ++ writesOf b := by
  simp [writesOf]

theorem writesOf_reads_getF (reads : List Access) (r0 : Reg) (f0 : Field)
    (h : ∀ a ∈ reads, ∃ v, a = Access.getF r0 f0 v) : writesOf reads = [] := by
  unfold writesOf
  rw [List.filter_eq_nil_iff]
  intro a ha
  obtain ⟨v, rfl⟩ := h a ha
  simp

theorem writesOf_reads_getR (reads : List Access) (r0 : Reg)
    (h : ∀ a ∈ reads, ∃ v, a = Access.getR r0 v) : writesOf reads = [] := by
  unfold writesOf
  rw [List.filter_eq_nil_iff]
  intro a ha
  obtain ⟨v, rfl⟩ := h a ha
  simp

theorem wait_corex_idle_loop_nil (K : Consts) (hw : Hw) (try_cnt : Nat) (tr : List Access)
    (h : rgbp_hw_wait_corex_idle_loop K hw try_cnt tr = tr) : K.RGBP_TRY_COUNT ≤ try_cnt + 1 := by
  by_contra hcon
  rw [rgbp_hw_wait_corex_idle_loop] at h
  simp only [hcon, if_false, RGBP_GET_F] at h
  split_ifs at h
  · obtain ⟨r2, h2, _⟩ := wait_corex_idle_loop_reads K hw (try_cnt + 1)
      (tr ++ [Access.getF RGBP_R_COREX_STATUS_0 RGBP_F_COREX_BUSY_0
        (hw.getF tr RGBP_R_COREX_STATUS_0 RGBP_F_COREX_BUSY_0)])
    rw [h2] at h
    have hlen := congrArg List.length h
    simp at hlen
  · have hlen := congrArg List.length h
    simp at hlen

/-- The busy poll stops at the first read that returns zero: every read but the
last returned a non-zero value, and when the last one is non-zero too the poll
ran into its bound. -/
theorem wait_corex_idle_loop_until_clear (K : Consts) (hw : Hw) (try_cnt : Nat)
    (tr : List Access) :
    ∃ reads, rgbp_hw_wait_corex_idle_loop K hw try_cnt tr = tr ++ reads ∧
      (∀ a ∈ reads.dropLast,
        ∃ v, a = Access.getF RGBP_R_COREX_STATUS_0 RGBP_F_COREX_BUSY_0 v ∧ v ≠ 0) ∧
      (∀ v, reads.getLast? = some (Access.getF RGBP_R_COREX_STATUS_0 RGBP_F_COREX_BUSY_0 v) →
        v ≠ 0 → reads.length + (try_cnt + 1) = K.RGBP_TRY_COUNT) := by
  induction try_cnt, tr using rgbp_hw_wait_corex_idle_loop.induct K hw with
  | case1 try_cnt tr try_cnt1 h =>
    rw [rgbp_hw_wait_corex_idle_loop]
    exact ⟨[], by simp [try_cnt1] at h; simp [h]⟩
  | case2 try_cnt tr try_cnt1 h busy hb ih =>
    rw [rgbp_hw_wait_corex_idle_loop]
    obtain ⟨reads, he, hr, hl⟩ := ih
    refine ⟨Access.getF RGBP_R_COREX_STATUS_0 RGBP_F_COREX_BUSY_0
      (hw.getF tr RGBP_R_COREX_STATUS_0 RGBP_F_COREX_BUSY_0) :: reads, ?_, ?_, ?_⟩
    · simp only [try_cnt1, busy, RGBP_GET_F] at h hb he ⊢
      simp [h, hb, he]
    · intro a ha
      cases reads with
      | nil => simp at ha
      | cons r rs =>
        rw [List.dropLast_cons₂] at ha
        rcases List.mem_cons.1 ha with rfl | ha
        · exact ⟨_, rfl, by simpa [busy, RGBP_GET_F] using hb⟩
        · exact hr a ha
    · intro v hv hv0
      cases reads with
      | nil =>
        simp only [try_cnt1] at h he
        rw [List.append_nil] at he
        have hstop := wait_corex_idle_loop_nil K hw (try_cnt + 1) _ he
        simp only [List.length_singleton]
        omega
      | cons r rs =>
        rw [List.getLast?_cons_cons] at hv
        have := hl v hv hv0
        simp only [try_cnt1, List.length_cons] at this ⊢
        omega
  | case3 try_cnt tr try_cnt1 h busy hb =>
    rw [rgbp_hw_wait_corex_idle_loop]
    refine ⟨[Access.getF RGBP_R_COREX_STATUS_0 RGBP_F_COREX_BUSY_0
      (hw.getF tr RGBP_R_COREX_STATUS_0 RGBP_F_COREX_BUSY_0)], ?_, ?_, ?_⟩
    · simp only [try_cnt1, busy, RGBP_GET_F, ne_eq, not_not] at h hb ⊢
      simp [h, hb]
    · intro a ha
      simp at ha
    · intro v hv hv0
      simp only [List.getLast?_singleton, Option.some.injEq, Access.getF.injEq, true_and] at hv
      simp only [busy, RGBP_GET_F, ne_eq, not_not] at hb
      exact absurd (hv ▸ hb) hv0

/-- All that is known of the reads of `rgbp_hw_wait_corex_idle`: reads of the
busy field only, at most `RGBP_TRY_COUNT - 1` of them, all but the last non-zero. -/
theorem wait_corex_idle_reads (K : Consts) (hw : Hw) (tr : List Access) :
    ∃ reads, rgbp_hw_wait_corex_idle K hw tr = tr ++ reads ∧
      (∀ a ∈ reads, ∃ v, a = Access.getF RGBP_R_COREX_STATUS_0 RGBP_F_COREX_BUSY_0 v) ∧
      reads.length ≤ K.RGBP_TRY_COUNT - 1 ∧
      (∀ a ∈ reads.dropLast,
        ∃ v, a = Access.getF RGBP_R_COREX_STATUS_0 RGBP_F_COREX_BUSY_0 v ∧ v ≠ 0) := by
  obtain ⟨r1, h1, hr1, hl1⟩ := wait_corex_idle_loop_reads K hw 0 tr
  obtain ⟨r2, h2, hr2, _⟩ := wait_corex_idle_loop_until_clear K hw 0 tr
  have heq : r1 = r2 := List.append_cancel_left (h1.symm.trans h2)
  subst heq
  exact ⟨r1, h1, hr1, by omega, hr2⟩

/-- C17: for every hardware read behaviour, after the reset poll
`rgbp_hw_s_corex_init(enable = true)` writes, in order, type-write-trigger = 1,
type-write = 0, `UPDATE_TYPE_0 = COREX_COPY`, `UPDATE_TYPE_1 = COREX_IGNORE`,
`UPDATE_MODE_0 = SW_TRIGGER`, `UPDATE_MODE_1 = SW_TRIGGER`, `COPY_FROM_IP_0 = 1`,
`COPY_FROM_IP_1 = 1`, followed only by at most `RGBP_TRY_COUNT - 1` reads of the
busy field; the writes of the call do not depend on what the polls read. -/
theorem corex_init_enable_trace (K : Consts) (hw : Hw) (tr : List Access) :
    (∃ resetReads busyReads,
      rgbp_hw_s_corex_init K hw true tr =
        tr ++ [Access.setF RGBP_R_COREX_ENABLE RGBP_F_COREX_ENABLE 1,
               Access.setF RGBP_R_COREX_RESET RGBP_F_COREX_RESET 1] ++ resetReads ++
          [Access.setF RGBP_R_COREX_TYPE_WRITE_TRIGGER RGBP_F_COREX_TYPE_WRITE_TRIGGER 1,
           Access.setF RGBP_R_COREX_TYPE_WRITE RGBP_F_COREX_TYPE_WRITE 0,
           Access.setF RGBP_R_COREX_UPDATE_TYPE_0 RGBP_F_COREX_UPDATE_TYPE_0 K.COREX_COPY,
           Access.setF RGBP_R_COREX_UPDATE_TYPE_1 RGBP_F_COREX_UPDATE_TYPE_1 K.COREX_IGNORE,
           Access.setF RGBP_R_COREX_UPDATE_MODE_0 RGBP_F_COREX_UPDATE_MODE_0 K.SW_TRIGGER,
           Access.setF RGBP_R_COREX_UPDATE_MODE_1 RGBP_F_COREX_UPDATE_MODE_1 K.SW_TRIGGER,
           Access.setR RGBP_R_COREX_COPY_FROM_IP_0 1,
           Access.setR RGBP_R_COREX_COPY_FROM_IP_1 1] ++ busyReads ∧
      (∀ a ∈ resetReads, ∃ v, a = Access.getR RGBP_R_COREX_RESET v) ∧
      (∀ a ∈ busyReads, ∃ v, a = Access.getF RGBP_R_COREX_STATUS_0 RGBP_F_COREX_BUSY_0 v) ∧
      busyReads.length ≤ K.RGBP_TRY_COUNT - 1) ∧
    writesOf (rgbp_hw_s_corex_init K hw true tr) =
      writesOf tr ++
        [Access.setF RGBP_R_COREX_ENABLE RGBP_F_COREX_ENABLE 1,
         Access.setF RGBP_R_COREX_RESET RGBP_F_COREX_RESET 1,
         Access.setF RGBP_R_COREX_TYPE_WRITE_TRIGGER RGBP_F_COREX_TYPE_WRITE_TRIGGER 1,
         Access.setF RGBP_R_COREX_TYPE_WRITE RGBP_F_COREX_TYPE_WRITE 0,
         Access.setF RGBP_R_COREX_UPDATE_TYPE_0 RGBP_F_COREX_UPDATE_TYPE_0 K.COREX_COPY,
         Access.setF RGBP_R_COREX_UPDATE_TYPE_1 RGBP_F_COREX_UPDATE_TYPE_1 K.COREX_IGNORE,
         Access.setF RGBP_R_COREX_UPDATE_MODE_0 RGBP_F_COREX_UPDATE_MODE_0 K.SW_TRIGGER,
         Access.setF RGBP_R_COREX_UPDATE_MODE_1 RGBP_F_COREX_UPDATE_MODE_1 K.SW_TRIGGER,
         Access.setR RGBP_R_COREX_COPY_FROM_IP_0 1,
         Access.setR RGBP_R_COREX_COPY_FROM_IP_1 1] := by
  obtain ⟨rr, br, he, hrr, _, hbr, hbl⟩ := corex_init_enable_eq K hw tr
  refine ⟨⟨rr, br, he, hrr, hbr, hbl⟩, ?_⟩
  rw [he]
  simp only [writesOf_append, writesOf_reads_getR rr _ hrr, writesOf_reads_getF br _ _ hbr]
  simp [writesOf]

theorem corex_start_eq (K : Consts) (hw : Hw) (tr : List Access) :
    ∃ busyReads,
      rgbp_hw_s_corex_start K hw true tr =
        tr ++ [Access.setF RGBP_R_COREX_UPDATE_MODE_0 RGBP_F_COREX_UPDATE_MODE_0 K.SW_TRIGGER,
               Access.setF RGBP_R_COREX_START_0 RGBP_F_COREX_START_0 1] ++ busyReads ++
          [Access.setF RGBP_R_COREX_UPDATE_MODE_0 RGBP_F_COREX_UPDATE_MODE_0 K.HW_TRIGGER] ∧
      (∀ a ∈ busyReads, ∃ v, a = Access.getF RGBP_R_COREX_STATUS_0 RGBP_F_COREX_BUSY_0 v) ∧
      busyReads.length ≤ K.RGBP_TRY_COUNT - 1 ∧
      (∀ a ∈ busyReads.dropLast,
        ∃ v, a = Access.getF RGBP_R_COREX_STATUS_0 RGBP_F_COREX_BUSY_0 v ∧ v ≠ 0) := by
  simp only [rgbp_hw_s_corex_start, RGBP_SET_F, Bool.not_true, Bool.false_eq_true, if_false]
  obtain ⟨br, hbe, hbr, hbl, hbu⟩ := wait_corex_idle_reads K hw
    (tr ++ [Access.setF RGBP_R_COREX_UPDATE_MODE_0 RGBP_F_COREX_UPDATE_MODE_0 K.SW_TRIGGER] ++
      [Access.setF RGBP_R_COREX_START_0 RGBP_F_COREX_START_0 1])
  rw [hbe]
  exact ⟨br, by simp, hbr, hbl, hbu⟩

/-- The trace of `rgbp_hw_s_corex_start` on idle hardware, evaluated. -/
theorem corex_start_example :
    rgbp_hw_s_corex_start sampleConsts zeroHw true [] =
      [Access.setF RGBP_R_COREX_UPDATE_MODE_0 RGBP_F_COREX_UPDATE_MODE_0 1,
       Access.setF RGBP_R_COREX_START_0 RGBP_F_COREX_START_0 1,
       Access.getF RGBP_R_COREX_STATUS_0 RGBP_F_COREX_BUSY_0 0,
       Access.setF RGBP_R_COREX_UPDATE_MODE_0 RGBP_F_COREX_UPDATE_MODE_0 0] := by
  simp [rgbp_hw_s_corex_start, rgbp_hw_wait_corex_idle, rgbp_hw_wait_corex_idle_loop,
    RGBP_SET_F, RGBP_GET_F, sampleConsts, zeroHw]

/-- The trace of an enabling `rgbp_hw_s_corex_init` whose reset bit never clears,
evaluated with `RGBP_TRY_COUNT = 3`: five reads of the reset register, then the
same writes as always. -/
theorem corex_init_stuck_example :
    rgbp_hw_s_corex_init sampleConsts stuckResetHw true [] =
      [Access.setF RGBP_R_COREX_ENABLE RGBP_F_COREX_ENABLE 1,
       Access.setF RGBP_R_COREX_RESET RGBP_F_COREX_RESET 1,
       Access.getR RGBP_R_COREX_RESET 1, Access.getR RGBP_R_COREX_RESET 1,
       Access.getR RGBP_R_COREX_RESET 1, Access.getR RGBP_R_COREX_RESET 1,
       Access.getR RGBP_R_COREX_RESET 1,
       Access.setF RGBP_R_COREX_TYPE_WRITE_TRIGGER RGBP_F_COREX_TYPE_WRITE_TRIGGER 1,
       Access.setF RGBP_R_COREX_TYPE_WRITE RGBP_F_COREX_TYPE_WRITE 0,
       Access.setF RGBP_R_COREX_UPDATE_TYPE_0 RGBP_F_COREX_UPDATE_TYPE_0 1,
       Access.setF RGBP_R_COREX_UPDATE_TYPE_1 RGBP_F_COREX_UPDATE_TYPE_1 0,
       Access.setF RGBP_R_COREX_UPDATE_MODE_0 RGBP_F_COREX_UPDATE_MODE_0 1,
       Access.setF RGBP_R_COREX_UPDATE_MODE_1 RGBP_F_COREX_UPDATE_MODE_1 1,
       Access.setR RGBP_R_COREX_COPY_FROM_IP_0 1,
       Access.setR RGBP_R_COREX_COPY_FROM_IP_1 1,
       Access.getF RGBP_R_COREX_STATUS_0 RGBP_F_COREX_BUSY_0 0] := by
  simp [rgbp_hw_s_corex_init, rgbp_hw_s_corex_init_reset_loop, rgbp_hw_wait_corex_idle,
    rgbp_hw_wait_corex_idle_loop, RGBP_SET_F, RGBP_SET_R, RGBP_GET_R, RGBP_GET_F, sampleConsts,
    stuckResetHw, zeroHw]

/-- The trace of an enabling `rgbp_hw_s_corex_init` whose reset bit clears at
once, evaluated. -/
theorem corex_init_clear_example :
    rgbp_hw_s_corex_init sampleConsts zeroHw true [] =
      [Access.setF RGBP_R_COREX_ENABLE RGBP_F_COREX_ENABLE 1,
       Access.setF RGBP_R_COREX_RESET RGBP_F_COREX_RESET 1,
       Access.getR RGBP_R_COREX_RESET 0,
       Access.setF RGBP_R_COREX_TYPE_WRITE_TRIGGER RGBP_F_COREX_TYPE_WRITE_TRIGGER 1,
       Access.setF RGBP_R_COREX_TYPE_WRITE RGBP_F_COREX_TYPE_WRITE 0,
       Access.setF RGBP_R_COREX_UPDATE_TYPE_0 RGBP_F_COREX_UPDATE_TYPE_0 1,
       Access.setF RGBP_R_COREX_UPDATE_TYPE_1 RGBP_F_COREX_UPDATE_TYPE_1 0,
       Access.setF RGBP_R_COREX_UPDATE_MODE_0 RGBP_F_COREX_UPDATE_MODE_0 1,
       Access.setF RGBP_R_COREX_UPDATE_MODE_1 RGBP_F_COREX_UPDATE_MODE_1 1,
       Access.setR RGBP_R_COREX_COPY_FROM_IP_0 1,
       Access.setR RGBP_R_COREX_COPY_FROM_IP_1 1,
       Access.getF RGBP_R_COREX_STATUS_0 RGBP_F_COREX_BUSY_0 0] := by
  simp [rgbp_hw_s_corex_init, rgbp_hw_s_corex_init_reset_loop, rgbp_hw_wait_corex_idle,
    rgbp_hw_wait_corex_idle_loop, RGBP_SET_F, RGBP_SET_R, RGBP_GET_R, RGBP_GET_F, sampleConsts,
    zeroHw]

/-- When the reset register never reads zero the reset poll gives up after
`RGBP_TRY_COUNT + 2 - reset_count` reads. -/
theorem corex_init_reset_loop_stuck (K : Consts) (hw : Hw)
    (hstuck : ∀ t, hw.getR t RGBP_R_COREX_RESET ≠ 0) (reset_count : Nat) (tr : List Access) :
    ∃ reads, rgbp_hw_s_corex_init_reset_loop K hw reset_count tr = tr ++ reads ∧
      (∀ a ∈ reads, ∃ v, a = Access.getR RGBP_R_COREX_RESET v ∧ v ≠ 0) ∧
      (reset_count ≤ K.RGBP_TRY_COUNT + 1 →
        reads.length = K.RGBP_TRY_COUNT + 2 - reset_count) := by
  induction reset_count, tr using rgbp_hw_s_corex_init_reset_loop.induct K hw with
  | case1 reset_count tr v hv h =>
    rw [rgbp_hw_s_corex_init_reset_loop]
    refine ⟨[Access.getR RGBP_R_COREX_RESET (hw.getR tr RGBP_R_COREX_RESET)], ?_, ?_, ?_⟩
    · simp only [v, RGBP_GET_R] at hv h ⊢
      simp [hv, h]
    · intro a ha
      exact ⟨_, List.mem_singleton.1 ha, hstuck tr⟩
    · intro hc
      simp only [List.length_singleton]
      omega
  | case2 reset_count tr v hv h ih =>
    rw [rgbp_hw_s_corex_init_reset_loop]
    obtain ⟨reads, he, hr, hl⟩ := ih
    refine ⟨Access.getR RGBP_R_COREX_RESET (hw.getR tr RGBP_R_COREX_RESET) :: reads, ?_, ?_, ?_⟩
    · simp only [v, RGBP_GET_R] at hv h he ⊢
      simp [hv, h, he]
    · intro a ha
      rcases List.mem_cons.1 ha with rfl | ha
      · exact ⟨_, rfl, hstuck tr⟩
      · exact hr a ha
    · intro hc
      have := hl (by omega)
      simp only [List.length_cons]
      omega
  | case3 reset_count tr v hv =>
    simp only [v, RGBP_GET_R, ne_eq, not_not] at hv
    exact absurd hv (hstuck tr)

theorem corex_init_enable_writes (K : Consts) (hw : Hw) (tr : List Access) :
    writesOf (rgbp_hw_s_corex_init K hw true tr) =
      writesOf tr ++
        [Access.setF RGBP_R_COREX_ENABLE RGBP_F_COREX_ENABLE 1,
         Access.setF RGBP_R_COREX_RESET RGBP_F_COREX_RESET 1,
         Access.setF RGBP_R_COREX_TYPE_WRITE_TRIGGER RGBP_F_COREX_TYPE_WRITE_TRIGGER 1,
         Access.setF RGBP_R_COREX_TYPE_WRITE RGBP_F_COREX_TYPE_WRITE 0,
         Access.setF RGBP_R_COREX_UPDATE_TYPE_0 RGBP_F_COREX_UPDATE_TYPE_0 K.COREX_COPY,
         Access.setF RGBP_R_COREX_UPDATE_TYPE_1 RGBP_F_COREX_UPDATE_TYPE_1 K.COREX_IGNORE,
         Access.setF RGBP_R_COREX_UPDATE_MODE_0 RGBP_F_COREX_UPDATE_MODE_0 K.SW_TRIGGER,
         Access.setF RGBP_R_COREX_UPDATE_MODE_1 RGBP_F_COREX_UPDATE_MODE_1 K.SW_TRIGGER,
         Access.setR RGBP_R_COREX_COPY_FROM_IP_0 1,
         Access.setR RGBP_R_COREX_COPY_FROM_IP_1 1] := by
  obtain ⟨rr, br, he, hrr, _, hbr, _⟩ := corex_init_enable_eq K hw tr
  rw [he]
  simp only [writesOf_append, writesOf_reads_getR rr _ hrr, writesOf_reads_getF br _ _ hbr]
  simp [writesOf]

/-- C20 as stated fails: `rgbp_hw_s_corex_init` returns `void`.  In a run whose
reset register never reads zero it issues exactly the register writes of a run
whose reset bit cleared at once; nothing tells the caller of the timeout. -/
theorem corex_init_reset_timeout_counterexample :
    (∀ t, stuckResetHw.getR t RGBP_R_COREX_RESET ≠ 0) ∧
    zeroHw.getR [] RGBP_R_COREX_RESET = 0 ∧
    writesOf (rgbp_hw_s_corex_init sampleConsts stuckResetHw true []) =
      writesOf (rgbp_hw_s_corex_init sampleConsts zeroHw true []) := by
  refine ⟨fun t => by simp [stuckResetHw], rfl, ?_⟩
  rw [corex_init_stuck_example, corex_init_clear_example]
  decide

/-- C20 (amended): on an enable request `rgbp_hw_s_corex_init` sets the reset
bit and polls the reset register; when it never reads zero the poll gives up
after `RGBP_TRY_COUNT + 2` reads and the function goes on with type selection.
The function returns nothing, and the register writes of such a run are those
of a run with any other hardware behaviour, in particular one whose reset bit
cleared. -/
theorem corex_init_reset_timeout (K : Consts) (hw hw2 : Hw) (tr : List Access)
    (hstuck : ∀ t, hw.getR t RGBP_R_COREX_RESET ≠ 0) :
    (∃ resetReads rest,
      rgbp_hw_s_corex_init K hw true tr =
        tr ++ [Access.setF RGBP_R_COREX_ENABLE RGBP_F_COREX_ENABLE 1,
               Access.setF RGBP_R_COREX_RESET RGBP_F_COREX_RESET 1] ++ resetReads ++
          Access.setF RGBP_R_COREX_TYPE_WRITE_TRIGGER RGBP_F_COREX_TYPE_WRITE_TRIGGER 1 :: rest ∧
      resetReads.length = K.RGBP_TRY_COUNT + 2 ∧
      (∀ a ∈ resetReads, ∃ v, a = Access.getR RGBP_R_COREX_RESET v ∧ v ≠ 0)) ∧
    writesOf (rgbp_hw_s_corex_init K hw true tr) =
      writesOf (rgbp_hw_s_corex_init K hw2 true tr) := by
  refine ⟨?_, by rw [corex_init_enable_writes, corex_init_enable_writes]⟩
  simp only [rgbp_hw_s_corex_init, RGBP_SET_F, RGBP_SET_R, Bool.not_true, Bool.false_eq_true,
    if_false]
  obtain ⟨rr, hre, hrr, hrl⟩ := corex_init_reset_loop_stuck K hw hstuck 0
    (tr ++ [Access.setF RGBP_R_COREX_ENABLE RGBP_F_COREX_ENABLE 1] ++
      [Access.setF RGBP_R_COREX_RESET RGBP_F_COREX_RESET 1])
  rw [hre]
  obtain ⟨br, hbe, _⟩ := wait_corex_idle_reads K hw
    (tr ++ [Access.setF RGBP_R_COREX_ENABLE RGBP_F_COREX_ENABLE 1] ++
      [Access.setF RGBP_R_COREX_RESET RGBP_F_COREX_RESET 1] ++ rr ++
      [Access.setF RGBP_R_COREX_TYPE_WRITE_TRIGGER RGBP_F_COREX_TYPE_WRITE_TRIGGER 1] ++
      [Access.setF RGBP_R_COREX_TYPE_WRITE RGBP_F_COREX_TYPE_WRITE 0] ++
      [Access.setF RGBP_R_COREX_UPDATE_TYPE_0 RGBP_F_COREX_UPDATE_TYPE_0 K.COREX_COPY] ++
      [Access.setF RGBP_R_COREX_UPDATE_TYPE_1 RGBP_F_COREX_UPDATE_TYPE_1 K.COREX_IGNORE] ++
      [Access.setF RGBP_R_COREX_UPDATE_MODE_0 RGBP_F_COREX_UPDATE_MODE_0 K.SW_TRIGGER] ++
      [Access.setF RGBP_R_COREX_UPDATE_MODE_1 RGBP_F_COREX_UPDATE_MODE_1 K.SW_TRIGGER] ++
      [Access.setR RGBP_R_COREX_COPY_FROM_IP_0 1] ++
      [Access.setR RGBP_R_COREX_COPY_FROM_IP_1 1])
  rw [hbe]
  exact ⟨rr, _, by simp only [List.append_assoc, List.singleton_append]; rfl,
    by have := hrl (by omega); omega, hrr⟩

/-- C20 (amended) at a reset register that always reads 1, against hardware
whose reset bit clears at once. -/
theorem corex_init_reset_timeout_witness :
    (∀ t, stuckResetHw.getR t RGBP_R_COREX_RESET ≠ 0) ∧
    writesOf (rgbp_hw_s_corex_init sampleConsts stuckResetHw true []) =
      writesOf (rgbp_hw_s_corex_init sampleConsts zeroHw true []) :=
  ⟨fun t => by simp [stuckResetHw],
   (corex_init_reset_timeout sampleConsts stuckResetHw zeroHw []
     (fun t => by simp [stuckResetHw])).2⟩

/-! ## DMA: operations of the write-channel descriptor builder -/

theorem wdma_init_bus_eq (K : Consts) (E : DmaEnv) (id : DmaId) (param_set : rgbp_param_set)
    (out_yuv : Nat) (dout : param_dma_output) (bw bh : Nat)
    (h : wdma_init_select K id param_set out_yuv = some (dout, bw, bh)) (cache_hint : Nat) :
    wdma_init_bus K id dout.v_otf_enable (E.is_hw_dma_get_comp_sbwc_en dout.sbwc_type 1).1
        (if dout.v_otf_enable ≠ 0 then (cache_hint <<< 4) % U32 else 0) =
      some (wdma_bus_info K E id dout cache_hint, wdma_en_32b_pa E id dout) := by
  cases id <;> simp_all [wdma_init_select, wdma_init_bus, wdma_bus_info, wdma_en_32b_pa,
    wdma_hf_alloc]
  split_ifs <;> simp_all

/-- Closed form of the operations of `rgbp_hw_s_wdma_init` for an enabled
channel with a valid role and a compression mode in 0..2. -/
theorem wdma_init_ops_eq (K : Consts) (E : DmaEnv) (id : DmaId) (param_set : rgbp_param_set)
    (instance_id enable in_crop_size_x cache_hint out_yuv : Nat) (ops : List DmaOp)
    (dout : param_dma_output) (bw bh : Nat) (hen : enable ≠ 0)
    (hsel : wdma_init_select K id param_set out_yuv = some (dout, bw, bh))
    (hle : (E.is_hw_dma_get_comp_sbwc_en dout.sbwc_type 1).1 ≤ 2) :
    (rgbp_hw_s_wdma_init K E id param_set instance_id enable in_crop_size_x cache_hint out_yuv
      ops).ops = ops ++ wdma_init_ops K E id dout bw bh enable cache_hint := by
  have hbus := wdma_init_bus_eq K E id param_set out_yuv dout bw bh hsel cache_hint
  by_cases h0 : (E.is_hw_dma_get_comp_sbwc_en dout.sbwc_type 1).1 = 0
  · have h12 : ¬ ((E.is_hw_dma_get_comp_sbwc_en dout.sbwc_type 1).1 = 1 ∨
        (E.is_hw_dma_get_comp_sbwc_en dout.sbwc_type 1).1 = 2) := by omega
    simp only [rgbp_hw_s_wdma_init, CALL_DMA_OPS, hsel, if_neg hen, if_pos h0, hbus, if_neg h12,
      wdma_init_ops, wdma_stride_1p, stored_self, List.append_assoc, List.singleton_append,
      List.append_nil]
    rfl
  · have h12 : (E.is_hw_dma_get_comp_sbwc_en dout.sbwc_type 1).1 = 1 ∨
        (E.is_hw_dma_get_comp_sbwc_en dout.sbwc_type 1).1 = 2 := by omega
    simp only [rgbp_hw_s_wdma_init, CALL_DMA_OPS, hsel, if_neg hen, if_neg h0, hbus, if_pos h12,
      wdma_init_ops, wdma_stride_1p, wdma_payload_stride_1p, stored_self, List.append_assoc,
      List.singleton_append]
    rfl

theorem wdma_init_bad_mode (K : Consts) (E : DmaEnv) (id : DmaId) (param_set : rgbp_param_set)
    (instance_id enable in_crop_size_x cache_hint out_yuv : Nat) (ops : List DmaOp)
    (dout : param_dma_output) (bw bh : Nat) (hen : enable ≠ 0)
    (hsel : wdma_init_select K id param_set out_yuv = some (dout, bw, bh))
    (hgt : 2 < (E.is_hw_dma_get_comp_sbwc_en dout.sbwc_type 1).1) :
    rgbp_hw_s_wdma_init K E id param_set instance_id enable in_crop_size_x cache_hint out_yuv
        ops =
      ⟨K.SET_ERROR, some (E.is_hw_dma_get_comp_sbwc_en dout.sbwc_type 1).1, none,
        ops ++ [DmaOp.dma_enable enable]⟩ := by
  have h0 : ¬ (E.is_hw_dma_get_comp_sbwc_en dout.sbwc_type 1).1 = 0 := by omega
  have h12 : ¬ ((E.is_hw_dma_get_comp_sbwc_en dout.sbwc_type 1).1 = 1 ∨
      (E.is_hw_dma_get_comp_sbwc_en dout.sbwc_type 1).1 = 2) := by omega
  simp only [rgbp_hw_s_wdma_init, CALL_DMA_OPS, hsel, if_neg hen, if_neg h0, if_neg h12]

/-- C11: for an enabled write channel with a valid role and a compression mode
in 0..2 (the modes format resolution is defined for), the DMA operations issued
by `rgbp_hw_s_wdma_init` are, in this order: enable, format, compression-enable,
size, stride, tunnel-enable, bus-info, cache-32b-PA flag, followed by 64B-align
and header-stride when the mode is 1 or 2 and by nothing when it is 0. -/
theorem wdma_init_op_order (K : Consts) (E : DmaEnv) (id : DmaId) (param_set : rgbp_param_set)
    (instance_id enable in_crop_size_x cache_hint out_yuv : Nat) (ops : List DmaOp)
    (dout : param_dma_output) (bw bh : Nat) (hen : enable ≠ 0)
    (hsel : wdma_init_select K id param_set out_yuv = some (dout, bw, bh))
    (hle : (E.is_hw_dma_get_comp_sbwc_en dout.sbwc_type 1).1 ≤ 2) :
    (rgbp_hw_s_wdma_init K E id param_set instance_id enable in_crop_size_x cache_hint out_yuv
      ops).ops =
      ops ++
        [DmaOp.dma_enable enable,
         DmaOp.dma_set_format
           (E.is_hw_dma_get_bayer_format dout.bitwidth ((dout.msb + 1) % U32) dout.format
             (E.is_hw_dma_get_comp_sbwc_en dout.sbwc_type 1).1 true).2 K.DMA_FMT_BAYER,
         DmaOp.dma_set_comp_sbwc_en (E.is_hw_dma_get_comp_sbwc_en dout.sbwc_type 1).1,
         DmaOp.dma_set_size dout.width dout.height,
         DmaOp.dma_set_img_stride (wdma_stride_1p E dout bw bh) 0 0,
         DmaOp.dma_votf_enable dout.v_otf_enable 0,
         DmaOp.dma_set_bus_info (wdma_bus_info K E id dout cache_hint),
         DmaOp.dma_set_cache_32b_pa (wdma_en_32b_pa E id dout)] ++
        (if (E.is_hw_dma_get_comp_sbwc_en dout.sbwc_type 1).1 = 1 ∨
            (E.is_hw_dma_get_comp_sbwc_en dout.sbwc_type 1).1 = 2 then
          [DmaOp.dma_set_comp_64b_align (E.is_hw_dma_get_comp_sbwc_en dout.sbwc_type 1).2,
           DmaOp.dma_set_header_stride (E.is_hw_dma_get_header_stride dout.width bw 16) 0]
         else []) := by
  rw [wdma_init_ops_eq K E id param_set instance_id enable in_crop_size_x cache_hint out_yuv ops
    dout bw bh hen hsel hle, wdma_init_ops, List.append_assoc]
  by_cases h0 : (E.is_hw_dma_get_comp_sbwc_en dout.sbwc_type 1).1 = 0
  · have h12 : ¬ ((E.is_hw_dma_get_comp_sbwc_en dout.sbwc_type 1).1 = 1 ∨
        (E.is_hw_dma_get_comp_sbwc_en dout.sbwc_type 1).1 = 2) := by omega
    rw [if_pos h0, if_neg h12]
  · have h12 : (E.is_hw_dma_get_comp_sbwc_en dout.sbwc_type 1).1 = 1 ∨
        (E.is_hw_dma_get_comp_sbwc_en dout.sbwc_type 1).1 = 2 := by omega
    rw [if_neg h0, if_pos h12]

/-- C11 at concrete inputs: a compressed and an uncompressed channel. -/
theorem wdma_init_op_order_witness :
    (1 : Nat) ≠ 0 ∧
    (rgbp_hw_s_wdma_init sampleConsts sampleEnv DmaId.RGBP_WDMA_Y (sampleParams 0 512 1024 1)
        0 1 0 0 1 []).ops =
      [DmaOp.dma_enable 1, DmaOp.dma_set_format (some 0) 1, DmaOp.dma_set_comp_sbwc_en 1,
       DmaOp.dma_set_size 512 1024, DmaOp.dma_set_img_stride 512 0 0,
       DmaOp.dma_votf_enable 0 0, DmaOp.dma_set_bus_info 0, DmaOp.dma_set_cache_32b_pa 0,
       DmaOp.dma_set_comp_64b_align 1, DmaOp.dma_set_header_stride 16 0] ∧
    (rgbp_hw_s_wdma_init sampleConsts sampleEnv DmaId.RGBP_WDMA_Y (sampleParams 0 512 1024 0)
        0 1 0 0 1 []).ops =
      [DmaOp.dma_enable 1, DmaOp.dma_set_format (some 0) 1, DmaOp.dma_set_comp_sbwc_en 0,
       DmaOp.dma_set_size 512 1024, DmaOp.dma_set_img_stride 1024 0 0,
       DmaOp.dma_votf_enable 0 0, DmaOp.dma_set_bus_info 0, DmaOp.dma_set_cache_32b_pa 0] := by
  refine ⟨by decide, ?_, ?_⟩
  · rw [wdma_init_op_order sampleConsts sampleEnv DmaId.RGBP_WDMA_Y (sampleParams 0 512 1024 1)
      0 1 0 0 1 [] _ _ _ (by decide) rfl (by decide)]
    decide
  · rw [wdma_init_op_order sampleConsts sampleEnv DmaId.RGBP_WDMA_Y (sampleParams 0 512 1024 0)
      0 1 0 0 1 [] _ _ _ (by decide) rfl (by decide)]
    decide

theorem wdma_bus_info_eq (K : Consts) (E : DmaEnv) (id : DmaId) (dout : param_dma_output)
    (cache_hint : Nat) :
    wdma_bus_info K E id dout cache_hint =
      (if dout.v_otf_enable ≠ 0 then (cache_hint <<< 4) % U32 else 0) |||
        (if id = DmaId.RGBP_WDMA_HF ∧ dout.v_otf_enable ≠ 0 ∧
            (E.is_hw_dma_get_comp_sbwc_en dout.sbwc_type 1).1 ≠ 0 then
          (1 <<< K.IS_32B_WRITE_ALLOC_SHIFT) % U32
         else 0) := by
  unfold wdma_bus_info wdma_hf_alloc
  by_cases h : id = DmaId.RGBP_WDMA_HF ∧ dout.v_otf_enable ≠ 0 ∧
      (E.is_hw_dma_get_comp_sbwc_en dout.sbwc_type 1).1 ≠ 0
  · rw [if_pos h, if_pos h]
  · rw [if_neg h, if_neg h, Nat.or_zero]

/-- C12: for an enabled write channel with a valid role, the word handed to
`dma_set_bus_info` by `rgbp_hw_s_wdma_init` is `cache_hint << 4` (a `u32`) when
`v_otf_enable` is set and 0 otherwise, or-ed with `1 << IS_32B_WRITE_ALLOC_SHIFT`
exactly when the role is `RGBP_WDMA_HF` and both tunnel-enable and compression
are active, and `en_32b_pa` is 1 in exactly that case and 0 otherwise; both
operations are issued when the compression mode is in 0..2. -/
theorem wdma_init_bus_info (K : Consts) (E : DmaEnv) (id : DmaId) (param_set : rgbp_param_set)
    (instance_id enable in_crop_size_x cache_hint out_yuv : Nat) (ops : List DmaOp)
    (dout : param_dma_output) (bw bh : Nat) (hen : enable ≠ 0)
    (hsel : wdma_init_select K id param_set out_yuv = some (dout, bw, bh)) :
    ∃ new,
      (rgbp_hw_s_wdma_init K E id param_set instance_id enable in_crop_size_x cache_hint
        out_yuv ops).ops = ops ++ new ∧
      (∀ b, DmaOp.dma_set_bus_info b ∈ new →
        b = (if dout.v_otf_enable ≠ 0 then (cache_hint <<< 4) % U32 else 0) |||
          (if id = DmaId.RGBP_WDMA_HF ∧ dout.v_otf_enable ≠ 0 ∧
              (E.is_hw_dma_get_comp_sbwc_en dout.sbwc_type 1).1 ≠ 0 then
            (1 <<< K.IS_32B_WRITE_ALLOC_SHIFT) % U32
           else 0)) ∧
      (∀ pa, DmaOp.dma_set_cache_32b_pa pa ∈ new →
        pa = if id = DmaId.RGBP_WDMA_HF ∧ dout.v_otf_enable ≠ 0 ∧
            (E.is_hw_dma_get_comp_sbwc_en dout.sbwc_type 1).1 ≠ 0 then 1 else 0) ∧
      ((E.is_hw_dma_get_comp_sbwc_en dout.sbwc_type 1).1 ≤ 2 →
        (∃ b, DmaOp.dma_set_bus_info b ∈ new) ∧ (∃ pa, DmaOp.dma_set_cache_32b_pa pa ∈ new)) := by
  by_cases hle : (E.is_hw_dma_get_comp_sbwc_en dout.sbwc_type 1).1 ≤ 2
  · refine ⟨wdma_init_ops K E id dout bw bh enable cache_hint,
      wdma_init_ops_eq K E id param_set instance_id enable in_crop_size_x cache_hint out_yuv ops
        dout bw bh hen hsel hle, ?_, ?_, ?_⟩
    · intro b hb
      rw [← wdma_bus_info_eq]
      unfold wdma_init_ops at hb
      split_ifs at hb <;> simpa using hb
    · intro pa hpa
      have hpa2 : pa = wdma_en_32b_pa E id dout := by
        unfold wdma_init_ops at hpa
        split_ifs at hpa <;> simpa using hpa
      rw [hpa2]
      rfl
    · intro _
      exact ⟨⟨wdma_bus_info K E id dout cache_hint, by unfold wdma_init_ops; simp⟩,
        ⟨wdma_en_32b_pa E id dout, by unfold wdma_init_ops; simp⟩⟩
  · refine ⟨[DmaOp.dma_enable enable], ?_, ?_, ?_, ?_⟩
    · rw [wdma_init_bad_mode K E id param_set instance_id enable in_crop_size_x cache_hint
        out_yuv ops dout bw bh hen hsel (by omega)]
    · intro b hb
      simp at hb
    · intro pa hpa
      simp at hpa
    · intro h
      exact absurd h hle

/-- C12 at concrete inputs: the high-frequency channel with tunnel-enable,
compression and cache hint 3, and the same parameters on another channel. -/
theorem wdma_init_bus_info_witness :
    (1 : Nat) ≠ 0 ∧
    (∀ b, DmaOp.dma_set_bus_info b ∈
        (rgbp_hw_s_wdma_init sampleConsts sampleEnv DmaId.RGBP_WDMA_HF
          ⟨sampleInput 0 512 1024, sampleInput 0 512 1024, sampleOutput 0 512 1024 1,
            ⟨1, 0, 16, 9, 512, 1024, 1, 1⟩, ⟨1, 0, 16, 9, 512, 1024, 1, 1⟩,
            sampleOutput 0 512 1024 1, ⟨[]⟩, ⟨[]⟩, ⟨[]⟩, [], [], [], [], [], []⟩ 0 1 0 3 0 []).ops →
      b = 3 * 16 + 2 ^ 27) ∧
    (rgbp_hw_s_wdma_init sampleConsts sampleEnv DmaId.RGBP_WDMA_HF
        ⟨sampleInput 0 512 1024, sampleInput 0 512 1024, sampleOutput 0 512 1024 1,
          ⟨1, 0, 16, 9, 512, 1024, 1, 1⟩, ⟨1, 0, 16, 9, 512, 1024, 1, 1⟩,
          sampleOutput 0 512 1024 1, ⟨[]⟩, ⟨[]⟩, ⟨[]⟩, [], [], [], [], [], []⟩ 0 1 0 3 0 []).ops =
      [DmaOp.dma_enable 1, DmaOp.dma_set_format (some 0) 1, DmaOp.dma_set_comp_sbwc_en 1,
       DmaOp.dma_set_size 512 1024, DmaOp.dma_set_img_stride 512 0 0,
       DmaOp.dma_votf_enable 1 0, DmaOp.dma_set_bus_info (3 * 16 + 2 ^ 27),
       DmaOp.dma_set_cache_32b_pa 1,
       DmaOp.dma_set_comp_64b_align 1, DmaOp.dma_set_header_stride 16 0] ∧
    (rgbp_hw_s_wdma_init sampleConsts sampleEnv DmaId.RGBP_WDMA_SF
        ⟨sampleInput 0 512 1024, sampleInput 0 512 1024, sampleOutput 0 512 1024 1,
          ⟨1, 0, 16, 9, 512, 1024, 1, 1⟩, ⟨1, 0, 16, 9, 512, 1024, 1, 1⟩,
          sampleOutput 0 512 1024 1, ⟨[]⟩, ⟨[]⟩, ⟨[]⟩, [], [], [], [], [], []⟩ 0 1 0 3 0 []).ops =
      [DmaOp.dma_enable 1, DmaOp.dma_set_format (some 0) 1, DmaOp.dma_set_comp_sbwc_en 1,
       DmaOp.dma_set_size 512 1024, DmaOp.dma_set_img_stride 512 0 0,
       DmaOp.dma_votf_enable 1 0, DmaOp.dma_set_bus_info (3 * 16),
       DmaOp.dma_set_cache_32b_pa 0,
       DmaOp.dma_set_comp_64b_align 1, DmaOp.dma_set_header_stride 16 0] := by
  refine ⟨by decide, ?_, by decide, by decide⟩
  intro b hb0
  obtain ⟨new, he, hb, _⟩ := wdma_init_bus_info sampleConsts sampleEnv DmaId.RGBP_WDMA_HF
    ⟨sampleInput 0 512 1024, sampleInput 0 512 1024, sampleOutput 0 512 1024 1,
      ⟨1, 0, 16, 9, 512, 1024, 1, 1⟩, ⟨1, 0, 16, 9, 512, 1024, 1, 1⟩,
      sampleOutput 0 512 1024 1, ⟨[]⟩, ⟨[]⟩, ⟨[]⟩, [], [], [], [], [], []⟩ 0 1 0 3 0 [] _ _ _ (by decide) rfl
  rw [he, List.nil_append] at hb0
  rw [hb b hb0]
  decide

/-- C13: with `enable = 0`, `rgbp_hw_s_rdma_init` and `rgbp_hw_s_wdma_init` issue
exactly one DMA operation, `dma_enable(0)`, return 0 and store nothing through
`sbwc_en` and `payload_size`, for every role and parameter set. -/
theorem init_disabled (K : Consts) (E : DmaEnv) (id : DmaId) (param_set : rgbp_param_set)
    (instance_id in_crop_size_x cache_hint flag : Nat) (ops : List DmaOp) :
    rgbp_hw_s_rdma_init K E id param_set 0 in_crop_size_x cache_hint flag ops =
      ⟨0, none, none, ops ++ [DmaOp.dma_enable 0]⟩ ∧
    rgbp_hw_s_wdma_init K E id param_set instance_id 0 in_crop_size_x cache_hint flag ops =
      ⟨0, none, none, ops ++ [DmaOp.dma_enable 0]⟩ := by
  constructor
  · simp [rgbp_hw_s_rdma_init, CALL_DMA_OPS]
  · simp [rgbp_hw_s_wdma_init, CALL_DMA_OPS]

/-! ## DMA: address binding -/

/-- C14: for the read-channel roles `RGBP_RDMA_BYR`, `RGBP_RDMA_REP_G`,
`RGBP_RDMA_REP_B` with offsets `k = 0, 1, 2`, every `num_buffers <= IS_MAX_FRO`
and every `i < num_buffers`, `rgbp_hw_s_rdma_addr` issues one operation,
`dma_set_img_addr`, whose `i`-th address is `addr[t * i + k]` with `t = 3` when
`in_rgb` is non-zero and `t = 1` otherwise. -/
theorem rdma_addr_index (K : Consts) (E : DmaEnv) (id : DmaId) (addr : Nat → Nat)
    (plane num_buffers : Nat) (buf_idx : Int) (comp_sbwc_en payload_size in_rgb : Nat)
    (ops : List DmaOp) (k : Nat)
    (hrole : (id = DmaId.RGBP_RDMA_BYR ∧ k = 0) ∨ (id = DmaId.RGBP_RDMA_REP_G ∧ k = 1) ∨
      (id = DmaId.RGBP_RDMA_REP_B ∧ k = 2))
    (hnb : num_buffers ≤ K.IS_MAX_FRO) :
    ∃ ret address,
      rgbp_hw_s_rdma_addr K E id addr plane num_buffers buf_idx comp_sbwc_en payload_size
          in_rgb ops =
        some (ret, ops ++ [DmaOp.dma_set_img_addr address plane buf_idx num_buffers]) ∧
      ∀ i, i < num_buffers →
        address[i]? = some (some (addr ((if in_rgb ≠ 0 then 3 else 1) * i + k))) := by
  have hlt : ¬ K.IS_MAX_FRO < num_buffers := by omega
  rcases hrole with ⟨rfl, rfl⟩ | ⟨rfl, rfl⟩ | ⟨rfl, rfl⟩
  · exact ⟨_, fill_address addr (if in_rgb ≠ 0 then 3 else 1) 0 num_buffers (local_array K),
      by simp only [rgbp_hw_s_rdma_addr, CALL_DMA_OPS, if_neg hlt]; rfl,
      fun i hi => fill_address_getElem? K addr _ 0 num_buffers i hnb hi⟩
  · exact ⟨_, fill_address addr (if in_rgb ≠ 0 then 3 else 1) 1 num_buffers (local_array K),
      by simp only [rgbp_hw_s_rdma_addr, CALL_DMA_OPS, if_neg hlt]; rfl,
      fun i hi => fill_address_getElem? K addr _ 1 num_buffers i hnb hi⟩
  · exact ⟨_, fill_address addr (if in_rgb ≠ 0 then 3 else 1) 2 num_buffers (local_array K),
      by simp only [rgbp_hw_s_rdma_addr, CALL_DMA_OPS, if_neg hlt]; rfl,
      fun i hi => fill_address_getElem? K addr _ 2 num_buffers i hnb hi⟩

/-- C14 at concrete inputs: the green replica with `in_rgb` set takes
`addr[1], addr[4]`; the bayer channel without `in_rgb` takes `addr[0], addr[1]`. -/
theorem rdma_addr_index_witness :
    2 ≤ sampleConsts.IS_MAX_FRO ∧
    (∃ ret address,
      rgbp_hw_s_rdma_addr sampleConsts sampleEnv DmaId.RGBP_RDMA_REP_G (fun i => 4096 * i)
          0 2 0 0 0 1 [] = some (ret, [] ++ [DmaOp.dma_set_img_addr address 0 0 2]) ∧
      ∀ i, i < 2 →
        address[i]? = some (some ((fun i => 4096 * i) ((if (1 : Nat) ≠ 0 then 3 else 1) * i + 1)))) ∧
    imgAddrArrays
        ((rgbp_hw_s_rdma_addr sampleConsts sampleEnv DmaId.RGBP_RDMA_REP_G (fun i => 4096 * i)
          0 2 0 0 0 1 []).getD (0, [])).2 =
      [some 4096 :: some 16384 :: List.replicate 6 none] ∧
    imgAddrArrays
        ((rgbp_hw_s_rdma_addr sampleConsts sampleEnv DmaId.RGBP_RDMA_BYR (fun i => 4096 * i)
          0 2 0 0 0 0 []).getD (0, [])).2 =
      [some 0 :: some 4096 :: List.replicate 6 none] :=
  ⟨by decide,
   rdma_addr_index sampleConsts sampleEnv DmaId.RGBP_RDMA_REP_G (fun i => 4096 * i) 0 2 0 0 0 1
     [] 1 (Or.inr (Or.inl ⟨rfl, rfl⟩)) (by decide),
   rfl, rfl⟩

/-- C15 as stated fails: the stride is not determined by the role.  For one and
the same role `RGBP_WDMA_Y` and the same caller array, the second address handed
to `dma_set_img_addr` is `addr[2]` when `out_yuv` is 1 and `addr[3]` when it is 0. -/
theorem wdma_addr_stride_counterexample :
    imgAddrArrays
        ((rgbp_hw_s_wdma_addr sampleConsts sampleEnv DmaId.RGBP_WDMA_Y (fun i => 4096 * i)
          0 2 0 0 0 1 []).getD (0, [])).2 =
      [some 0 :: some (4096 * 2) :: List.replicate 6 none] ∧
    imgAddrArrays
        ((rgbp_hw_s_wdma_addr sampleConsts sampleEnv DmaId.RGBP_WDMA_Y (fun i => 4096 * i)
          0 2 0 0 0 0 []).getD (0, [])).2 =
      [some 0 :: some (4096 * 3) :: List.replicate 6 none] := by
  constructor <;> rfl

/-- C15 (amended): for every write-channel role, every `num_buffers <= IS_MAX_FRO`
and every `i < num_buffers`, the `i`-th address `rgbp_hw_s_wdma_addr` hands to
`dma_set_img_addr` (its first operation, and the only one of that kind) is
`addr[i]` for `RGBP_WDMA_HF` and `RGBP_WDMA_SF`, and `addr[t * i + k]` for
`RGBP_WDMA_Y`, `RGBP_WDMA_UV`, `RGBP_WDMA_REPB` with `k = 0, 1, 2`, where the
stride `t` is 2 when the `out_yuv` argument is non-zero and 3 otherwise. -/
theorem wdma_addr_index_spec (K : Consts) (E : DmaEnv) (id : DmaId) (addr : Nat → Nat)
    (plane num_buffers : Nat) (buf_idx : Int) (comp_sbwc_en payload_size out_yuv : Nat)
    (ops : List DmaOp) (hrole : is_wdma_role id = true)
    (hnb : num_buffers ≤ K.IS_MAX_FRO) :
    ∃ ret address rest,
      rgbp_hw_s_wdma_addr K E id addr plane num_buffers buf_idx comp_sbwc_en payload_size
          out_yuv ops =
        some (ret, ops ++ DmaOp.dma_set_img_addr address plane buf_idx num_buffers :: rest) ∧
      imgAddrArrays rest = [] ∧
      ∀ i, i < num_buffers →
        (id = DmaId.RGBP_WDMA_HF ∨ id = DmaId.RGBP_WDMA_SF →
          address[i]? = some (some (addr i))) ∧
        (id = DmaId.RGBP_WDMA_Y →
          address[i]? = some (some (addr ((if out_yuv ≠ 0 then 2 else 3) * i)))) ∧
        (id = DmaId.RGBP_WDMA_UV →
          address[i]? = some (some (addr ((if out_yuv ≠ 0 then 2 else 3) * i + 1)))) ∧
        (id = DmaId.RGBP_WDMA_REPB →
          address[i]? = some (some (addr ((if out_yuv ≠ 0 then 2 else 3) * i + 2)))) := by
  have hlt : ¬ K.IS_MAX_FRO < num_buffers := by omega
  have key : ∀ t k : Nat, wdma_addr_index id (if out_yuv ≠ 0 then 2 else 3) = some (t, k) →
      ∃ ret rest,
        rgbp_hw_s_wdma_addr K E id addr plane num_buffers buf_idx comp_sbwc_en payload_size
            out_yuv ops =
          some (ret, ops ++ DmaOp.dma_set_img_addr
            (fill_address addr t k num_buffers (local_array K)) plane buf_idx num_buffers ::
              rest) ∧
        imgAddrArrays rest = [] := by
    intro t k hidx
    by_cases hc : comp_sbwc_en ≠ 0
    · simp only [rgbp_hw_s_wdma_addr, hidx, CALL_DMA_OPS, if_neg hlt, if_pos hc,
        List.append_assoc, List.singleton_append]
      exact ⟨_, _, rfl, rfl⟩
    · simp only [rgbp_hw_s_wdma_addr, hidx, CALL_DMA_OPS, if_neg hlt, if_neg hc]
      exact ⟨_, [], rfl, rfl⟩
  cases id with
  | RGBP_WDMA_HF =>
    obtain ⟨ret, rest, he, hr⟩ := key 1 0 rfl
    refine ⟨ret, _, rest, he, hr, fun i hi => ?_⟩
    have ha := fill_address_getElem? K addr 1 0 num_buffers i hnb hi
    simp only [Nat.one_mul, Nat.add_zero] at ha
    exact ⟨fun _ => ha, (fun h => by cases h), (fun h => by cases h), (fun h => by cases h)⟩
  | RGBP_WDMA_SF =>
    obtain ⟨ret, rest, he, hr⟩ := key 1 0 rfl
    refine ⟨ret, _, rest, he, hr, fun i hi => ?_⟩
    have ha := fill_address_getElem? K addr 1 0 num_buffers i hnb hi
    simp only [Nat.one_mul, Nat.add_zero] at ha
    exact ⟨fun _ => ha, (fun h => by cases h), (fun h => by cases h), (fun h => by cases h)⟩
  | RGBP_WDMA_Y =>
    obtain ⟨ret, rest, he, hr⟩ := key (if out_yuv ≠ 0 then 2 else 3) 0 rfl
    refine ⟨ret, _, rest, he, hr, fun i hi => ?_⟩
    have ha := fill_address_getElem? K addr (if out_yuv ≠ 0 then 2 else 3) 0 num_buffers i hnb hi
    simp only [Nat.add_zero] at ha
    exact ⟨(fun h => by rcases h with h | h <;> cases h), fun _ => ha, (fun h => by cases h), (fun h => by cases h)⟩
  | RGBP_WDMA_UV =>
    obtain ⟨ret, rest, he, hr⟩ := key (if out_yuv ≠ 0 then 2 else 3) 1 rfl
    refine ⟨ret, _, rest, he, hr, fun i hi => ?_⟩
    have ha := fill_address_getElem? K addr (if out_yuv ≠ 0 then 2 else 3) 1 num_buffers i hnb hi
    exact ⟨(fun h => by rcases h with h | h <;> cases h), (fun h => by cases h), fun _ => ha, (fun h => by cases h)⟩
  | RGBP_WDMA_REPB =>
    obtain ⟨ret, rest, he, hr⟩ := key (if out_yuv ≠ 0 then 2 else 3) 2 rfl
    refine ⟨ret, _, rest, he, hr, fun i hi => ?_⟩
    have ha := fill_address_getElem? K addr (if out_yuv ≠ 0 then 2 else 3) 2 num_buffers i hnb hi
    exact ⟨(fun h => by rcases h with h | h <;> cases h), (fun h => by cases h), (fun h => by cases h), fun _ => ha⟩
  | RGBP_RDMA_BYR => simp [is_wdma_role] at hrole
  | RGBP_RDMA_REP_G => simp [is_wdma_role] at hrole
  | RGBP_RDMA_REP_B => simp [is_wdma_role] at hrole
  | other raw => simp [is_wdma_role] at hrole

/-- C15 (amended) at concrete inputs: the chroma channel with `out_yuv` set takes
`addr[1], addr[3]`, the high-frequency channel takes `addr[0], addr[1]`. -/
theorem wdma_addr_index_spec_witness :
    is_wdma_role DmaId.RGBP_WDMA_UV = true ∧ 2 ≤ sampleConsts.IS_MAX_FRO ∧
    (∃ ret address rest,
      rgbp_hw_s_wdma_addr sampleConsts sampleEnv DmaId.RGBP_WDMA_UV (fun i => 4096 * i)
          0 2 0 0 0 1 [] = some (ret, [] ++ DmaOp.dma_set_img_addr address 0 0 2 :: rest) ∧
      imgAddrArrays rest = [] ∧
      ∀ i, i < 2 →
        (DmaId.RGBP_WDMA_UV = DmaId.RGBP_WDMA_HF ∨ DmaId.RGBP_WDMA_UV = DmaId.RGBP_WDMA_SF →
          address[i]? = some (some ((fun i => 4096 * i) i))) ∧
        (DmaId.RGBP_WDMA_UV = DmaId.RGBP_WDMA_Y →
          address[i]? =
            some (some ((fun i => 4096 * i) ((if (1 : Nat) ≠ 0 then 2 else 3) * i)))) ∧
        (DmaId.RGBP_WDMA_UV = DmaId.RGBP_WDMA_UV →
          address[i]? =
            some (some ((fun i => 4096 * i) ((if (1 : Nat) ≠ 0 then 2 else 3) * i + 1)))) ∧
        (DmaId.RGBP_WDMA_UV = DmaId.RGBP_WDMA_REPB →
          address[i]? =
            some (some ((fun i => 4096 * i) ((if (1 : Nat) ≠ 0 then 2 else 3) * i + 2))))) ∧
    imgAddrArrays
        ((rgbp_hw_s_wdma_addr sampleConsts sampleEnv DmaId.RGBP_WDMA_UV (fun i => 4096 * i)
          0 2 0 0 0 1 []).getD (0, [])).2 =
      [some 4096 :: some (4096 * 3) :: List.replicate 6 none] ∧
    imgAddrArrays
        ((rgbp_hw_s_wdma_addr sampleConsts sampleEnv DmaId.RGBP_WDMA_HF (fun i => 4096 * i)
          0 2 0 0 0 1 []).getD (0, [])).2 =
      [some 0 :: some 4096 :: List.replicate 6 none] :=
  ⟨rfl, by decide,
   wdma_addr_index_spec sampleConsts sampleEnv DmaId.RGBP_WDMA_UV (fun i => 4096 * i) 0 2 0 0 0 1
     [] rfl (by decide),
   rfl, rfl⟩

/-! ## Reset and idle polls -/

/-- The reset poll of `rgbp_hw_s_reset` in terms of the values it reads: every
read but the last returned non-zero; either the last read returned zero and the
result is 0, or every read returned non-zero, there were
`RGBP_TRY_COUNT + 2 - reset_count` of them and the result is the word of
`RGBP_TRY_COUNT + 1`. -/
theorem reset_loop_spec (K : Consts) (hw : Hw) (reset_count : Nat) (tr : List Access)
    (hc : reset_count ≤ K.RGBP_TRY_COUNT + 1) :
    ∃ vals : List Nat,
      (rgbp_hw_s_reset_loop K hw reset_count tr).2 =
        tr ++ vals.map (Access.getR RGBP_R_SW_RESET) ∧
      vals.length ≤ K.RGBP_TRY_COUNT + 2 - reset_count ∧
      (((rgbp_hw_s_reset_loop K hw reset_count tr).1 = 0 ∧ 0 ∈ vals) ∨
       ((rgbp_hw_s_reset_loop K hw reset_count tr).1 = (K.RGBP_TRY_COUNT + 1) % U32 ∧
         0 ∉ vals ∧ vals.length = K.RGBP_TRY_COUNT + 2 - reset_count)) := by
  induction reset_count, tr using rgbp_hw_s_reset_loop.induct K hw with
  | case1 reset_count tr v hv h =>
    rw [rgbp_hw_s_reset_loop]
    have hrc : reset_count = K.RGBP_TRY_COUNT + 1 := by omega
    refine ⟨[hw.getR tr RGBP_R_SW_RESET], ?_, ?_, Or.inr ⟨?_, ?_, ?_⟩⟩
    · simp only [v, RGBP_GET_R] at hv h ⊢
      simp [hv, h]
    · simp only [List.length_singleton]
      omega
    · simp only [v, RGBP_GET_R] at hv h ⊢
      simp [hv, h, hrc]
    · simp only [v, RGBP_GET_R] at hv
      simpa using fun h0 => hv h0.symm
    · simp only [List.length_singleton]
      omega
  | case2 reset_count tr v hv h ih =>
    rw [rgbp_hw_s_reset_loop]
    obtain ⟨vals, he, hl, hr⟩ := ih (by omega)
    have hv0 : hw.getR tr RGBP_R_SW_RESET ≠ 0 := by simpa [v, RGBP_GET_R] using hv
    refine ⟨hw.getR tr RGBP_R_SW_RESET :: vals, ?_, ?_, ?_⟩
    · simp only [v, RGBP_GET_R] at hv h he ⊢
      simp [hv, h, he]
    · simp only [List.length_cons]
      omega
    · simp only [v, RGBP_GET_R] at hv h hr ⊢
      simp only [h, if_false, List.mem_cons, List.length_cons]
      rw [if_pos hv0]
      rcases hr with ⟨h1, h2⟩ | ⟨h1, h2, h3⟩
      · exact Or.inl ⟨h1, Or.inr h2⟩
      · refine Or.inr ⟨h1, ?_, by omega⟩
        rintro (h0 | h0)
        · exact hv0 h0.symm
        · exact h2 h0
  | case3 reset_count tr v hv =>
    rw [rgbp_hw_s_reset_loop]
    have hv0 : hw.getR tr RGBP_R_SW_RESET = 0 := by simpa [v, RGBP_GET_R] using hv
    refine ⟨[hw.getR tr RGBP_R_SW_RESET], ?_, ?_, Or.inl ⟨?_, ?_⟩⟩
    · simp only [v, RGBP_GET_R] at hv ⊢
      simp [hv0]
    · simp only [List.length_singleton]
      omega
    · simp only [v, RGBP_GET_R] at hv ⊢
      simp [hv0]
    · simp [hv0]

/-- Closed form of `rgbp_hw_s_reset`: one write of 1 to the reset register, then
the reads of the poll. -/
theorem reset_eq (K : Consts) (hw : Hw) (tr : List Access) :
    ∃ vals : List Nat,
      (rgbp_hw_s_reset K hw tr).2 =
        tr ++ Access.setR RGBP_R_SW_RESET 1 :: vals.map (Access.getR RGBP_R_SW_RESET) ∧
      vals.length ≤ K.RGBP_TRY_COUNT + 2 ∧
      (((rgbp_hw_s_reset K hw tr).1 = 0 ∧ 0 ∈ vals) ∨
       ((rgbp_hw_s_reset K hw tr).1 = (K.RGBP_TRY_COUNT + 1) % U32 ∧
         0 ∉ vals ∧ vals.length = K.RGBP_TRY_COUNT + 2)) := by
  obtain ⟨vals, he, hl, hr⟩ :=
    reset_loop_spec K hw 0 (tr ++ [Access.setR RGBP_R_SW_RESET 1]) (by omega)
  refine ⟨vals, ?_, by simpa using hl, ?_⟩
  · simp only [rgbp_hw_s_reset, RGBP_SET_R]
    rw [he]
    simp
  · simpa [rgbp_hw_s_reset, RGBP_SET_R] using hr

/-- C24: `rgbp_hw_s_reset` writes 1 to the software-reset register once and then
only reads that register, at most `RGBP_TRY_COUNT + 2` times; it returns 0 if
and only if one of the first `RGBP_TRY_COUNT + 2` values read is zero, and
otherwise it has read `RGBP_TRY_COUNT + 2` non-zero values and returns the
non-zero value `RGBP_TRY_COUNT + 1`. -/
theorem reset_spec (K : Consts) (hw : Hw) (tr : List Access)
    (h32 : K.RGBP_TRY_COUNT + 1 < U32) :
    ∃ vals : List Nat,
      (rgbp_hw_s_reset K hw tr).2 =
        tr ++ Access.setR RGBP_R_SW_RESET 1 :: vals.map (Access.getR RGBP_R_SW_RESET) ∧
      writesToReg RGBP_R_SW_RESET (rgbp_hw_s_reset K hw tr).2 =
        writesToReg RGBP_R_SW_RESET tr ++ [1] ∧
      vals.length ≤ K.RGBP_TRY_COUNT + 2 ∧
      ((rgbp_hw_s_reset K hw tr).1 = 0 ↔ 0 ∈ vals.take (K.RGBP_TRY_COUNT + 2)) ∧
      (0 ∉ vals.take (K.RGBP_TRY_COUNT + 2) →
        (rgbp_hw_s_reset K hw tr).1 = K.RGBP_TRY_COUNT + 1 ∧
        (rgbp_hw_s_reset K hw tr).1 ≠ 0 ∧
        vals.length = K.RGBP_TRY_COUNT + 2) := by
  obtain ⟨vals, he, hl, hr⟩ := reset_eq K hw tr
  have hmod : (K.RGBP_TRY_COUNT + 1) % U32 = K.RGBP_TRY_COUNT + 1 := Nat.mod_eq_of_lt h32
  have htake : vals.take (K.RGBP_TRY_COUNT + 2) = vals := List.take_of_length_le hl
  refine ⟨vals, he, ?_, hl, ?_, ?_⟩
  · rw [he, writesToReg_append]
    congr 1
    have : ∀ l : List Nat, writesToReg RGBP_R_SW_RESET (l.map (Access.getR RGBP_R_SW_RESET)) = [] := by
      intro l
      induction l with
      | nil => rfl
      | cons a l ih => simp [writesToReg]
    have h2 := this vals
    simp only [writesToReg] at h2 ⊢
    simp [List.filterMap_cons, h2]
  · rw [htake]
    rcases hr with ⟨h1, h2⟩ | ⟨h1, h2, _⟩
    · exact ⟨fun _ => h2, fun _ => h1⟩
    · constructor
      · intro h0
        rw [h1, hmod] at h0
        omega
      · intro h0
        exact absurd h0 h2
  · rw [htake]
    intro h0
    rcases hr with ⟨_, h2⟩ | ⟨h1, _, h3⟩
    · exact absurd h2 h0
    · rw [h1, hmod]
      exact ⟨rfl, by omega, h3⟩

/-- C24 at hardware whose every read returns zero, with `RGBP_TRY_COUNT = 3`. -/
theorem reset_spec_witness :
    ∃ vals : List Nat,
      (rgbp_hw_s_reset sampleConsts zeroHw []).2 =
        [] ++ Access.setR RGBP_R_SW_RESET 1 :: vals.map (Access.getR RGBP_R_SW_RESET) ∧
      ((rgbp_hw_s_reset sampleConsts zeroHw []).1 = 0 ↔
        0 ∈ vals.take (sampleConsts.RGBP_TRY_COUNT + 2)) := by
  obtain ⟨vals, h1, _, _, h2, _⟩ := reset_spec sampleConsts zeroHw [] (by decide)
  exact ⟨vals, h1, h2⟩


theorem take_cons_pos {α : Type} (n : Nat) (a : α) (l : List α) (h : 1 ≤ n) :
    (a :: l).take n = a :: l.take (n - 1) := by
  cases n with
  | zero => omega
  | succ m => simp

/-- The poll of `rgbp_hw_wait_idle` in terms of the values it reads.  Entered
with a non-zero `idle` it reads nothing and keeps `ret`.  Entered with
`idle = 0` it keeps `ret` when one of its first `RGBP_TRY_COUNT - (try_cnt + 1)`
reads returned non-zero, and gives `-ETIME` when all of them returned zero. -/
theorem wait_idle_loop_spec (K : Consts) (hw : Hw) (idle try_cnt ret : Nat)
    (tr : List Access) :
    ∃ vals : List Nat,
      (rgbp_hw_wait_idle_loop K hw idle try_cnt ret tr).2 =
        tr ++ vals.map (Access.getF RGBP_R_IDLENESS_STATUS RGBP_F_IDLENESS_STATUS) ∧
      (idle ≠ 0 → vals = [] ∧ (rgbp_hw_wait_idle_loop K hw idle try_cnt ret tr).1 = ret) ∧
      (idle = 0 →
        vals.length ≤ max 1 (K.RGBP_TRY_COUNT - try_cnt) ∧
        (((rgbp_hw_wait_idle_loop K hw idle try_cnt ret tr).1 = ret ∧
            ∃ v ∈ vals.take (K.RGBP_TRY_COUNT - (try_cnt + 1)), v ≠ 0) ∨
         ((rgbp_hw_wait_idle_loop K hw idle try_cnt ret tr).1 = K.NEG_ETIME ∧
            ∀ v ∈ vals.take (K.RGBP_TRY_COUNT - (try_cnt + 1)), v = 0))) := by
  induction idle, try_cnt, ret, tr using rgbp_hw_wait_idle_loop.induct K hw with
  | case1 try_cnt ret tr try_cnt1 h =>
    rw [rgbp_hw_wait_idle_loop]
    simp only [try_cnt1] at h
    have hi : (0 : Nat) = 0 := rfl
    refine ⟨[hw.getF tr RGBP_R_IDLENESS_STATUS RGBP_F_IDLENESS_STATUS], ?_, ?_, ?_⟩
    · simp [hi, h, RGBP_GET_F]
    · intro hn
      exact absurd hi hn
    · intro _
      have hz : K.RGBP_TRY_COUNT - (try_cnt + 1) = 0 := by omega
      refine ⟨by simp, Or.inr ⟨by simp [hi, h, RGBP_GET_F], ?_⟩⟩
      rw [hz]
      simp
  | case2 try_cnt ret tr i try_cnt1 h ih =>
    rw [rgbp_hw_wait_idle_loop]
    simp only [try_cnt1] at h ih
    have hi : (0 : Nat) = 0 := rfl
    simp only [i, RGBP_GET_F] at ih
    obtain ⟨vals, he, hnz, hz⟩ := ih
    refine ⟨hw.getF tr RGBP_R_IDLENESS_STATUS RGBP_F_IDLENESS_STATUS :: vals, ?_, ?_, ?_⟩
    · simp only [hi, h, RGBP_GET_F, if_true, if_false]
      rw [he]
      simp
    · intro hn
      exact absurd hi hn
    · intro _
      simp only [hi, h, RGBP_GET_F, if_true, if_false]
      have hsplit : K.RGBP_TRY_COUNT - (try_cnt + 1) =
          (K.RGBP_TRY_COUNT - (try_cnt + 1 + 1)) + 1 := by omega
      rw [hsplit, List.take_succ_cons]
      by_cases hr : hw.getF tr RGBP_R_IDLENESS_STATUS RGBP_F_IDLENESS_STATUS = 0
      · obtain ⟨hl, hd⟩ := hz hr
        refine ⟨by simp only [List.length_cons]; omega, ?_⟩
        rcases hd with ⟨h1, v, hv, hv0⟩ | ⟨h1, h2⟩
        · exact Or.inl ⟨h1, v, List.mem_cons_of_mem _ hv, hv0⟩
        · refine Or.inr ⟨h1, ?_⟩
          intro v hv
          rcases List.mem_cons.1 hv with rfl | hv
          · exact hr
          · exact h2 v hv
      · obtain ⟨hnil, h1⟩ := hnz hr
        subst hnil
        refine ⟨by simp only [List.length_cons, List.length_nil]; omega, ?_⟩
        exact Or.inl ⟨h1, _, List.mem_cons_self _ _, hr⟩
  | case3 idle try_cnt ret tr hi =>
    rw [rgbp_hw_wait_idle_loop]
    refine ⟨[], by simp [hi], fun _ => ⟨rfl, by simp [hi]⟩, fun h0 => absurd h0 hi⟩

/-- Closed form of `rgbp_hw_wait_idle`: the first idleness read `v0`, two status
reads, the idleness reads `vals` of the poll, two status reads.  The result is
`SET_SUCCESS` when one of the first `RGBP_TRY_COUNT` idleness reads returned
non-zero and `-ETIME` when all of them returned zero. -/
theorem wait_idle_eq (K : Consts) (hw : Hw) (tr : List Access) (h1 : 1 ≤ K.RGBP_TRY_COUNT) :
    ∃ (v0 : Nat) (vals : List Nat) (a b c d : Nat),
      (rgbp_hw_wait_idle K hw tr).2 =
        tr ++ (Access.getF RGBP_R_IDLENESS_STATUS RGBP_F_IDLENESS_STATUS v0 ::
          Access.getR RGBP_R_INT_REQ_INT0_STATUS a ::
          Access.getR RGBP_R_INT_REQ_INT1_STATUS b ::
          (vals.map (Access.getF RGBP_R_IDLENESS_STATUS RGBP_F_IDLENESS_STATUS) ++
            [Access.getR RGBP_R_INT_REQ_INT0_STATUS c,
             Access.getR RGBP_R_INT_REQ_INT1_STATUS d])) ∧
      (v0 :: vals).length ≤ K.RGBP_TRY_COUNT + 1 ∧
      (((rgbp_hw_wait_idle K hw tr).1 = K.SET_SUCCESS ∧
          ∃ v ∈ (v0 :: vals).take K.RGBP_TRY_COUNT, v ≠ 0) ∨
       ((rgbp_hw_wait_idle K hw tr).1 = K.NEG_ETIME ∧
          ∀ v ∈ (v0 :: vals).take K.RGBP_TRY_COUNT, v = 0)) := by
  obtain ⟨vals, he, hnz, hz⟩ := wait_idle_loop_spec K hw
    (RGBP_GET_F hw RGBP_R_IDLENESS_STATUS RGBP_F_IDLENESS_STATUS tr).1 0 K.SET_SUCCESS
    (RGBP_GET_R hw RGBP_R_INT_REQ_INT1_STATUS
      (RGBP_GET_R hw RGBP_R_INT_REQ_INT0_STATUS
        (RGBP_GET_F hw RGBP_R_IDLENESS_STATUS RGBP_F_IDLENESS_STATUS tr).2).2).2
  refine ⟨hw.getF tr RGBP_R_IDLENESS_STATUS RGBP_F_IDLENESS_STATUS, vals,
    (RGBP_GET_R hw RGBP_R_INT_REQ_INT0_STATUS
      (RGBP_GET_F hw RGBP_R_IDLENESS_STATUS RGBP_F_IDLENESS_STATUS tr).2).1,
    (RGBP_GET_R hw RGBP_R_INT_REQ_INT1_STATUS
      (RGBP_GET_R hw RGBP_R_INT_REQ_INT0_STATUS
        (RGBP_GET_F hw RGBP_R_IDLENESS_STATUS RGBP_F_IDLENESS_STATUS tr).2).2).1,
    (RGBP_GET_R hw RGBP_R_INT_REQ_INT0_STATUS
      (rgbp_hw_wait_idle_loop K hw
        (RGBP_GET_F hw RGBP_R_IDLENESS_STATUS RGBP_F_IDLENESS_STATUS tr).1 0 K.SET_SUCCESS
        (RGBP_GET_R hw RGBP_R_INT_REQ_INT1_STATUS
          (RGBP_GET_R hw RGBP_R_INT_REQ_INT0_STATUS
            (RGBP_GET_F hw RGBP_R_IDLENESS_STATUS RGBP_F_IDLENESS_STATUS tr).2).2).2).2).1,
    (RGBP_GET_R hw RGBP_R_INT_REQ_INT1_STATUS
      (RGBP_GET_R hw RGBP_R_INT_REQ_INT0_STATUS
        (rgbp_hw_wait_idle_loop K hw
          (RGBP_GET_F hw RGBP_R_IDLENESS_STATUS RGBP_F_IDLENESS_STATUS tr).1 0 K.SET_SUCCESS
          (RGBP_GET_R hw RGBP_R_INT_REQ_INT1_STATUS
            (RGBP_GET_R hw RGBP_R_INT_REQ_INT0_STATUS
              (RGBP_GET_F hw RGBP_R_IDLENESS_STATUS RGBP_F_IDLENESS_STATUS
                tr).2).2).2).2).2).1,
    ?_, ?_, ?_⟩
  all_goals simp only [RGBP_GET_F, RGBP_GET_R] at he hnz hz
  · simp only [rgbp_hw_wait_idle, RGBP_GET_F, RGBP_GET_R]
    rw [he]
    simp only [List.append_assoc, List.singleton_append, List.cons_append, List.nil_append]
  · by_cases hr : hw.getF tr RGBP_R_IDLENESS_STATUS RGBP_F_IDLENESS_STATUS = 0
    · have := (hz hr).1
      simp only [List.length_cons]
      omega
    · rw [(hnz hr).1]
      simp
  · simp only [rgbp_hw_wait_idle, RGBP_GET_F, RGBP_GET_R]
    rw [take_cons_pos _ _ _ h1]
    simp only [Nat.zero_add] at hz
    by_cases hr : hw.getF tr RGBP_R_IDLENESS_STATUS RGBP_F_IDLENESS_STATUS = 0
    · rcases (hz hr).2 with ⟨h2, v, hv, hv0⟩ | ⟨h2, h3⟩
      · exact Or.inl ⟨h2, v, List.mem_cons_of_mem _ hv, hv0⟩
      · refine Or.inr ⟨h2, ?_⟩
        intro v hv
        rcases List.mem_cons.1 hv with rfl | hv
        · exact hr
        · exact h3 v hv
    · exact Or.inl ⟨(hnz hr).2, _, List.mem_cons_self _ _, hr⟩


theorem readsOfReg_append (r : Reg) (a b : List Access) :
    readsOfReg r (a ++ b) = readsOfReg r a ++ readsOfReg r b := by
  simp [readsOfReg, List.filterMap_append]

theorem readsOfField_append (r : Reg) (f : Field) (a b : List Access) :
    readsOfField r f (a ++ b) = readsOfField r f a ++ readsOfField r f b := by
  simp [readsOfField, List.filterMap_append]

theorem readsOfReg_length_le (r : Reg) (l : List Access) :
    (readsOfReg r l).length ≤ l.length :=
  List.length_filterMap_le _ _

theorem readsOfField_length_le (r : Reg) (f : Field) (l : List Access) :
    (readsOfField r f l).length ≤ l.length :=
  List.length_filterMap_le _ _

theorem readsOfReg_getF_only (r : Reg) (l : List Access) (r0 : Reg) (f0 : Field)
    (h : ∀ a ∈ l, ∃ v, a = Access.getF r0 f0 v) : readsOfReg r l = [] := by
  induction l with
  | nil => rfl
  | cons a l ih =>
    obtain ⟨v, rfl⟩ := h a (List.mem_cons_self _ _)
    have := ih (fun b hb => h b (List.mem_cons_of_mem _ hb))
    simpa [readsOfReg] using this

theorem readsOfField_getR_only (r : Reg) (f : Field) (l : List Access) (r0 : Reg)
    (h : ∀ a ∈ l, ∃ v, a = Access.getR r0 v) : readsOfField r f l = [] := by
  induction l with
  | nil => rfl
  | cons a l ih =>
    obtain ⟨v, rfl⟩ := h a (List.mem_cons_self _ _)
    have := ih (fun b hb => h b (List.mem_cons_of_mem _ hb))
    simpa [readsOfField] using this

/-- C25: every poll is a total function of the hardware read behaviour and
reads a bounded number of times: `rgbp_hw_s_reset` and the reset poll of
`rgbp_hw_s_corex_init` read their reset register at most `RGBP_TRY_COUNT + 2`
times, `rgbp_hw_wait_idle` reads the idleness field at most
`RGBP_TRY_COUNT + 1` times, `rgbp_hw_wait_corex_idle` reads the busy field at
most `RGBP_TRY_COUNT - 1` times. -/
theorem poll_read_bounds (K : Consts) (hw : Hw) (tr : List Access)
    (h1 : 1 ≤ K.RGBP_TRY_COUNT) :
    (readsOfReg RGBP_R_SW_RESET (rgbp_hw_s_reset K hw tr).2).length ≤
      (readsOfReg RGBP_R_SW_RESET tr).length + (K.RGBP_TRY_COUNT + 2) ∧
    (readsOfReg RGBP_R_COREX_RESET (rgbp_hw_s_corex_init K hw true tr)).length ≤
      (readsOfReg RGBP_R_COREX_RESET tr).length + (K.RGBP_TRY_COUNT + 2) ∧
    (readsOfField RGBP_R_IDLENESS_STATUS RGBP_F_IDLENESS_STATUS
        (rgbp_hw_wait_idle K hw tr).2).length ≤
      (readsOfField RGBP_R_IDLENESS_STATUS RGBP_F_IDLENESS_STATUS tr).length +
        (K.RGBP_TRY_COUNT + 1) ∧
    (readsOfField RGBP_R_COREX_STATUS_0 RGBP_F_COREX_BUSY_0
        (rgbp_hw_wait_corex_idle K hw tr)).length ≤
      (readsOfField RGBP_R_COREX_STATUS_0 RGBP_F_COREX_BUSY_0 tr).length +
        (K.RGBP_TRY_COUNT - 1) ∧
    (rgbp_hw_s_reset K hw tr).2.length ≤ tr.length + (K.RGBP_TRY_COUNT + 3) ∧
    (rgbp_hw_wait_idle K hw tr).2.length ≤ tr.length + (K.RGBP_TRY_COUNT + 5) ∧
    (rgbp_hw_wait_corex_idle K hw tr).length ≤ tr.length + (K.RGBP_TRY_COUNT - 1) ∧
    (rgbp_hw_s_corex_init K hw true tr).length ≤ tr.length + (2 * K.RGBP_TRY_COUNT + 11) := by
  obtain ⟨rv, hre, hrl, _⟩ := reset_eq K hw tr
  obtain ⟨rr, br, hce, hrr, hrrl, hbr, hbl⟩ := corex_init_enable_eq K hw tr
  obtain ⟨v0, vals, a, b, c, d, hwe, hwl, _⟩ := wait_idle_eq K hw tr h1
  obtain ⟨cr, hcre, hcr, hcl, _⟩ := wait_corex_idle_reads K hw tr
  refine ⟨?_, ?_, ?_, ?_, ?_, ?_, ?_, ?_⟩
  · rw [hre, readsOfReg_append]
    have := readsOfReg_length_le RGBP_R_SW_RESET
      (Access.setR RGBP_R_SW_RESET 1 :: rv.map (Access.getR RGBP_R_SW_RESET))
    have h2 : (readsOfReg RGBP_R_SW_RESET
        (Access.setR RGBP_R_SW_RESET 1 :: rv.map (Access.getR RGBP_R_SW_RESET))).length ≤
        rv.length := by
      have := readsOfReg_length_le RGBP_R_SW_RESET (rv.map (Access.getR RGBP_R_SW_RESET))
      simpa [readsOfReg] using this
    simp only [List.length_append]
    omega
  · rw [hce]
    simp only [readsOfReg_append, List.length_append,
      readsOfReg_getF_only RGBP_R_COREX_RESET br _ _ hbr]
    have h3 := readsOfReg_length_le RGBP_R_COREX_RESET rr
    have h4 : readsOfReg RGBP_R_COREX_RESET
        [Access.setF RGBP_R_COREX_TYPE_WRITE_TRIGGER RGBP_F_COREX_TYPE_WRITE_TRIGGER 1,
         Access.setF RGBP_R_COREX_TYPE_WRITE RGBP_F_COREX_TYPE_WRITE 0,
         Access.setF RGBP_R_COREX_UPDATE_TYPE_0 RGBP_F_COREX_UPDATE_TYPE_0 K.COREX_COPY,
         Access.setF RGBP_R_COREX_UPDATE_TYPE_1 RGBP_F_COREX_UPDATE_TYPE_1 K.COREX_IGNORE,
         Access.setF RGBP_R_COREX_UPDATE_MODE_0 RGBP_F_COREX_UPDATE_MODE_0 K.SW_TRIGGER,
         Access.setF RGBP_R_COREX_UPDATE_MODE_1 RGBP_F_COREX_UPDATE_MODE_1 K.SW_TRIGGER,
         Access.setR RGBP_R_COREX_COPY_FROM_IP_0 1,
         Access.setR RGBP_R_COREX_COPY_FROM_IP_1 1] = [] := rfl
    have h5 : readsOfReg RGBP_R_COREX_RESET
        [Access.setF RGBP_R_COREX_ENABLE RGBP_F_COREX_ENABLE 1,
         Access.setF RGBP_R_COREX_RESET RGBP_F_COREX_RESET 1] = [] := rfl
    rw [h4, h5]
    simp only [List.length_nil]
    omega
  · rw [hwe, readsOfField_append]
    have e1 : readsOfField RGBP_R_IDLENESS_STATUS RGBP_F_IDLENESS_STATUS
        (Access.getF RGBP_R_IDLENESS_STATUS RGBP_F_IDLENESS_STATUS v0 ::
          Access.getR RGBP_R_INT_REQ_INT0_STATUS a ::
          Access.getR RGBP_R_INT_REQ_INT1_STATUS b ::
          (vals.map (Access.getF RGBP_R_IDLENESS_STATUS RGBP_F_IDLENESS_STATUS) ++
            [Access.getR RGBP_R_INT_REQ_INT0_STATUS c,
             Access.getR RGBP_R_INT_REQ_INT1_STATUS d])) =
        v0 :: readsOfField RGBP_R_IDLENESS_STATUS RGBP_F_IDLENESS_STATUS
          (vals.map (Access.getF RGBP_R_IDLENESS_STATUS RGBP_F_IDLENESS_STATUS)) := by
      simp [readsOfField, List.filterMap_append]
    have h3 := readsOfField_length_le RGBP_R_IDLENESS_STATUS RGBP_F_IDLENESS_STATUS
      (vals.map (Access.getF RGBP_R_IDLENESS_STATUS RGBP_F_IDLENESS_STATUS))
    rw [e1]
    simp only [List.length_append, List.length_cons, List.length_map] at hwl h3 ⊢
    omega
  · rw [hcre, readsOfField_append]
    have := readsOfField_length_le RGBP_R_COREX_STATUS_0 RGBP_F_COREX_BUSY_0 cr
    simp only [List.length_append]
    omega
  · rw [hre]
    simp only [List.length_append, List.length_cons, List.length_map]
    omega
  · rw [hwe]
    simp only [List.length_append, List.length_cons, List.length_map, List.length_nil] at hwl ⊢
    omega
  · rw [hcre]
    simp only [List.length_append]
    omega
  · rw [hce]
    simp only [List.length_append, List.length_cons, List.length_nil]
    omega

/-- C25 with `RGBP_TRY_COUNT = 3` on hardware whose reset register never
clears: the reset poll of `rgbp_hw_s_corex_init` stops within five reads. -/
theorem poll_read_bounds_witness :
    (readsOfReg RGBP_R_COREX_RESET (rgbp_hw_s_corex_init sampleConsts stuckResetHw true [])).length
      ≤ (readsOfReg RGBP_R_COREX_RESET []).length + (sampleConsts.RGBP_TRY_COUNT + 2) :=
  (poll_read_bounds sampleConsts stuckResetHw [] (by decide)).2.1


/-! ## Sequences of COREX operations -/

theorem startPulses_append (a b : List Access) :
    startPulses (a ++ b) = startPulses a ++ startPulses b :=
  writesToField_append _ _ a b

theorem startPulses_busy_reads (reads : List Access)
    (h : ∀ a ∈ reads, ∃ v, a = Access.getF RGBP_R_COREX_STATUS_0 RGBP_F_COREX_BUSY_0 v) :
    startPulses reads = [] :=
  writesToField_reads_getF _ _ reads _ _ h

theorem startPulses_reset_reads (reads : List Access)
    (h : ∀ a ∈ reads, ∃ v, a = Access.getR RGBP_R_COREX_RESET v) :
    startPulses reads = [] :=
  writesToField_reads_getR _ _ reads _ h

/-- One COREX operation writes a start pulse exactly when it is
`rgbp_hw_s_corex_start(enable = true)`, whatever the trace before it. -/
theorem startPulses_step (K : Consts) (hw : Hw) (c : CorexOp) (tr : List Access) :
    startPulses (c.run K hw tr) =
      startPulses tr ++ (if c = CorexOp.start true then [1] else []) := by
  cases c with
  | init enable =>
    cases enable with
    | true =>
      obtain ⟨rr, br, he, hrr, _, hbr, _⟩ := corex_init_enable_eq K hw tr
      simp only [CorexOp.run]
      rw [he]
      simp only [startPulses_append, startPulses_busy_reads br hbr,
        startPulses_reset_reads rr hrr]
      simp [startPulses, writesToField]
    | false =>
      obtain ⟨br, he, hbr, _⟩ := corex_init_disable_eq K hw tr
      simp only [CorexOp.run]
      rw [he]
      simp only [startPulses_append, startPulses_busy_reads br hbr]
      simp [startPulses, writesToField]
  | update_type set_id type =>
    cases set_id <;>
      simp [CorexOp.run, rgbp_hw_s_corex_update_type, RGBP_SET_F, startPulses, writesToField]
  | start enable =>
    cases enable with
    | true =>
      obtain ⟨br, he, hbr, _⟩ := corex_start_eq K hw tr
      simp only [CorexOp.run]
      rw [he]
      simp only [startPulses_append, startPulses_busy_reads br hbr]
      simp [startPulses, writesToField]
    | false =>
      simp [CorexOp.run, rgbp_hw_s_corex_start]
  | wait_idle =>
    obtain ⟨br, he, hbr, _⟩ := wait_corex_idle_reads K hw tr
    simp only [CorexOp.run]
    rw [he]
    simp [startPulses_append, startPulses_busy_reads br hbr]

theorem runCorexOps_append (K : Consts) (hw : Hw) (a b : List CorexOp) (tr : List Access) :
    runCorexOps K hw (a ++ b) tr = runCorexOps K hw b (runCorexOps K hw a tr) := by
  simp [runCorexOps, List.foldl_append]

theorem startPulses_run (K : Consts) (hw : Hw) (cs : List CorexOp) (tr : List Access) :
    startPulses (runCorexOps K hw cs tr) =
      startPulses tr ++ List.replicate (cs.count (CorexOp.start true)) 1 := by
  induction cs generalizing tr with
  | nil => simp [runCorexOps]
  | cons c cs ih =>
    have h := ih (c.run K hw tr)
    simp only [runCorexOps, List.foldl_cons] at h ⊢
    rw [h, startPulses_step]
    by_cases hc : c = CorexOp.start true
    · subst hc
      simp [List.replicate_succ]
    · have hc2 : ¬ (CorexOp.start true = c) := fun h => hc h.symm
      simp [hc, List.count_cons, hc2]

/-- C21 as stated fails: `rgbp_hw_s_corex_start(enable = true)` called first,
with no `rgbp_hw_s_corex_init` before it, writes the start pulse. -/
theorem corex_start_unguarded_counterexample :
    ¬ start_only_when_armed sampleConsts zeroHw [CorexOp.start true] := by
  intro h
  have h1 := h 0 (by decide)
  simp only [List.take, startPulses_run] at h1
  exact absurd (h1 (by decide)) (by decide)

/-- C21 (amended): the driver does not check the COREX state before the start
pulse.  Along every sequence of calls the start pulses written are exactly one
per call of `rgbp_hw_s_corex_start(enable = true)`; such a call writes the pulse
whatever calls came before it; so the pulse stays behind an enabling
`rgbp_hw_s_corex_init` exactly for the call sequences in which the caller puts
every enabled start after an enabling init that no later disable has undone. -/
theorem corex_start_pulses (K : Consts) (hw : Hw) (cs : List CorexOp) (tr : List Access) :
    startPulses (runCorexOps K hw cs tr) =
      startPulses tr ++ List.replicate (cs.count (CorexOp.start true)) 1 ∧
    startPulses (runCorexOps K hw (cs ++ [CorexOp.start true]) tr) =
      startPulses (runCorexOps K hw cs tr) ++ [1] ∧
    (start_only_when_armed K hw cs ↔
      ∀ n, n < cs.length → cs[n]? = some (CorexOp.start true) →
        corex_armed (cs.take n) = true) := by
  refine ⟨startPulses_run K hw cs tr, ?_, ?_⟩
  · rw [runCorexOps_append]
    simp only [runCorexOps, List.foldl_cons, List.foldl_nil]
    rw [startPulses_step]
    simp
  · have key : ∀ n, n < cs.length →
        (startPulses (runCorexOps K hw (cs.take (n + 1)) []) ≠
            startPulses (runCorexOps K hw (cs.take n) []) ↔
          cs[n]? = some (CorexOp.start true)) := by
      intro n hn
      have ht : cs.take (n + 1) = cs.take n ++ [cs[n]] := by
        rw [List.take_succ, List.getElem?_eq_getElem hn]
        rfl
      rw [ht, runCorexOps_append]
      simp only [runCorexOps, List.foldl_cons, List.foldl_nil]
      rw [startPulses_step, List.getElem?_eq_getElem hn]
      by_cases hc : cs[n] = CorexOp.start true
      · simp [hc]
      · simp [hc]
    constructor
    · intro h n hn hc
      exact h n hn ((key n hn).2 hc)
    · intro h n hn hd
      exact h n hn ((key n hn).1 hd)


/-! ## Scaler -/

theorem scaler_coef_eq_branch (S : ScalerConsts) (ratio : Nat) :
    rgbp_hw_get_scaler_coef S ratio = scaler_branch_coef S (scaler_coef_branch S ratio) := by
  unfold rgbp_hw_get_scaler_coef scaler_coef_branch
  split_ifs <;> rfl

theorem scaler_coef_eq_find (S : ScalerConsts) (ratio : Nat) :
    rgbp_hw_get_scaler_coef S ratio =
      match (scaler_buckets S).find? (fun b => decide (ratio ≤ b.1)) with
      | some b => b.2
      | none => S.RGBP_COEFF_X2_8 := by
  unfold rgbp_hw_get_scaler_coef scaler_buckets
  simp only [gt_iff_lt, ← not_le]
  by_cases h8 : ratio ≤ S.RGBP_RATIO_X8_8
  · simp [List.find?, h8]
  by_cases h7 : ratio ≤ S.RGBP_RATIO_X7_8
  · simp [List.find?, h8, h7]
  by_cases h6 : ratio ≤ S.RGBP_RATIO_X6_8
  · simp [List.find?, h8, h7, h6]
  by_cases h5 : ratio ≤ S.RGBP_RATIO_X5_8
  · simp [List.find?, h8, h7, h6, h5]
  by_cases h4 : ratio ≤ S.RGBP_RATIO_X4_8
  · simp [List.find?, h8, h7, h6, h5, h4]
  by_cases h3 : ratio ≤ S.RGBP_RATIO_X3_8
  · simp [List.find?, h8, h7, h6, h5, h4, h3]
  by_cases h2 : ratio ≤ S.RGBP_RATIO_X2_8
  · simp [List.find?, h8, h7, h6, h5, h4, h3, h2]
  · simp [List.find?, h8, h7, h6, h5, h4, h3, h2]

theorem scaler_else_iff (S : ScalerConsts) (hinc : S.increasing) (ratio : Nat) :
    scaler_coef_branch S ratio = 7 ↔ S.RGBP_RATIO_X2_8 < ratio := by
  obtain ⟨h1, h2, h3, h4, h5, h6⟩ := hinc
  unfold scaler_coef_branch
  split_ifs <;> constructor <;> intro h <;> first | contradiction | omega

/-- C26 as stated fails: the final `else` is reachable.  With the sample
thresholds the ratio `RGBP_RATIO_X2_8 + 1` takes it. -/
theorem scaler_else_reachable_counterexample :
    sampleScaler.increasing ∧ ¬ scaler_else_unreachable sampleScaler := by
  refine ⟨by decide, ?_⟩
  intro h
  exact h 4194305 (by decide) (by decide)

/-- C26 (amended): given strictly increasing thresholds, for every ratio
`rgbp_hw_get_scaler_coef` returns the coefficient set of the first bucket whose
upper threshold is `>= ratio`, and `RGBP_COEFF_X2_8` for every ratio above
`RGBP_RATIO_X2_8`; the final `else` returns the same set as the lowest explicit
case and is the branch taken for exactly the ratios above `RGBP_RATIO_X2_8`. -/
theorem scaler_coef_spec (S : ScalerConsts) (hinc : S.increasing) (ratio : Nat) :
    (rgbp_hw_get_scaler_coef S ratio =
      match (scaler_buckets S).find? (fun b => decide (ratio ≤ b.1)) with
      | some b => b.2
      | none => S.RGBP_COEFF_X2_8) ∧
    (S.RGBP_RATIO_X2_8 < ratio → rgbp_hw_get_scaler_coef S ratio = S.RGBP_COEFF_X2_8) ∧
    rgbp_hw_get_scaler_coef S ratio = scaler_branch_coef S (scaler_coef_branch S ratio) ∧
    scaler_branch_coef S 7 = scaler_branch_coef S 6 ∧
    (scaler_coef_branch S ratio = 7 ↔ S.RGBP_RATIO_X2_8 < ratio) := by
  refine ⟨scaler_coef_eq_find S ratio, ?_, scaler_coef_eq_branch S ratio, rfl,
    scaler_else_iff S hinc ratio⟩
  intro h
  rw [scaler_coef_eq_branch, (scaler_else_iff S hinc ratio).2 h]
  rfl

/-- C26 (amended) at the sample thresholds: the ratio `RGBP_RATIO_X2_8 + 1`
takes the final `else` and gets `RGBP_COEFF_X2_8`. -/
theorem scaler_coef_spec_witness :
    sampleScaler.increasing ∧
    scaler_coef_branch sampleScaler 4194305 = 7 ∧
    rgbp_hw_get_scaler_coef sampleScaler 4194305 = sampleScaler.RGBP_COEFF_X2_8 :=
  ⟨by decide,
   (scaler_coef_spec sampleScaler (by decide) 4194305).2.2.2.2.2 (by decide),
   (scaler_coef_spec sampleScaler (by decide) 4194305).2.1 (by decide)⟩

/-- C29: the accesses of `rgbp_hw_s_yuvsc_coef` do not depend on `hratio`: it
writes horizontal initial phase offset 0 and vertical initial phase offset
`vratio >> 1` when `vratio < RGBP_RATIO_X8_8` and 0 otherwise;
`rgbp_hw_s_upsc_coef` writes 0 to both phase offsets; neither writes a value
taken from `rgbp_hw_get_scaler_coef`: the accesses are the same for every choice
of the coefficient sets and of the thresholds other than `RGBP_RATIO_X8_8`. -/
theorem scaler_coef_writes (S S2 : ScalerConsts) (set_id hratio1 hratio2 vratio : Nat)
    (tr : List Access) :
    rgbp_hw_s_yuvsc_coef S set_id hratio1 vratio tr =
      rgbp_hw_s_yuvsc_coef S set_id hratio2 vratio tr ∧
    rgbp_hw_s_yuvsc_coef S set_id hratio1 vratio tr =
      tr ++ [Access.setF RGBP_R_YUV_SC_H_INIT_PHASE_OFFSET RGBP_F_YUV_SC_H_INIT_PHASE_OFFSET 0,
             Access.setF RGBP_R_YUV_SC_V_INIT_PHASE_OFFSET RGBP_F_YUV_SC_V_INIT_PHASE_OFFSET
               (if vratio < S.RGBP_RATIO_X8_8 then vratio >>> 1 else 0)] ∧
    rgbp_hw_s_upsc_coef S set_id hratio1 vratio tr =
      tr ++ [Access.setF RGBP_R_YUV_SC_H_INIT_PHASE_OFFSET RGBP_F_YUV_SC_H_INIT_PHASE_OFFSET 0,
             Access.setF RGBP_R_YUV_SC_V_INIT_PHASE_OFFSET RGBP_F_YUV_SC_V_INIT_PHASE_OFFSET 0] ∧
    (S2.RGBP_RATIO_X8_8 = S.RGBP_RATIO_X8_8 →
      rgbp_hw_s_yuvsc_coef S2 set_id hratio1 vratio tr =
        rgbp_hw_s_yuvsc_coef S set_id hratio1 vratio tr) ∧
    rgbp_hw_s_upsc_coef S2 set_id hratio1 vratio tr =
      rgbp_hw_s_upsc_coef S set_id hratio1 vratio tr := by
  refine ⟨rfl, ?_, ?_, ?_, rfl⟩
  · simp [rgbp_hw_s_yuvsc_coef, rgbp_hw_s_h_init_phase_offset, rgbp_hw_s_v_init_phase_offset,
      RGBP_SET_F]
  · simp [rgbp_hw_s_upsc_coef, rgbp_hw_s_h_init_phase_offset, rgbp_hw_s_v_init_phase_offset,
      RGBP_SET_F]
  · intro h
    simp only [rgbp_hw_s_yuvsc_coef, h]


/-! ## DMA: read channels are uncompressed -/

/-- C27: for an enabled read channel with a valid role, `rgbp_hw_s_rdma_init`
stores 0 through `sbwc_en` and `payload_size`, resolves the format with
compression 0, takes the stride from `is_hw_dma_get_img_stride` with alignment
16 and issues exactly `dma_enable`, `dma_set_format`, `dma_set_size`,
`dma_set_img_stride`, `dma_votf_enable`, in that order; the result is the same
for every `sbwc_type` of the parameter blocks. -/
theorem rdma_init_uncompressed (K : Consts) (E : DmaEnv) (id : DmaId)
    (param_set : rgbp_param_set) (enable in_crop_size_x cache_hint in_rgb : Nat)
    (ops : List DmaOp) (hen : enable ≠ 0) (hrole : is_rdma_role id = true) :
    ∃ dma_input,
      rdma_init_select id param_set in_rgb = some dma_input ∧
      (rgbp_hw_s_rdma_init K E id param_set enable in_crop_size_x cache_hint in_rgb
        ops).sbwc_en = some 0 ∧
      (rgbp_hw_s_rdma_init K E id param_set enable in_crop_size_x cache_hint in_rgb
        ops).payload_size = some 0 ∧
      (rgbp_hw_s_rdma_init K E id param_set enable in_crop_size_x cache_hint in_rgb
        ops).ops =
        ops ++
          [DmaOp.dma_enable enable,
           DmaOp.dma_set_format
             (E.is_hw_dma_get_bayer_format dma_input.bitwidth ((dma_input.msb + 1) % U32)
               dma_input.format 0 true).2 K.DMA_FMT_BAYER,
           DmaOp.dma_set_size dma_input.width dma_input.height,
           DmaOp.dma_set_img_stride
             (E.is_hw_dma_get_img_stride dma_input.bitwidth ((dma_input.msb + 1) % U32)
               dma_input.format dma_input.width 16 true) 0 0,
           DmaOp.dma_votf_enable dma_input.v_otf_enable 0] ∧
      ∀ t, rgbp_hw_s_rdma_init K E id (rdma_with_sbwc_type param_set t) enable in_crop_size_x
          cache_hint in_rgb ops =
        rgbp_hw_s_rdma_init K E id param_set enable in_crop_size_x cache_hint in_rgb ops := by
  have hsel : ∃ dma_input, rdma_init_select id param_set in_rgb = some dma_input ∧
      ∀ t, rdma_init_select id (rdma_with_sbwc_type param_set t) in_rgb =
        some { dma_input with sbwc_type := t } := by
    cases id <;> simp [is_rdma_role] at hrole
    · by_cases hr : in_rgb = 0
      · exact ⟨param_set.dma_input, by simp [rdma_init_select, hr],
          fun t => by simp [rdma_init_select, hr, rdma_with_sbwc_type]⟩
      · exact ⟨param_set.dma_input_rgb, by simp [rdma_init_select, hr],
          fun t => by simp [rdma_init_select, hr, rdma_with_sbwc_type]⟩
    · exact ⟨param_set.dma_input_rgb, by simp [rdma_init_select],
        fun t => by simp [rdma_init_select, rdma_with_sbwc_type]⟩
    · exact ⟨param_set.dma_input_rgb, by simp [rdma_init_select],
        fun t => by simp [rdma_init_select, rdma_with_sbwc_type]⟩
  obtain ⟨dma_input, hs, hst⟩ := hsel
  refine ⟨dma_input, hs, ?_, ?_, ?_, ?_⟩
  · simp [rgbp_hw_s_rdma_init, hen, hs]
  · simp [rgbp_hw_s_rdma_init, hen, hs]
  · simp [rgbp_hw_s_rdma_init, hen, hs, CALL_DMA_OPS]
  · intro t
    simp [rgbp_hw_s_rdma_init, hen, hs, hst t]

/-- C27 at concrete inputs: the bayer read channel with `sbwc_type = 2`. -/
theorem rdma_init_uncompressed_witness :
    (rgbp_hw_s_rdma_init sampleConsts sampleEnv DmaId.RGBP_RDMA_BYR
        (rdma_with_sbwc_type (sampleParams 0 512 1024 0) 2) 1 0 0 0 []).sbwc_en = some 0 ∧
    (rgbp_hw_s_rdma_init sampleConsts sampleEnv DmaId.RGBP_RDMA_BYR
        (rdma_with_sbwc_type (sampleParams 0 512 1024 0) 2) 1 0 0 0 []).ops =
      [DmaOp.dma_enable 1, DmaOp.dma_set_format (some 0) 1, DmaOp.dma_set_size 512 1024,
       DmaOp.dma_set_img_stride 1024 0 0, DmaOp.dma_votf_enable 0 0] := by
  obtain ⟨d, hs, h1, _, h3, _⟩ := rdma_init_uncompressed sampleConsts sampleEnv
    DmaId.RGBP_RDMA_BYR (rdma_with_sbwc_type (sampleParams 0 512 1024 0) 2) 1 0 0 0 []
    (by decide) rfl
  refine ⟨h1, ?_⟩
  have hd : d = { sampleInput 0 512 1024 with sbwc_type := 2 } := by
    have : rdma_init_select DmaId.RGBP_RDMA_BYR
        (rdma_with_sbwc_type (sampleParams 0 512 1024 0) 2) 0 =
        some { sampleInput 0 512 1024 with sbwc_type := 2 } := by decide
    rw [this] at hs
    exact (Option.some.inj hs).symm
  rw [h3, hd]
  decide

/-! ## Parameter update -/

/-- Closed form of `rgbp_hw_update_param`: every block is chosen by its bit. -/
theorem update_param_eq (P : ParamIds) (src : rgbp_param) (pmap : Nat) (dst : rgbp_param_set) :
    rgbp_hw_update_param P src pmap dst =
      { dst with
        otf_input := if test_bit P.PARAM_RGBP_OTF_INPUT pmap then src.otf_input
          else dst.otf_input
        otf_output := if test_bit P.PARAM_RGBP_OTF_OUTPUT pmap then src.otf_output
          else dst.otf_output
        dma_output_yuv := if test_bit P.PARAM_RGBP_YUV pmap then src.yuv
          else dst.dma_output_yuv
        dma_output_hf := if test_bit P.PARAM_RGBP_HF pmap then src.hf else dst.dma_output_hf
        dma_output_sf := if test_bit P.PARAM_RGBP_SF pmap then src.sf else dst.dma_output_sf
        stripe_input := if test_bit P.PARAM_RGBP_STRIPE_INPUT pmap then src.stripe_input
          else dst.stripe_input
        dma_input := if test_bit P.PARAM_RGBP_DMA_INPUT pmap then src.dma_input
          else dst.dma_input
        dma_output_rgb := if test_bit P.PARAM_RGBP_RGB pmap then src.rgb
          else dst.dma_output_rgb } := by
  rfl

/-- C28: `rgbp_hw_update_param` makes each of the eight parameter blocks of `dst`
equal to the corresponding block of `src` when its bit is set in the bitmap and
leaves it unchanged otherwise; `dma_input_rgb` and the address arrays are
unchanged; an empty bitmap leaves `dst` unchanged, and applying the update
twice equals applying it once. -/
theorem update_param_spec (P : ParamIds) (src : rgbp_param) (pmap : Nat)
    (dst : rgbp_param_set) :
    (rgbp_hw_update_param P src pmap dst).otf_input =
      (if test_bit P.PARAM_RGBP_OTF_INPUT pmap then src.otf_input else dst.otf_input) ∧
    (rgbp_hw_update_param P src pmap dst).otf_output =
      (if test_bit P.PARAM_RGBP_OTF_OUTPUT pmap then src.otf_output else dst.otf_output) ∧
    (rgbp_hw_update_param P src pmap dst).dma_output_yuv =
      (if test_bit P.PARAM_RGBP_YUV pmap then src.yuv else dst.dma_output_yuv) ∧
    (rgbp_hw_update_param P src pmap dst).dma_output_hf =
      (if test_bit P.PARAM_RGBP_HF pmap then src.hf else dst.dma_output_hf) ∧
    (rgbp_hw_update_param P src pmap dst).dma_output_sf =
      (if test_bit P.PARAM_RGBP_SF pmap then src.sf else dst.dma_output_sf) ∧
    (rgbp_hw_update_param P src pmap dst).stripe_input =
      (if test_bit P.PARAM_RGBP_STRIPE_INPUT pmap then src.stripe_input
        else dst.stripe_input) ∧
    (rgbp_hw_update_param P src pmap dst).dma_input =
      (if test_bit P.PARAM_RGBP_DMA_INPUT pmap then src.dma_input else dst.dma_input) ∧
    (rgbp_hw_update_param P src pmap dst).dma_output_rgb =
      (if test_bit P.PARAM_RGBP_RGB pmap then src.rgb else dst.dma_output_rgb) ∧
    (rgbp_hw_update_param P src pmap dst).dma_input_rgb = dst.dma_input_rgb ∧
    (rgbp_hw_update_param P src pmap dst).input_dva = dst.input_dva ∧
    (rgbp_hw_update_param P src pmap dst).input_dva_rgb = dst.input_dva_rgb ∧
    (rgbp_hw_update_param P src pmap dst).output_dva_yuv = dst.output_dva_yuv ∧
    (rgbp_hw_update_param P src pmap dst).output_dva_hf = dst.output_dva_hf ∧
    (rgbp_hw_update_param P src pmap dst).output_dva_sf = dst.output_dva_sf ∧
    (rgbp_hw_update_param P src pmap dst).output_dva_rgb = dst.output_dva_rgb ∧
    rgbp_hw_update_param P src 0 dst = dst ∧
    rgbp_hw_update_param P src pmap (rgbp_hw_update_param P src pmap dst) =
      rgbp_hw_update_param P src pmap dst := by
  refine ⟨?_, ?_, ?_, ?_, ?_, ?_, ?_, ?_, ?_, ?_, ?_, ?_, ?_, ?_, ?_, ?_, ?_⟩
  case refine_16 =>
    rw [update_param_eq]
    simp [test_bit]
  case refine_17 =>
    rw [update_param_eq P src pmap (rgbp_hw_update_param P src pmap dst), update_param_eq]
    simp only [rgbp_param_set.mk.injEq]
    refine ⟨?_, ?_, ?_, ?_, ?_, ?_, ?_, ?_, ?_, ?_, ?_, ?_, ?_, ?_, ?_⟩ <;>
      first | trivial | rfl | (split_ifs <;> rfl)
  all_goals rw [update_param_eq]


/-! ## Register fields -/

theorem testBit_field_mask (f : FieldDesc) (i : Nat) :
    (field_mask f).testBit i =
      (decide (f.bit_start ≤ i) && decide (i - f.bit_start < f.bit_width)) := by
  simp [field_mask, Nat.testBit_shiftLeft, Nat.one_shiftLeft, Nat.testBit_two_pow_sub_one]

theorem testBit_set_field (reg : Nat) (f : FieldDesc) (val i : Nat) :
    (is_hw_set_field_value reg f val).testBit i =
      (decide (i < 32) &&
        (if f.bit_start ≤ i ∧ i - f.bit_start < f.bit_width then val.testBit (i - f.bit_start)
         else reg.testBit i)) := by
  unfold is_hw_set_field_value U32
  rw [Nat.testBit_mod_two_pow]
  simp only [Nat.testBit_or, Nat.testBit_xor, Nat.testBit_and, testBit_field_mask,
    Nat.testBit_shiftLeft]
  by_cases h1 : f.bit_start ≤ i <;> by_cases h2 : i - f.bit_start < f.bit_width <;>
    simp [h1, h2]

theorem testBit_get_field (reg : Nat) (f : FieldDesc) (j : Nat) :
    (is_hw_get_field_value reg f).testBit j =
      (decide (j < f.bit_width) && reg.testBit (f.bit_start + j)) := by
  unfold is_hw_get_field_value
  simp only [Nat.testBit_shiftRight, Nat.testBit_and, testBit_field_mask]
  by_cases h : j < f.bit_width <;> simp [h, Bool.and_comm]

/-- Reading back a field that was just written gives the written value
truncated to the width of the field. -/
theorem get_set_same (reg : Nat) (f : FieldDesc) (val : Nat)
    (h32 : f.bit_start + f.bit_width ≤ 32) :
    is_hw_get_field_value (is_hw_set_field_value reg f val) f =
      val &&& ((1 <<< f.bit_width) - 1) := by
  apply Nat.eq_of_testBit_eq
  intro j
  rw [testBit_get_field, testBit_set_field]
  simp only [Nat.testBit_and, Nat.one_shiftLeft, Nat.testBit_two_pow_sub_one]
  by_cases h : j < f.bit_width
  · have h1 : f.bit_start + j < 32 := by omega
    simp [h, h1]
  · simp [h]

/-- Writing a field leaves every field on other bits of the register as it was. -/
theorem get_set_other (reg : Nat) (f g : FieldDesc) (val : Nat)
    (h32 : g.bit_start + g.bit_width ≤ 32)
    (hd : f.bit_start + f.bit_width ≤ g.bit_start ∨ g.bit_start + g.bit_width ≤ f.bit_start) :
    is_hw_get_field_value (is_hw_set_field_value reg f val) g =
      is_hw_get_field_value reg g := by
  apply Nat.eq_of_testBit_eq
  intro j
  rw [testBit_get_field, testBit_get_field, testBit_set_field]
  by_cases h : j < g.bit_width
  · have h1 : g.bit_start + j < 32 := by omega
    have h2 : ¬ (f.bit_start ≤ g.bit_start + j ∧
        g.bit_start + j - f.bit_start < f.bit_width) := by
      omega
    simp [h, h1, h2]
  · simp [h]

theorem regFile_append (L : Field → FieldDesc) (init : Reg → Nat) (a b : List Access) :
    regFile L init (a ++ b) = regFile L (regFile L init a) b := by
  simp [regFile, List.foldl_append]

/-- C22: on hardware whose registers hold what was written to them, for every
initial register state and every `h`, `v`, `rgbp_hw_s_yuvsc_dst_size(h, v)`
followed by `rgbp_hw_g_yuvsc_dst_size` yields `h & ((1 << wh) - 1)` and
`v & ((1 << wv) - 1)`, where the H-size and V-size fields lie on disjoint bits
of one 32-bit register: each field round-trips with truncation and the write of
the second field does not disturb the first. -/
theorem yuvsc_dst_size_roundtrip (L : Field → FieldDesc) (init : Reg → Nat)
    (tr : List Access) (set_id h v : Nat)
    (hH : (L RGBP_F_YUV_SC_DST_HSIZE).bit_start + (L RGBP_F_YUV_SC_DST_HSIZE).bit_width ≤ 32)
    (hV : (L RGBP_F_YUV_SC_DST_VSIZE).bit_start + (L RGBP_F_YUV_SC_DST_VSIZE).bit_width ≤ 32)
    (hd : (L RGBP_F_YUV_SC_DST_HSIZE).bit_start + (L RGBP_F_YUV_SC_DST_HSIZE).bit_width ≤
          (L RGBP_F_YUV_SC_DST_VSIZE).bit_start ∨
        (L RGBP_F_YUV_SC_DST_VSIZE).bit_start + (L RGBP_F_YUV_SC_DST_VSIZE).bit_width ≤
          (L RGBP_F_YUV_SC_DST_HSIZE).bit_start) :
    (rgbp_hw_g_yuvsc_dst_size (memHw L init) set_id
        (rgbp_hw_s_yuvsc_dst_size set_id h v tr)).1 =
      (h &&& ((1 <<< (L RGBP_F_YUV_SC_DST_HSIZE).bit_width) - 1),
       v &&& ((1 <<< (L RGBP_F_YUV_SC_DST_VSIZE).bit_width) - 1)) := by
  simp only [rgbp_hw_g_yuvsc_dst_size, rgbp_hw_s_yuvsc_dst_size, RGBP_GET_F, RGBP_SET_F, memHw,
    regFile_append]
  simp only [regFile, List.foldl_cons, List.foldl_nil, regWrite, Function.update_same]
  rw [get_set_same _ _ _ hV, get_set_other _ _ _ _ hH hd.symm, get_set_same _ _ _ hH]

/-- C22 with the horizontal size in bits 0..13 and the vertical size in bits
16..29, from the all-zero register state: 20000 does not fit 14 bits and reads
back as 3616, 1080 reads back unchanged. -/
theorem yuvsc_dst_size_roundtrip_witness :
    (rgbp_hw_g_yuvsc_dst_size (memHw sampleLayout (fun _ => 0)) 0
        (rgbp_hw_s_yuvsc_dst_size 0 20000 1080 [])).1 = (3616, 1080) := by
  rw [yuvsc_dst_size_roundtrip sampleLayout (fun _ => 0) [] 0 20000 1080
    (by decide) (by decide) (by decide)]
  decide


/-! ## MIPI settle lookup -/

theorem kernelAlign_two (x : Nat) : kernelAlign x 2 = x + x % 2 := by
  unfold kernelAlign
  simp only [Nat.add_one_sub_one, Nat.and_one_is_mod]
  omega

/-- The loop of `is_hw_find_settle` ends with enough fuel, reads inside the
table and leaves an even `m` that indexes a pair of the table. -/
theorem find_settle_loop_ok (ALIGN : Nat → Nat → Nat) (T : List Nat) (a : Nat)
    (hA : ∀ x, ALIGN x 2 = x + x % 2) (fuel : Nat) :
    ∀ (s : Nat) (e : Int) (m : Option Nat),
      s % 2 = 0 → e % 2 = 0 → (s : Int) ≤ e + 2 → e + 2 ≤ T.length →
      e + 2 - s < 2 * fuel →
      (∀ m0, m = some m0 → m0 % 2 = 0 ∧ m0 + 1 < T.length) →
      (m = none → (s : Int) ≤ e) →
      ∃ k, 2 * k + 1 < T.length ∧
        is_hw_find_settle_loop ALIGN T a fuel s e m = Outcome.ok (some (2 * k)) := by
  induction fuel with
  | zero =>
    intro s e m _ _ h3 _ h5 _ _
    omega
  | succ fuel ih =>
    intro s e m hs he h3 h4 h5 hm hn
    rw [is_hw_find_settle_loop]
    by_cases hse : (s : Int) ≤ e
    · simp only [hse, if_true]
      have hm1 : ALIGN ((s + e.toNat) / 2) 2 = (s + e.toNat) / 2 + (s + e.toNat) / 2 % 2 := hA _
      have hb1 : (s : Int) ≤ ALIGN ((s + e.toNat) / 2) 2 := by omega
      have hb2 : (ALIGN ((s + e.toNat) / 2) 2 : Int) ≤ e := by omega
      have hb3 : ALIGN ((s + e.toNat) / 2) 2 % 2 = 0 := by omega
      have hlt : ALIGN ((s + e.toNat) / 2) 2 + 1 < T.length := by omega
      have hlt0 : ALIGN ((s + e.toNat) / 2) 2 < T.length := by omega
      rw [List.getElem?_eq_getElem hlt0]
      simp only
      by_cases h1 : T[ALIGN ((s + e.toNat) / 2) 2] = a
      · simp only [h1, if_true]
        exact ⟨ALIGN ((s + e.toNat) / 2) 2 / 2, by omega, by congr 2; omega⟩
      · simp only [h1, if_false]
        by_cases h2 : T[ALIGN ((s + e.toNat) / 2) 2] > a
        · simp only [h2, if_true]
          exact ih _ _ _ (by omega) he (by push_cast; omega) h4 (by push_cast; omega)
            (fun m0 h0 => by cases h0; exact ⟨hb3, hlt⟩) (fun h0 => by cases h0)
        · simp only [h2, if_false]
          exact ih _ _ _ hs (by omega) (by omega) (by omega) (by omega)
            (fun m0 h0 => by cases h0; exact ⟨hb3, hlt⟩) (fun h0 => by cases h0)
    · simp only [hse, if_false]
      cases m with
      | none => exact absurd (hn rfl) hse
      | some m0 =>
        obtain ⟨h1, h2⟩ := hm m0 rfl
        exact ⟨m0 / 2, by omega, by congr 2; omega⟩

theorem find_settle_loop_mono (ALIGN : Nat → Nat → Nat) (T : List Nat) (a : Nat) (fuel : Nat) :
    ∀ (s : Nat) (e : Int) (m : Option Nat) (r : Option Nat),
      is_hw_find_settle_loop ALIGN T a fuel s e m = Outcome.ok r →
      ∀ fuel2, fuel ≤ fuel2 → is_hw_find_settle_loop ALIGN T a fuel2 s e m = Outcome.ok r := by
  induction fuel with
  | zero =>
    intro s e m r h
    simp [is_hw_find_settle_loop] at h
  | succ fuel ih =>
    intro s e m r h fuel2 hle
    obtain ⟨f2, rfl⟩ : ∃ f2, fuel2 = f2 + 1 := ⟨fuel2 - 1, by omega⟩
    rw [is_hw_find_settle_loop] at h ⊢
    by_cases hse : (s : Int) ≤ e
    · simp only [hse, if_true] at h ⊢
      cases hr : T[ALIGN ((s + e.toNat) / 2) 2]? with
      | none => simp [hr] at h
      | some x =>
        simp only [hr] at h ⊢
        by_cases h1 : x = a
        · simpa [h1] using h
        · simp only [h1, if_false] at h ⊢
          by_cases h2 : x > a
          · simp only [h2, if_true] at h ⊢
            exact ih _ _ _ _ h f2 (by omega)
          · simp only [h2, if_false] at h ⊢
            exact ih _ _ _ _ h f2 (by omega)
    · simpa [hse] using h

theorem find_settle_loop_exact (ALIGN : Nat → Nat → Nat) (T : List Nat) (a : Nat)
    (hA : ∀ x, ALIGN x 2 = x + x % 2) (hdec : speeds_decreasing T) (j : Nat)
    (hj : 2 * j + 1 < T.length) (hmatch : T.getD (2 * j) 0 = a) (fuel : Nat) :
    ∀ (s : Nat) (e : Int) (m : Option Nat),
      s % 2 = 0 → e % 2 = 0 → e + 2 ≤ T.length →
      e + 2 - s < 2 * fuel → s ≤ 2 * j → ((2 * j : Nat) : Int) ≤ e →
      is_hw_find_settle_loop ALIGN T a fuel s e m = Outcome.ok (some (2 * j)) := by
  induction fuel with
  | zero =>
    intro s e m _ _ _ h5 h6 h7
    omega
  | succ fuel ih =>
    intro s e m hs he h4 h5 h6 h7
    rw [is_hw_find_settle_loop]
    have hse : (s : Int) ≤ e := by omega
    simp only [hse, if_true]
    have hm1 : ALIGN ((s + e.toNat) / 2) 2 = (s + e.toNat) / 2 + (s + e.toNat) / 2 % 2 := hA _
    have hb1 : (s : Int) ≤ ALIGN ((s + e.toNat) / 2) 2 := by omega
    have hb2 : (ALIGN ((s + e.toNat) / 2) 2 : Int) ≤ e := by omega
    have hb3 : ALIGN ((s + e.toNat) / 2) 2 % 2 = 0 := by omega
    have hlt0 : ALIGN ((s + e.toNat) / 2) 2 < T.length := by omega
    obtain ⟨k, hk⟩ : ∃ k, ALIGN ((s + e.toNat) / 2) 2 = 2 * k :=
      ⟨ALIGN ((s + e.toNat) / 2) 2 / 2, by omega⟩
    rw [hk] at hb1 hb2 hlt0 ⊢
    rw [List.getElem?_eq_getElem hlt0]
    simp only
    have hget : T[2 * k] = T.getD (2 * k) 0 := by
      rw [List.getD_eq_getElem _ _ hlt0]
    rw [hget]
    rcases Nat.lt_trichotomy k j with hkj | hkj | hkj
    · have h1 := hdec k j hkj (by omega)
      rw [hmatch] at h1
      have h2 : ¬ T.getD (2 * k) 0 = a := by omega
      simp only [h2, if_false, gt_iff_lt, h1, if_true]
      exact ih _ _ _ (by omega) he h4 (by push_cast; omega) (by omega) h7
    · subst hkj
      rw [if_pos hmatch]
    · have h1 := hdec j k hkj (by omega)
      rw [hmatch] at h1
      have h2 : ¬ T.getD (2 * k) 0 = a := by omega
      have h3 : ¬ T.getD (2 * k) 0 > a := by omega
      simp only [h2, if_false, h3]
      exact ih _ _ _ hs (by omega) (by omega) (by omega) h6 (by push_cast; omega)

theorem table_read_ok (T : List Nat) (i : Nat) (h : i < T.length) :
    table_read T (i : Int) = Outcome.ok (T.getD i 0) := by
  simp [table_read, List.getElem?_eq_getElem h, List.getD_eq_getElem _ _ h]

/-- C30: for a settle table of even length `>= 2` laid out as (speed, settle)
pairs, with `ALIGN(x, 2)` rounding up to the next even number,
`is_hw_find_settle` returns for every amount of fuel that is at least the table
length; every table index it reads lies inside the table and the value returned
is the settle entry `2 * k + 1` of some pair `k`; when the speeds are strictly
decreasing and the aligned speed equals the speed of pair `j`, the returned
value is the settle entry of pair `j`. -/
theorem find_settle_spec (E : ChainEnv) (mipi_speed use_cphy : Nat)
    (hA : ∀ x, E.ALIGN x 2 = x + x % 2)
    (heven : (settle_table_of E use_cphy).length % 2 = 0)
    (hlen : 2 ≤ (settle_table_of E use_cphy).length) :
    (∃ k, 2 * k + 1 < (settle_table_of E use_cphy).length ∧
      ∀ fuel, (settle_table_of E use_cphy).length ≤ fuel →
        is_hw_find_settle E fuel mipi_speed use_cphy =
          Outcome.ok ((settle_table_of E use_cphy).getD (2 * k + 1) 0)) ∧
    (speeds_decreasing (settle_table_of E use_cphy) →
      ∀ j, 2 * j + 1 < (settle_table_of E use_cphy).length →
        (settle_table_of E use_cphy).getD (2 * j) 0 = E.ALIGN mipi_speed 10 →
        ∀ fuel, (settle_table_of E use_cphy).length ≤ fuel →
          is_hw_find_settle E fuel mipi_speed use_cphy =
            Outcome.ok ((settle_table_of E use_cphy).getD (2 * j + 1) 0)) := by
  have hunf : ∀ fuel, is_hw_find_settle E fuel mipi_speed use_cphy =
      (if (settle_table_of E use_cphy).getD 0 0 < E.ALIGN mipi_speed 10 then
        Outcome.ok ((settle_table_of E use_cphy).getD 1 0)
      else if (settle_table_of E use_cphy).getD ((settle_table_of E use_cphy).length - 2) 0 >
          E.ALIGN mipi_speed 10 then
        Outcome.ok ((settle_table_of E use_cphy).getD
          ((settle_table_of E use_cphy).length - 2 + 1) 0)
      else
        match is_hw_find_settle_loop E.ALIGN (settle_table_of E use_cphy)
            (E.ALIGN mipi_speed 10) fuel 0
            (((settle_table_of E use_cphy).length - 2 : Nat) : Int) none with
        | Outcome.ok (some m) => table_read (settle_table_of E use_cphy) ((m : Int) + 1)
        | Outcome.ok none => Outcome.uninitialised
        | Outcome.out_of_fuel => Outcome.out_of_fuel
        | Outcome.bad_index i => Outcome.bad_index i
        | Outcome.uninitialised => Outcome.uninitialised) := by
    intro fuel
    have e1 : (((settle_table_of E use_cphy).length : Int) - 2) =
        (((settle_table_of E use_cphy).length - 2 : Nat) : Int) := by omega
    have r0 := table_read_ok (settle_table_of E use_cphy) 0 (by omega)
    have r1 := table_read_ok (settle_table_of E use_cphy) 1 (by omega)
    have re := table_read_ok (settle_table_of E use_cphy)
      ((settle_table_of E use_cphy).length - 2) (by omega)
    have re1 := table_read_ok (settle_table_of E use_cphy)
      ((settle_table_of E use_cphy).length - 2 + 1) (by omega)
    have hT : (if use_cphy ≠ 0 then E.is_csi_settle_table_cphy else E.is_csi_settle_table) =
        settle_table_of E use_cphy := rfl
    unfold is_hw_find_settle
    simp only [hT, e1]
    simp only [Nat.cast_zero, Nat.cast_add, Nat.cast_one, zero_add] at r0 r1 re re1 ⊢
    rw [r0]
    simp only
    split_ifs with h1 h2
    · exact r1
    · rw [re]
      simp only [h2, if_true]
      exact re1
    · rw [re]
      simp only [h2, if_false]
  constructor
  · by_cases h1 : (settle_table_of E use_cphy).getD 0 0 < E.ALIGN mipi_speed 10
    · exact ⟨0, by omega, fun fuel _ => by rw [hunf, if_pos h1]⟩
    by_cases h2 : (settle_table_of E use_cphy).getD ((settle_table_of E use_cphy).length - 2) 0 >
        E.ALIGN mipi_speed 10
    · refine ⟨((settle_table_of E use_cphy).length - 2) / 2, by omega, fun fuel _ => ?_⟩
      rw [hunf, if_neg h1, if_pos h2]
      congr 2
      omega
    · obtain ⟨k, hk, hloop⟩ := find_settle_loop_ok E.ALIGN (settle_table_of E use_cphy)
        (E.ALIGN mipi_speed 10) hA (settle_table_of E use_cphy).length 0
        (((settle_table_of E use_cphy).length - 2 : Nat) : Int) none
        (by omega) (by omega) (by omega) (by omega) (by omega) (fun m0 h0 => by cases h0)
        (fun _ => by omega)
      refine ⟨k, hk, fun fuel hf => ?_⟩
      rw [hunf, if_neg h1, if_neg h2,
        find_settle_loop_mono _ _ _ _ _ _ _ _ hloop fuel hf]
      simp only
      have := table_read_ok (settle_table_of E use_cphy) (2 * k + 1) hk
      simpa using this
  · intro hdec j hj hmatch fuel hf
    have h1 : ¬ (settle_table_of E use_cphy).getD 0 0 < E.ALIGN mipi_speed 10 := by
      rw [← hmatch]
      rcases Nat.eq_zero_or_pos j with h0 | h0
      · subst h0
        simp
      · have := hdec 0 j h0 (by omega)
        simp only [Nat.mul_zero] at this
        omega
    have h2 : ¬ (settle_table_of E use_cphy).getD ((settle_table_of E use_cphy).length - 2) 0 >
        E.ALIGN mipi_speed 10 := by
      rw [← hmatch]
      rcases Nat.lt_or_ge j (((settle_table_of E use_cphy).length - 2) / 2) with h0 | h0
      · have := hdec j (((settle_table_of E use_cphy).length - 2) / 2) h0 (by omega)
        have e2 : 2 * (((settle_table_of E use_cphy).length - 2) / 2) =
            (settle_table_of E use_cphy).length - 2 := by omega
        rw [e2] at this
        omega
      · have e2 : (settle_table_of E use_cphy).length - 2 = 2 * j := by omega
        rw [e2]
        omega
    have hloop := find_settle_loop_exact E.ALIGN (settle_table_of E use_cphy)
      (E.ALIGN mipi_speed 10) hA hdec j hj hmatch fuel 0
      (((settle_table_of E use_cphy).length - 2 : Nat) : Int) none
      (by omega) (by omega) (by omega) (by omega) (by omega) (by omega)
    rw [hunf, if_neg h1, if_neg h2, hloop]
    simp only
    have := table_read_ok (settle_table_of E use_cphy) (2 * j + 1) hj
    simpa using this

/-- C30 on a table of three pairs: the speed 1451 is aligned to 1460, the speed
of the second pair, and the settle entry 22 of that pair is returned. -/
theorem find_settle_spec_witness :
    is_hw_find_settle sampleChain 6 1451 0 = Outcome.ok 22 := by
  have hd : speeds_decreasing (settle_table_of sampleChain 0) := by
    intro i j hij hj
    have hj2 : j < 3 := by
      simp [settle_table_of, sampleChain] at hj
      omega
    interval_cases j <;> interval_cases i <;> decide
  exact (find_settle_spec sampleChain 1451 0 kernelAlign_two (by decide) (by decide)).2 hd 1
    (by decide) (by decide) 6 (by decide)


end Rgbp
